/-
Formal verification of the core color-analysis engine of the
`hardcode-replacer` CLI (a JavaScript tool that finds hardcoded color
literals, Tailwind color classes and repeated class patterns in source
trees and matches colors against a design-token palette).

This file is a shallow embedding of the relevant JavaScript sources:
  * `src/color-utils.js`        — color parsing, Lab conversion, matching
  * `src/commands/compare-vars.js` — the comparison pipeline and the
                                     semantic palette matcher
  * the context classifier       — `classifyContext` / `isActionable`
  * `src/commands/find-patterns.js` — the class-pattern aggregator
  * `src/commands/find-tailwind.js` — result ordering of the Tailwind scan

Modelling conventions:
  * JavaScript numbers are modelled as exact rationals (`ℚ`) in the
    computable parsing layer and as real numbers (`ℝ`) in the perceptual
    (Lab) layer; `Math.round` is `⌊x + 1/2⌋` (round half toward +∞,
    exactly JS's behaviour on representable values).
  * JavaScript regexes used by the sources are hand-compiled into
    deterministic scanners over `List Char`; each scanner is annotated
    with the regex it implements.  For the specific regexes appearing in
    the sources the greedy/backtracking behaviour collapses to the
    deterministic scan (the character classes of adjacent tokens are
    disjoint), so the scanners are extensionally the regex matchers.
  * `\s` and string trimming are modelled over the ASCII whitespace
    characters; all claim-relevant inputs are ASCII.
  * Filesystem access (the per-file static analysis record, the variables
    file, the search collaborator) is modelled by passing the data that
    the collaborator would produce as explicit parameters.
-/
import Mathlib

set_option maxRecDepth 100000

/-! ## Basic JavaScript number / string primitives -/

/-- `Math.round` on an exact rational: round half toward +∞. -/
def jsRound (q : ℚ) : ℤ := ⌊q + 1/2⌋

/-- ASCII whitespace, the fragment of the regex class `\s` (and of
`String.prototype.trim`) relevant to this development. -/
def isJsWs (c : Char) : Bool :=
  c == ' ' || c == '\t' || c == '\n' || c == '\r' || c == '\x0b' || c == '\x0c'

/-- JavaScript `String.prototype.trim` (ASCII fragment). -/
def jsTrim (l : List Char) : List Char :=
  ((l.dropWhile isJsWs).reverse.dropWhile isJsWs).reverse

/-- JavaScript `String.prototype.trimStart` (ASCII fragment). -/
def jsTrimStart (l : List Char) : List Char := l.dropWhile isJsWs

/-- JavaScript `String.prototype.toLowerCase` (ASCII fragment). -/
def jsToLower (l : List Char) : List Char := l.map Char.toLower

/-- Value of a hexadecimal digit character, if it is one. -/
def hexVal (c : Char) : Option ℕ :=
  if '0' ≤ c ∧ c ≤ '9' then some (c.toNat - '0'.toNat)
  else if 'a' ≤ c ∧ c ≤ 'f' then some (c.toNat - 'a'.toNat + 10)
  else if 'A' ≤ c ∧ c ≤ 'F' then some (c.toNat - 'A'.toNat + 10)
  else none

/-- Accumulate further hexadecimal digits, stopping at the first
non-digit (the longest-prefix semantics of `parseInt`). -/
def hexAccum : List Char → ℕ → ℕ
  | [], acc => acc
  | c :: rest, acc =>
    match hexVal c with
    | none => acc
    | some v => hexAccum rest (16 * acc + v)

/-- Parse a non-empty longest prefix of hexadecimal digits; `none` when the
first character is not a hexadecimal digit (`parseInt` returns `NaN`). -/
def hexRun : List Char → Option ℕ
  | [] => none
  | c :: rest =>
    match hexVal c with
    | none => none
    | some v => some (hexAccum rest v)

/-- Strip an optional `0x`/`0X` prefix, as `parseInt(·, 16)` does. -/
def drop0x : List Char → List Char
  | '0' :: 'x' :: rest => rest
  | '0' :: 'X' :: rest => rest
  | l => l

/-- JavaScript `parseInt(s, 16)`: skip whitespace, optional sign, optional
`0x` prefix, then the longest prefix of hex digits; `none` models `NaN`. -/
def jsParseInt16 (l : List Char) : Option ℤ :=
  match l.dropWhile isJsWs with
  | [] => none
  | c :: rest =>
    if c = '-' then (hexRun (drop0x rest)).map (fun n => -(n : ℤ))
    else if c = '+' then (hexRun (drop0x rest)).map (fun n => (n : ℤ))
    else (hexRun (drop0x (c :: rest))).map (fun n => (n : ℤ))

/-- JavaScript `s.substring(a, b)` (for `a ≤ b`; clamps at the length). -/
def jsSubstring (l : List Char) (a b : ℕ) : List Char := (l.drop a).take (b - a)

/-- An RGB triple as produced by the parsers (JS numbers, here exact). -/
structure Rgb where
  r : ℚ
  g : ℚ
  b : ℚ
deriving DecidableEq

/-! ## `hexToRgb` (src/color-utils.js)

```js
function hexToRgb(hex) {
  hex = hex.replace('#', '');
  if (hex.length === 3 || hex.length === 4) {
    hex = hex.split('').map(c => c + c).join('');
  }
  const r = parseInt(hex.substring(0, 2), 16);
  const g = parseInt(hex.substring(2, 4), 16);
  const b = parseInt(hex.substring(4, 6), 16);
  if (isNaN(r) || isNaN(g) || isNaN(b)) return null;
  return { r, g, b };
}
```
-/

/-- `hex.replace('#', '')` — `String.replace` with a string pattern removes
only the first occurrence. -/
def replaceFirstHash : List Char → List Char
  | [] => []
  | c :: rest => if c = '#' then rest else c :: replaceFirstHash rest

/-- `hex.split('').map(c => c + c).join('')`: duplicate every character. -/
def dupChars (l : List Char) : List Char :=
  l.foldr (fun c acc => c :: c :: acc) []

/-- The first two statements of `hexToRgb`: strip the first `#`, then
expand a 3- or 4-character string by duplicating every character. -/
def hexNormalize (hex : String) : List Char :=
  let h0 := replaceFirstHash hex.toList
  if h0.length = 3 ∨ h0.length = 4 then dupChars h0 else h0

def hexToRgb (hex : String) : Option Rgb :=
  match jsParseInt16 (jsSubstring (hexNormalize hex) 0 2),
        jsParseInt16 (jsSubstring (hexNormalize hex) 2 4),
        jsParseInt16 (jsSubstring (hexNormalize hex) 4 6) with
  | some r, some g, some b => some ⟨(r : ℚ), (g : ℚ), (b : ℚ)⟩
  | _, _, _ => none

/-- Value of one two-character group under `parseInt(·,16)` longest-prefix
semantics, for groups made of `#`-free ordinary characters: the first
character must be a hex digit, the second contributes only if it is one.
This is the specification-side description used by the amended claim C3. -/
def jsHexPairVal (c1 c2 : Char) : Option ℕ :=
  match hexVal c1 with
  | none => none
  | some v1 =>
    match hexVal c2 with
    | none => some v1
    | some v2 => some (16 * v1 + v2)

/-- Characters that do not trigger the whitespace/sign/`0x` special cases
of `parseInt`; every hex digit qualifies. -/
def plainForParseInt (c : Char) : Prop :=
  isJsWs c = false ∧ c ≠ '+' ∧ c ≠ '-' ∧ c ≠ 'x' ∧ c ≠ 'X'

instance : DecidablePred plainForParseInt := fun _ => by
  unfold plainForParseInt; infer_instance

theorem jsParseInt16_pair (c1 c2 : Char) (h1 : plainForParseInt c1)
    (h2 : c2 ≠ 'x' ∧ c2 ≠ 'X') :
    jsParseInt16 [c1, c2] = (jsHexPairVal c1 c2).map (fun n => (n : ℤ)) := by
  obtain ⟨hw, hp, hm, hx1, hX1⟩ := h1
  obtain ⟨hx2, hX2⟩ := h2
  have h0x : drop0x [c1, c2] = [c1, c2] := by
    unfold drop0x
    split
    · rename_i heq; simp_all
    · rename_i heq; simp_all
    · rfl
  unfold jsParseInt16
  simp only [List.dropWhile_cons, hw, Bool.false_eq_true, if_false, if_neg hm, if_neg hp, h0x]
  unfold jsHexPairVal hexRun
  rcases hv1 : hexVal c1 with _ | v1
  · simp [hv1]
  · rcases hv2 : hexVal c2 with _ | v2 <;> simp [hexAccum, hv1, hv2]

theorem isJsWs_eq_false_iff {c : Char} :
    isJsWs c = false ↔
      c ≠ ' ' ∧ c ≠ '\t' ∧ c ≠ '\n' ∧ c ≠ '\r' ∧ c ≠ '\x0b' ∧ c ≠ '\x0c' := by
  simp [isJsWs, and_assoc]

theorem hexVal_plain {c : Char} (h : (hexVal c).isSome) : plainForParseInt c := by
  unfold hexVal at h
  split at h
  case isTrue hr =>
    exact ⟨isJsWs_eq_false_iff.mpr
        ⟨fun e => by subst e; revert hr; decide, fun e => by subst e; revert hr; decide,
         fun e => by subst e; revert hr; decide, fun e => by subst e; revert hr; decide,
         fun e => by subst e; revert hr; decide, fun e => by subst e; revert hr; decide⟩,
      fun e => by subst e; revert hr; decide, fun e => by subst e; revert hr; decide,
      fun e => by subst e; revert hr; decide, fun e => by subst e; revert hr; decide⟩
  case isFalse =>
    split at h
    case isTrue hr =>
      exact ⟨isJsWs_eq_false_iff.mpr
          ⟨fun e => by subst e; revert hr; decide, fun e => by subst e; revert hr; decide,
           fun e => by subst e; revert hr; decide, fun e => by subst e; revert hr; decide,
           fun e => by subst e; revert hr; decide, fun e => by subst e; revert hr; decide⟩,
        fun e => by subst e; revert hr; decide, fun e => by subst e; revert hr; decide,
        fun e => by subst e; revert hr; decide, fun e => by subst e; revert hr; decide⟩
    case isFalse =>
      split at h
      case isTrue hr =>
        exact ⟨isJsWs_eq_false_iff.mpr
            ⟨fun e => by subst e; revert hr; decide, fun e => by subst e; revert hr; decide,
             fun e => by subst e; revert hr; decide, fun e => by subst e; revert hr; decide,
             fun e => by subst e; revert hr; decide, fun e => by subst e; revert hr; decide⟩,
          fun e => by subst e; revert hr; decide, fun e => by subst e; revert hr; decide,
          fun e => by subst e; revert hr; decide, fun e => by subst e; revert hr; decide⟩
      case isFalse => simp at h

/-- C3 counterexample: the claim says `hexToRgb` fails exactly when one of
the three two-digit groups is not valid hexadecimal.  On `"#1g2233"` the
first group `"1g"` is not valid hexadecimal, yet the parse succeeds with
`r = 1`, because `parseInt('1g', 16)` parses the longest hex-digit prefix
(`"1"`). -/
theorem hexToRgb_c3_counterexample :
    hexToRgb "#1g2233" = some ⟨1, 34, 51⟩ ∧
      ¬ (∀ c ∈ ("1g".toList), (hexVal c).isSome) := by
  constructor
  · decide
  · decide

/-- C3 (amended): `hexToRgb` strips the leading `#`, expands 3/4-digit
shorthands by duplicating each character (the 4th, alpha, digit being
dropped by the 6-character truncation), takes the first 6 characters as
the three groups, and fails exactly when some group yields `NaN` under
`parseInt(·, 16)` — i.e. when the group does not *begin* with a hex digit;
a non-hex second character is silently dropped rather than causing
failure (longest-prefix semantics, `jsHexPairVal`). -/
theorem hexToRgb_amended :
    (∀ c1 c2 c3 c4 c5 c6 : Char,
        plainForParseInt c1 → plainForParseInt c2 → plainForParseInt c3 →
        plainForParseInt c4 → plainForParseInt c5 → plainForParseInt c6 →
        hexToRgb (String.mk ['#', c1, c2, c3, c4, c5, c6]) =
          match jsHexPairVal c1 c2, jsHexPairVal c3 c4, jsHexPairVal c5 c6 with
          | some r, some g, some b => some ⟨(r : ℚ), (g : ℚ), (b : ℚ)⟩
          | _, _, _ => none) ∧
    (∀ c1 c2 c3 : Char, ∀ v1 v2 v3 : ℕ,
        hexVal c1 = some v1 → hexVal c2 = some v2 → hexVal c3 = some v3 →
        hexToRgb (String.mk ['#', c1, c2, c3]) =
          some ⟨((17 * v1 : ℕ) : ℚ), ((17 * v2 : ℕ) : ℚ), ((17 * v3 : ℕ) : ℚ)⟩) ∧
    (∀ c1 c2 c3 c4 : Char, ∀ v1 v2 v3 : ℕ,
        hexVal c1 = some v1 → hexVal c2 = some v2 → hexVal c3 = some v3 →
        hexToRgb (String.mk ['#', c1, c2, c3, c4]) =
          some ⟨((17 * v1 : ℕ) : ℚ), ((17 * v2 : ℕ) : ℚ), ((17 * v3 : ℕ) : ℚ)⟩) ∧
    (∀ c1 c2 c3 c4 c5 c6 c7 c8 : Char, ∀ v1 v2 v3 v4 v5 v6 : ℕ,
        hexVal c1 = some v1 → hexVal c2 = some v2 → hexVal c3 = some v3 →
        hexVal c4 = some v4 → hexVal c5 = some v5 → hexVal c6 = some v6 →
        hexToRgb (String.mk ['#', c1, c2, c3, c4, c5, c6, c7, c8]) =
          some ⟨((16 * v1 + v2 : ℕ) : ℚ), ((16 * v3 + v4 : ℕ) : ℚ),
                ((16 * v5 + v6 : ℕ) : ℚ)⟩) := by
  refine ⟨?_, ?_, ?_, ?_⟩
  · intro c1 c2 c3 c4 c5 c6 h1 h2 h3 h4 h5 h6
    unfold hexToRgb
    have hn : hexNormalize (String.mk ['#', c1, c2, c3, c4, c5, c6]) =
        [c1, c2, c3, c4, c5, c6] := by
      simp [hexNormalize, replaceFirstHash]
    rw [hn]
    have p1 := jsParseInt16_pair c1 c2 h1 ⟨h2.2.2.2.1, h2.2.2.2.2⟩
    have p2 := jsParseInt16_pair c3 c4 h3 ⟨h4.2.2.2.1, h4.2.2.2.2⟩
    have p3 := jsParseInt16_pair c5 c6 h5 ⟨h6.2.2.2.1, h6.2.2.2.2⟩
    have s1 : jsSubstring [c1, c2, c3, c4, c5, c6] 0 2 = [c1, c2] := rfl
    have s2 : jsSubstring [c1, c2, c3, c4, c5, c6] 2 4 = [c3, c4] := rfl
    have s3 : jsSubstring [c1, c2, c3, c4, c5, c6] 4 6 = [c5, c6] := rfl
    rw [s1, s2, s3, p1, p2, p3]
    rcases jsHexPairVal c1 c2 with _ | r <;>
      rcases jsHexPairVal c3 c4 with _ | g <;>
        rcases jsHexPairVal c5 c6 with _ | b <;> simp
  · intro c1 c2 c3 v1 v2 v3 h1 h2 h3
    unfold hexToRgb
    have hn : hexNormalize (String.mk ['#', c1, c2, c3]) = [c1, c1, c2, c2, c3, c3] := by
      simp [hexNormalize, replaceFirstHash, dupChars]
    rw [hn]
    have p1 := jsParseInt16_pair c1 c1 (hexVal_plain (by simp [h1]))
      ⟨(hexVal_plain (by simp [h1])).2.2.2.1, (hexVal_plain (by simp [h1])).2.2.2.2⟩
    have p2 := jsParseInt16_pair c2 c2 (hexVal_plain (by simp [h2]))
      ⟨(hexVal_plain (by simp [h2])).2.2.2.1, (hexVal_plain (by simp [h2])).2.2.2.2⟩
    have p3 := jsParseInt16_pair c3 c3 (hexVal_plain (by simp [h3]))
      ⟨(hexVal_plain (by simp [h3])).2.2.2.1, (hexVal_plain (by simp [h3])).2.2.2.2⟩
    have s1 : jsSubstring [c1, c1, c2, c2, c3, c3] 0 2 = [c1, c1] := rfl
    have s2 : jsSubstring [c1, c1, c2, c2, c3, c3] 2 4 = [c2, c2] := rfl
    have s3 : jsSubstring [c1, c1, c2, c2, c3, c3] 4 6 = [c3, c3] := rfl
    rw [s1, s2, s3, p1, p2, p3]
    simp [jsHexPairVal, h1, h2, h3]
    all_goals refine ⟨?_, ?_, ?_⟩ <;> first | trivial | (push_cast ; ring)
  · intro c1 c2 c3 c4 v1 v2 v3 h1 h2 h3
    unfold hexToRgb
    have hn : hexNormalize (String.mk ['#', c1, c2, c3, c4]) =
        [c1, c1, c2, c2, c3, c3, c4, c4] := by
      simp [hexNormalize, replaceFirstHash, dupChars]
    rw [hn]
    have p1 := jsParseInt16_pair c1 c1 (hexVal_plain (by simp [h1]))
      ⟨(hexVal_plain (by simp [h1])).2.2.2.1, (hexVal_plain (by simp [h1])).2.2.2.2⟩
    have p2 := jsParseInt16_pair c2 c2 (hexVal_plain (by simp [h2]))
      ⟨(hexVal_plain (by simp [h2])).2.2.2.1, (hexVal_plain (by simp [h2])).2.2.2.2⟩
    have p3 := jsParseInt16_pair c3 c3 (hexVal_plain (by simp [h3]))
      ⟨(hexVal_plain (by simp [h3])).2.2.2.1, (hexVal_plain (by simp [h3])).2.2.2.2⟩
    have s1 : jsSubstring [c1, c1, c2, c2, c3, c3, c4, c4] 0 2 = [c1, c1] := rfl
    have s2 : jsSubstring [c1, c1, c2, c2, c3, c3, c4, c4] 2 4 = [c2, c2] := rfl
    have s3 : jsSubstring [c1, c1, c2, c2, c3, c3, c4, c4] 4 6 = [c3, c3] := rfl
    rw [s1, s2, s3, p1, p2, p3]
    simp [jsHexPairVal, h1, h2, h3]
    all_goals refine ⟨?_, ?_, ?_⟩ <;> first | trivial | (push_cast ; ring)
  · intro c1 c2 c3 c4 c5 c6 c7 c8 v1 v2 v3 v4 v5 v6 h1 h2 h3 h4 h5 h6
    unfold hexToRgb
    have hn : hexNormalize (String.mk ['#', c1, c2, c3, c4, c5, c6, c7, c8]) =
        [c1, c2, c3, c4, c5, c6, c7, c8] := by
      simp [hexNormalize, replaceFirstHash]
    rw [hn]
    have p1 := jsParseInt16_pair c1 c2 (hexVal_plain (by simp [h1]))
      ⟨(hexVal_plain (by simp [h2])).2.2.2.1, (hexVal_plain (by simp [h2])).2.2.2.2⟩
    have p2 := jsParseInt16_pair c3 c4 (hexVal_plain (by simp [h3]))
      ⟨(hexVal_plain (by simp [h4])).2.2.2.1, (hexVal_plain (by simp [h4])).2.2.2.2⟩
    have p3 := jsParseInt16_pair c5 c6 (hexVal_plain (by simp [h5]))
      ⟨(hexVal_plain (by simp [h6])).2.2.2.1, (hexVal_plain (by simp [h6])).2.2.2.2⟩
    have s1 : jsSubstring [c1, c2, c3, c4, c5, c6, c7, c8] 0 2 = [c1, c2] := rfl
    have s2 : jsSubstring [c1, c2, c3, c4, c5, c6, c7, c8] 2 4 = [c3, c4] := rfl
    have s3 : jsSubstring [c1, c2, c3, c4, c5, c6, c7, c8] 4 6 = [c5, c6] := rfl
    rw [s1, s2, s3, p1, p2, p3]
    simp [jsHexPairVal, h1, h2, h3, h4, h5, h6]
    all_goals refine ⟨?_, ?_, ?_⟩ <;> first | trivial | (push_cast ; ring)

/-- C3 amended-claim witness: the general theorem evaluated at `"#10b981"`
and, for the shorthand clause, at `"#abc"`. -/
theorem hexToRgb_amended_witness :
    hexToRgb "#10b981" = some ⟨16, 185, 129⟩ ∧ hexToRgb "#abc" = some ⟨170, 187, 204⟩ := by
  constructor
  · have := hexToRgb_amended.1 '1' '0' 'b' '9' '8' '1'
      (by decide) (by decide) (by decide) (by decide) (by decide) (by decide)
    rw [show String.mk ['#', '1', '0', 'b', '9', '8', '1'] = "#10b981" from rfl] at this
    rw [this]; decide
  · have := hexToRgb_amended.2.1 'a' 'b' 'c' 10 11 12 (by decide) (by decide) (by decide)
    rw [show String.mk ['#', 'a', 'b', 'c'] = "#abc" from rfl] at this
    rw [this]; decide

/-! ## Scanner combinators for the source regexes -/

/-- The regex character class `[\d.]` (ASCII digits and the dot). -/
def isNumChar (c : Char) : Bool := c.isDigit || c == '.'

/-- A list-of-chars `startsWith`. -/
def startsWithL : List Char → List Char → Bool
  | _, [] => true
  | [], _ :: _ => false
  | c :: cs, p :: ps => c == p && startsWithL cs ps

/-- Does `pat` occur as a contiguous substring of `hay`
(JavaScript `String.prototype.includes`)? -/
def containsSub (hay pat : List Char) : Bool :=
  match hay with
  | [] => startsWithL [] pat
  | _ :: rest => startsWithL hay pat || containsSub rest pat

/-- Consume a literal token. -/
def expectLit : List Char → List Char → Option (List Char)
  | [], l => some l
  | p :: ps, c :: cs => if c = p then expectLit ps cs else none
  | _ :: _, [] => none

/-- Consume one expected character. -/
def expectChar (c : Char) : List Char → Option (List Char)
  | x :: rest => if x = c then some rest else none
  | [] => none

/-- `\s*`. -/
def skipWs (l : List Char) : List Char := l.dropWhile isJsWs

/-- `\s+`: at least one whitespace character. -/
def ws1 : List Char → Option (List Char)
  | c :: rest => if isJsWs c then some (rest.dropWhile isJsWs) else none
  | [] => none

/-- An optional single character `c?`, in positions where the token that
follows can never start with `c`, so that consuming greedily is exact. -/
def optChar (c : Char) (l : List Char) : List Char :=
  match l with
  | x :: rest => if x = c then rest else l
  | [] => l

/-- `([\d.]+)`: a non-empty greedy run of digits/dots. -/
def num1 (l : List Char) : Option (List Char × List Char) :=
  match l.span isNumChar with
  | ([], _) => none
  | (d, rest) => some (d, rest)

/-- Try an anchored scanner at every position, left to right — the
unanchored search of `String.prototype.match`. -/
def firstMatch {α : Type} (tryAt : List Char → Option α) : List Char → Option α
  | [] => tryAt []
  | c :: rest =>
    match tryAt (c :: rest) with
    | some r => some r
    | none => firstMatch tryAt rest

/-- Numeric value of a digit string (most significant first). -/
def digitsVal (l : List Char) : ℕ :=
  l.foldl (fun acc c => 10 * acc + (c.toNat - '0'.toNat)) 0

/-- JavaScript `parseFloat`, restricted to strings over `[\d.]` — the only
strings it is applied to here are captures of `([\d.]+)`.  Parsing stops at
a second dot; a capture with no digit before that point is `NaN`, modelled
as `none` (see the note at `rgbStringToRgb`). -/
def jsParseFloat (l : List Char) : Option ℚ :=
  let ip := l.takeWhile Char.isDigit
  let rest := l.drop ip.length
  match rest with
  | '.' :: rest2 =>
    let fp := rest2.takeWhile Char.isDigit
    if ip.isEmpty ∧ fp.isEmpty then none
    else some ((digitsVal ip : ℚ) + (digitsVal fp : ℚ) / (10 ^ fp.length))
  | _ => if ip.isEmpty then none else some ((digitsVal ip : ℚ))

/-! ## `rgbStringToRgb` (src/color-utils.js)

```js
function rgbStringToRgb(str) {
  const modernMatch = str.match(/rgba?\(\s*([\d.]+)%?\s+([\d.]+)%?\s+([\d.]+)%?\s*(?:\/\s*([\d.]+%?)\s*)?\)/);
  const legacyMatch = str.match(/rgba?\(\s*([\d.]+)%?\s*,\s*([\d.]+)%?\s*,\s*([\d.]+)%?\s*(?:,\s*([\d.]+%?)\s*)?\)/);
  const match = modernMatch || legacyMatch;
  if (!match) return null;
  let [, r, g, b] = match;
  r = parseFloat(r); g = parseFloat(g); b = parseFloat(b);
  if (str.match(/rgba?\(\s*[\d.]+%/)) {
    r = Math.round(r * 2.55); g = Math.round(g * 2.55); b = Math.round(b * 2.55);
  }
  return { r: Math.round(r), g: Math.round(g), b: Math.round(b) };
}
```

The scanners below are deterministic compilations of those regexes: in
each of them the greedy `([\d.]+)` run cannot hand characters back (the
following tokens `%`, `\s`, `,`, `/`, `)` are outside `[\d.]`), the
optional `%?`/`a?` tokens are never also accepted by the token that
follows them, and a failing optional alpha group forces overall failure at
that start position (the empty alternative would have to match `)` at the
`/` or `,` that triggered the group). -/

/-- The optional trailing alpha group `(?:<sep>\\s*([\\d.]+%?)\\s*)?` followed
by the mandatory `)` — a failing group forces failure of the whole match
at this start position (see the note above `tryModernRgb`). -/
def optAlphaTail (sep : Char) (l : List Char) : Option (List Char) :=
  match l with
  | [] => some []
  | c :: rest =>
    if c = sep then
      (do
        let rest := skipWs rest
        let (_, rest) ← num1 rest
        let rest := optChar '%' rest
        pure (skipWs rest))
    else some (c :: rest)

/-- `/rgba?\(\s*([\d.]+)%?\s+([\d.]+)%?\s+([\d.]+)%?\s*(?:\/\s*([\d.]+%?)\s*)?\)/`
anchored at the current position; returns the three captures. -/
def tryModernRgb (l : List Char) : Option (List Char × List Char × List Char) := do
  let l ← expectLit "rgb".toList l
  let l := optChar 'a' l
  let l ← expectChar '(' l
  let l := skipWs l
  let (n1, l) ← num1 l
  let l := optChar '%' l
  let l ← ws1 l
  let (n2, l) ← num1 l
  let l := optChar '%' l
  let l ← ws1 l
  let (n3, l) ← num1 l
  let l := optChar '%' l
  let l := skipWs l
  let l ← optAlphaTail '/' l
  let _ ← expectChar ')' l
  pure (n1, n2, n3)

/-- `/rgba?\(\s*([\d.]+)%?\s*,\s*([\d.]+)%?\s*,\s*([\d.]+)%?\s*(?:,\s*([\d.]+%?)\s*)?\)/`
anchored at the current position. -/
def tryLegacyRgb (l : List Char) : Option (List Char × List Char × List Char) := do
  let l ← expectLit "rgb".toList l
  let l := optChar 'a' l
  let l ← expectChar '(' l
  let l := skipWs l
  let (n1, l) ← num1 l
  let l := optChar '%' l
  let l := skipWs l
  let l ← expectChar ',' l
  let l := skipWs l
  let (n2, l) ← num1 l
  let l := optChar '%' l
  let l := skipWs l
  let l ← expectChar ',' l
  let l := skipWs l
  let (n3, l) ← num1 l
  let l := optChar '%' l
  let l := skipWs l
  let l ← optAlphaTail ',' l
  let _ ← expectChar ')' l
  pure (n1, n2, n3)

/-- `/rgba?\(\s*[\d.]+%/` anchored at the current position — the test that
decides whether the channels are percentages. -/
def tryLeadPct (l : List Char) : Option Unit := do
  let l ← expectLit "rgb".toList l
  let l := optChar 'a' l
  let l ← expectChar '(' l
  let l := skipWs l
  let (_, l) ← num1 l
  let _ ← expectChar '%' l
  pure ()

/-- `str.match(/rgba?\(\s*[\d.]+%/)` as a boolean. -/
def rgbLeadPct (s : String) : Bool := (firstMatch tryLeadPct s.toList).isSome

/-- Note on `NaN`: a capture of `([\d.]+)` consisting only of dots makes
`parseFloat` return `NaN` in JS, and the function then returns an object
with `NaN` channels, which every caller treats exactly like an
unparseable color; we model that degenerate case as `none`. -/
def rgbStringToRgb (s : String) : Option Rgb :=
  match (firstMatch tryModernRgb s.toList).orElse
      (fun _ => firstMatch tryLegacyRgb s.toList) with
  | none => none
  | some (n1, n2, n3) =>
    match jsParseFloat n1, jsParseFloat n2, jsParseFloat n3 with
    | some r, some g, some b =>
      let r := if rgbLeadPct s then ((jsRound (r * 2.55) : ℤ) : ℚ) else r
      let g := if rgbLeadPct s then ((jsRound (g * 2.55) : ℤ) : ℚ) else g
      let b := if rgbLeadPct s then ((jsRound (b * 2.55) : ℤ) : ℚ) else b
      some ⟨((jsRound r : ℤ) : ℚ), ((jsRound g : ℤ) : ℚ), ((jsRound b : ℤ) : ℚ)⟩
    | _, _, _ => none

/-! ## `hslStringToRgb` (src/color-utils.js) -/

/-- The optional hue unit `(?:deg|rad|grad|turn)?` (alternatives tried in
order; consuming is exact because the separator that follows is never a
letter). -/
def dropHueUnit (l : List Char) : List Char :=
  match expectLit "deg".toList l with
  | some r => r
  | none =>
    match expectLit "rad".toList l with
    | some r => r
    | none =>
      match expectLit "grad".toList l with
      | some r => r
      | none =>
        match expectLit "turn".toList l with
        | some r => r
        | none => l

/-- `/hsla?\(\s*([\d.]+)(?:deg|rad|grad|turn)?\s+([\d.]+)%?\s+([\d.]+)%?\s*(?:\/\s*[\d.]+%?\s*)?\)/`
anchored at the current position. -/
def tryModernHsl (l : List Char) : Option (List Char × List Char × List Char) := do
  let l ← expectLit "hsl".toList l
  let l := optChar 'a' l
  let l ← expectChar '(' l
  let l := skipWs l
  let (n1, l) ← num1 l
  let l := dropHueUnit l
  let l ← ws1 l
  let (n2, l) ← num1 l
  let l := optChar '%' l
  let l ← ws1 l
  let (n3, l) ← num1 l
  let l := optChar '%' l
  let l := skipWs l
  let l ← optAlphaTail '/' l
  let _ ← expectChar ')' l
  pure (n1, n2, n3)

/-- `/hsla?\(\s*([\d.]+)(?:deg|rad|grad|turn)?\s*,\s*([\d.]+)%?\s*,\s*([\d.]+)%?\s*(?:,\s*[\d.]+%?\s*)?\)/`
anchored at the current position. -/
def tryLegacyHsl (l : List Char) : Option (List Char × List Char × List Char) := do
  let l ← expectLit "hsl".toList l
  let l := optChar 'a' l
  let l ← expectChar '(' l
  let l := skipWs l
  let (n1, l) ← num1 l
  let l := dropHueUnit l
  let l := skipWs l
  let l ← expectChar ',' l
  let l := skipWs l
  let (n2, l) ← num1 l
  let l := optChar '%' l
  let l := skipWs l
  let l ← expectChar ',' l
  let l := skipWs l
  let (n3, l) ← num1 l
  let l := optChar '%' l
  let l := skipWs l
  let l ← optAlphaTail ',' l
  let _ ← expectChar ')' l
  pure (n1, n2, n3)

/-- The `hue2rgb` helper of the standard HSL→RGB conversion. -/
def hue2rgb (p q t : ℚ) : ℚ :=
  let t := if t < 0 then t + 1 else t
  let t := if t > 1 then t - 1 else t
  if t < 1/6 then p + (q - p) * 6 * t
  else if t < 1/2 then q
  else if t < 2/3 then p + (q - p) * (2/3 - t) * 6
  else p

def hslStringToRgb (s : String) : Option Rgb :=
  match (firstMatch tryModernHsl s.toList).orElse
      (fun _ => firstMatch tryLegacyHsl s.toList) with
  | none => none
  | some (n1, n2, n3) =>
    match jsParseFloat n1, jsParseFloat n2, jsParseFloat n3 with
    | some h0, some s0, some l0 =>
      let h := h0 / 360
      let sat := s0 / 100
      let lig := l0 / 100
      if sat = 0 then
        some ⟨((jsRound (lig * 255) : ℤ) : ℚ), ((jsRound (lig * 255) : ℤ) : ℚ),
              ((jsRound (lig * 255) : ℤ) : ℚ)⟩
      else
        let q := if lig < 1/2 then lig * (1 + sat) else lig + sat - lig * sat
        let p := 2 * lig - q
        some ⟨((jsRound (hue2rgb p q (h + 1/3) * 255) : ℤ) : ℚ),
              ((jsRound (hue2rgb p q h * 255) : ℤ) : ℚ),
              ((jsRound (hue2rgb p q (h - 1/3) * 255) : ℤ) : ℚ)⟩
    | _, _, _ => none

/-! ## Named colors and `parseColor`

`src/css-named-colors.js` is not among the provided sources.
Modelled from the spec: "a CSS named color (148-entry fixed table,
case-insensitive)" mapped to hex values; the table below is the standard
CSS named-color table (the spec's claims never depend on a particular
entry, only on the membership test). -/
def cssNamedColors : List (String × String) := [
  ("aliceblue", "#f0f8ff"), ("antiquewhite", "#faebd7"), ("aqua", "#00ffff"),
  ("aquamarine", "#7fffd4"), ("azure", "#f0ffff"), ("beige", "#f5f5dc"),
  ("bisque", "#ffe4c4"), ("black", "#000000"), ("blanchedalmond", "#ffebcd"),
  ("blue", "#0000ff"), ("blueviolet", "#8a2be2"), ("brown", "#a52a2a"),
  ("burlywood", "#deb887"), ("cadetblue", "#5f9ea0"), ("chartreuse", "#7fff00"),
  ("chocolate", "#d2691e"), ("coral", "#ff7f50"), ("cornflowerblue", "#6495ed"),
  ("cornsilk", "#fff8dc"), ("crimson", "#dc143c"), ("cyan", "#00ffff"),
  ("darkblue", "#00008b"), ("darkcyan", "#008b8b"), ("darkgoldenrod", "#b8860b"),
  ("darkgray", "#a9a9a9"), ("darkgreen", "#006400"), ("darkgrey", "#a9a9a9"),
  ("darkkhaki", "#bdb76b"), ("darkmagenta", "#8b008b"), ("darkolivegreen", "#556b2f"),
  ("darkorange", "#ff8c00"), ("darkorchid", "#9932cc"), ("darkred", "#8b0000"),
  ("darksalmon", "#e9967a"), ("darkseagreen", "#8fbc8f"), ("darkslateblue", "#483d8b"),
  ("darkslategray", "#2f4f4f"), ("darkslategrey", "#2f4f4f"), ("darkturquoise", "#00ced1"),
  ("darkviolet", "#9400d3"), ("deeppink", "#ff1493"), ("deepskyblue", "#00bfff"),
  ("dimgray", "#696969"), ("dimgrey", "#696969"), ("dodgerblue", "#1e90ff"),
  ("firebrick", "#b22222"), ("floralwhite", "#fffaf0"), ("forestgreen", "#228b22"),
  ("fuchsia", "#ff00ff"), ("gainsboro", "#dcdcdc"), ("ghostwhite", "#f8f8ff"),
  ("gold", "#ffd700"), ("goldenrod", "#daa520"), ("gray", "#808080"),
  ("green", "#008000"), ("greenyellow", "#adff2f"), ("grey", "#808080"),
  ("honeydew", "#f0fff0"), ("hotpink", "#ff69b4"), ("indianred", "#cd5c5c"),
  ("indigo", "#4b0082"), ("ivory", "#fffff0"), ("khaki", "#f0e68c"),
  ("lavender", "#e6e6fa"), ("lavenderblush", "#fff0f5"), ("lawngreen", "#7cfc00"),
  ("lemonchiffon", "#fffacd"), ("lightblue", "#add8e6"), ("lightcoral", "#f08080"),
  ("lightcyan", "#e0ffff"), ("lightgoldenrodyellow", "#fafad2"), ("lightgray", "#d3d3d3"),
  ("lightgreen", "#90ee90"), ("lightgrey", "#d3d3d3"), ("lightpink", "#ffb6c1"),
  ("lightsalmon", "#ffa07a"), ("lightseagreen", "#20b2aa"), ("lightskyblue", "#87cefa"),
  ("lightslategray", "#778899"), ("lightslategrey", "#778899"), ("lightsteelblue", "#b0c4de"),
  ("lightyellow", "#ffffe0"), ("lime", "#00ff00"), ("limegreen", "#32cd32"),
  ("linen", "#faf0e6"), ("magenta", "#ff00ff"), ("maroon", "#800000"),
  ("mediumaquamarine", "#66cdaa"), ("mediumblue", "#0000cd"), ("mediumorchid", "#ba55d3"),
  ("mediumpurple", "#9370db"), ("mediumseagreen", "#3cb371"), ("mediumslateblue", "#7b68ee"),
  ("mediumspringgreen", "#00fa9a"), ("mediumturquoise", "#48d1cc"),
  ("mediumvioletred", "#c71585"), ("midnightblue", "#191970"), ("mintcream", "#f5fffa"),
  ("mistyrose", "#ffe4e1"), ("moccasin", "#ffe4b5"), ("navajowhite", "#ffdead"),
  ("navy", "#000080"), ("oldlace", "#fdf5e6"), ("olive", "#808000"),
  ("olivedrab", "#6b8e23"), ("orange", "#ffa500"), ("orangered", "#ff4500"),
  ("orchid", "#da70d6"), ("palegoldenrod", "#eee8aa"), ("palegreen", "#98fb98"),
  ("paleturquoise", "#afeeee"), ("palevioletred", "#db7093"), ("papayawhip", "#ffefd5"),
  ("peachpuff", "#ffdab9"), ("peru", "#cd853f"), ("pink", "#ffc0cb"),
  ("plum", "#dda0dd"), ("powderblue", "#b0e0e6"), ("purple", "#800080"),
  ("rebeccapurple", "#663399"), ("red", "#ff0000"), ("rosybrown", "#bc8f8f"),
  ("royalblue", "#4169e1"), ("saddlebrown", "#8b4513"), ("salmon", "#fa8072"),
  ("sandybrown", "#f4a460"), ("seagreen", "#2e8b57"), ("seashell", "#fff5ee"),
  ("sienna", "#a0522d"), ("silver", "#c0c0c0"), ("skyblue", "#87ceeb"),
  ("slateblue", "#6a5acd"), ("slategray", "#708090"), ("slategrey", "#708090"),
  ("snow", "#fffafa"), ("springgreen", "#00ff7f"), ("steelblue", "#4682b4"),
  ("tan", "#d2b48c"), ("teal", "#008080"), ("thistle", "#d8bfd8"),
  ("tomato", "#ff6347"), ("turquoise", "#40e0d0"), ("violet", "#ee82ee"),
  ("wheat", "#f5deb3"), ("white", "#ffffff"), ("whitesmoke", "#f5f5f5"),
  ("yellow", "#ffff00"), ("yellowgreen", "#9acd32")]

/-- `s.trim().toLowerCase()` — the normalization shared by `parseColor`,
`classifyColor` and `extractAlpha`. -/
def normStr (s : String) : List Char := jsToLower (jsTrim s.toList)

/-- `NAMED_COLORS[str]` with the `NAMED_COLOR_SET.has(str)` membership test. -/
def namedColorHex (s : String) : Option String :=
  (cssNamedColors.find? (fun p => p.1 == s)).map (fun p => p.2)

/-- `parseColor` (src/color-utils.js): trim and lowercase, then dispatch:
named-color table, `#`, `rgb`, `hsl`, else unparseable.  The
`!str || typeof str !== 'string'` guard corresponds to the empty string
here (non-string inputs are outside the model). -/
def parseColor (s : String) : Option Rgb :=
  if s = "" then none
  else
    let t := String.mk (normStr s)
    match namedColorHex t with
    | some hx => hexToRgb hx
    | none =>
      if startsWithL t.toList "#".toList then hexToRgb t
      else if startsWithL t.toList "rgb".toList then rgbStringToRgb t
      else if startsWithL t.toList "hsl".toList then hslStringToRgb t
      else none

/-! ## `rgbToHex`, `normalizeToHex`, `classifyColor` (src/color-utils.js) -/

/-- `Math.max(0, Math.min(255, Math.round(c)))`. -/
def clamp255Round (c : ℚ) : ℕ := (max 0 (min 255 (jsRound c))).toNat

/-- Lowercase hex digit character for a value `< 16`. -/
def hexChar (n : ℕ) : Char :=
  if n < 10 then Char.ofNat ('0'.toNat + n) else Char.ofNat ('a'.toNat + (n - 10))

/-- `c.toString(16).padStart(2, '0')` for a clamped byte value. -/
def byteToHexChars (n : ℕ) : List Char := [hexChar (n / 16), hexChar (n % 16)]

def rgbToHex (r g b : ℚ) : String :=
  String.mk ('#' :: (byteToHexChars (clamp255Round r) ++
    byteToHexChars (clamp255Round g) ++ byteToHexChars (clamp255Round b)))

def normalizeToHex (s : String) : Option String :=
  (parseColor s).map (fun c => rgbToHex c.r c.g c.b)

/-- The color kind tags returned by `classifyColor`. -/
inductive ColorKind
  | hex | rgba | rgb | hsla | hsl | oklch | oklab | lch | lab | hwb
  | colorFn | named | unknown
deriving DecidableEq, BEq

/-- `classifyColor` (src/color-utils.js): purely syntactic kind dispatch. -/
def classifyColor (s : String) : ColorKind :=
  let t := normStr s
  if startsWithL t "#".toList then .hex
  else if startsWithL t "rgba".toList then .rgba
  else if startsWithL t "rgb".toList then .rgb
  else if startsWithL t "hsla".toList then .hsla
  else if startsWithL t "hsl".toList then .hsl
  else if startsWithL t "oklch".toList then .oklch
  else if startsWithL t "oklab".toList then .oklab
  else if startsWithL t "lch".toList then .lch
  else if startsWithL t "lab".toList then .lab
  else if startsWithL t "hwb".toList then .hwb
  else if startsWithL t "color(".toList then .colorFn
  else if (cssNamedColors.find? (fun p => p.1 == String.mk t)).isSome then .named
  else .unknown

/-! ## Claim C4: the percent-scaling rule of `rgbStringToRgb` -/

theorem digit_ne_of {c d : Char} (h1 : c.isDigit = true) (h2 : d.isDigit = false) :
    c ≠ d := fun heq => by subst heq; rw [h1] at h2; cases h2

theorem digit_not_ws {c : Char} (h : c.isDigit = true) : isJsWs c = false := by
  revert h
  unfold Char.isDigit isJsWs
  intro h
  simp only [Bool.or_eq_false_iff, beq_eq_false_iff_ne]
  simp only [Bool.and_eq_true, decide_eq_true_eq] at h
  refine ⟨⟨⟨⟨⟨?_, ?_⟩, ?_⟩, ?_⟩, ?_⟩, ?_⟩ <;>
    (intro heq; subst heq; revert h; decide)

theorem digit_isNum {c : Char} (h : c.isDigit = true) : isNumChar c = true := by
  simp [isNumChar, h]

theorem takeWhile_all_append (p : Char → Bool) (d r : List Char)
    (hd : ∀ c ∈ d, p c = true) (hr : ∀ c, r.head? = some c → p c = false) :
    (d ++ r).takeWhile p = d ∧ (d ++ r).dropWhile p = r := by
  induction d with
  | nil =>
    cases r with
    | nil => exact ⟨rfl, rfl⟩
    | cons c r' => simp [List.takeWhile_cons, List.dropWhile_cons, hr c rfl]
  | cons c d' ih =>
    have hc := hd c (List.mem_cons_self c d')
    have := ih (fun x hx => hd x (List.mem_cons_of_mem c hx))
    simp [List.takeWhile_cons, List.dropWhile_cons, hc, this.1, this.2]

theorem num1_all (d r : List Char) (hne : d ≠ [])
    (hd : ∀ c ∈ d, isNumChar c = true)
    (hr : ∀ c, r.head? = some c → isNumChar c = false) :
    num1 (d ++ r) = some (d, r) := by
  have h := takeWhile_all_append isNumChar d r hd hr
  unfold num1
  rw [List.span_eq_take_drop, h.1, h.2]
  cases d with
  | nil => exact absurd rfl hne
  | cons c d' => rfl

theorem skipWs_head {c : Char} {r : List Char} (h : isJsWs c = false) :
    skipWs (c :: r) = c :: r := by
  simp [skipWs, List.dropWhile_cons, h]

theorem skipWs_sp (r : List Char) : skipWs (' ' :: r) = skipWs r := by
  simp [skipWs, List.dropWhile_cons, isJsWs]

theorem jsParseFloat_digits (d : List Char) (hne : d ≠ [])
    (hd : ∀ c ∈ d, c.isDigit = true) : jsParseFloat d = some ((digitsVal d : ℚ)) := by
  have h := takeWhile_all_append Char.isDigit d [] hd (by intro c hc; cases hc)
  rw [List.append_nil] at h
  cases d with
  | nil => exact absurd rfl hne
  | cons c d' => simp [jsParseFloat, h.1, List.drop_length]

theorem firstMatch_none_of_suffixes {α : Type} (tryAt : List Char → Option α) :
    ∀ l : List Char, (∀ s, s <:+ l → tryAt s = none) → firstMatch tryAt l = none := by
  intro l
  induction l with
  | nil => intro h; simpa [firstMatch] using h [] List.nil_suffix
  | cons c rest ih =>
    intro h
    unfold firstMatch
    rw [h (c :: rest) List.suffix_rfl]
    exact ih (fun s hs => h s (hs.trans (List.suffix_cons c rest)))

theorem tryModernRgb_ne_r {l : List Char} (h : ∀ c, l.head? = some c → c ≠ 'r') :
    tryModernRgb l = none := by
  cases l with
  | nil => rfl
  | cons c rest =>
    have := h c rfl
    simp [tryModernRgb, expectLit, this]

theorem tryLegacyRgb_ne_r {l : List Char} (h : ∀ c, l.head? = some c → c ≠ 'r') :
    tryLegacyRgb l = none := by
  cases l with
  | nil => rfl
  | cons c rest =>
    have := h c rfl
    simp [tryLegacyRgb, expectLit, this]

theorem tryLeadPct_ne_r {l : List Char} (h : ∀ c, l.head? = some c → c ≠ 'r') :
    tryLeadPct l = none := by
  cases l with
  | nil => rfl
  | cons c rest =>
    have := h c rfl
    simp [tryLeadPct, expectLit, this]

/-- `Math.round` is the identity on values that are already integers
(the second rounding pass of `rgbStringToRgb`). -/
theorem jsRound_intCast (n : ℤ) : jsRound ((n : ℚ)) = n := by
  unfold jsRound
  rw [Int.floor_eq_iff]
  constructor
  · push_cast; linarith
  · push_cast; linarith

/-- The channel value of the amended claim C4: every channel is scaled by
2.55 and rounded precisely when the *first* channel of the matched literal
carries `%`; an unscaled channel comes back as written (digit-only
captures are integers, so the final `Math.round` is the identity). -/
def rgbChannelVal (scaledByFirst : Bool) (d : List Char) : ℚ :=
  if scaledByFirst then ((jsRound ((digitsVal d : ℚ) * 2.55) : ℤ) : ℚ)
  else ((digitsVal d : ℕ) : ℚ)

/-- C4 counterexample: the claim says channels written with `%` are scaled
by 2.55 and channels written without `%` are returned unscaled, per
channel.  In `rgb(40%, 100, 200)` the second and third channels are
written without `%` but are returned as `round(100 · 2.55) = 255` and
`round(200 · 2.55) = 510`, because the scaling decision is taken once for
the whole literal from the first channel alone. -/
theorem rgbStringToRgb_c4_counterexample :
    rgbStringToRgb "rgb(40%, 100, 200)" = some ⟨102, 255, 510⟩ ∧
      (255 : ℚ) ≠ ((jsRound (100 : ℚ) : ℤ) : ℚ) := by
  constructor
  · have h1 : firstMatch tryModernRgb "rgb(40%, 100, 200)".toList = none := by decide
    have h2 : firstMatch tryLegacyRgb "rgb(40%, 100, 200)".toList =
        some (['4', '0'], ['1', '0', '0'], ['2', '0', '0']) := by decide
    have h3 : rgbLeadPct "rgb(40%, 100, 200)" = true := by decide
    unfold rgbStringToRgb
    rw [h1, h2]
    have f1 : jsParseFloat ['4', '0'] = some ((40 : ℕ) : ℚ) := by
      rw [jsParseFloat_digits _ (by decide) (by decide)]; rfl
    have f2 : jsParseFloat ['1', '0', '0'] = some ((100 : ℕ) : ℚ) := by
      rw [jsParseFloat_digits _ (by decide) (by decide)]; rfl
    have f3 : jsParseFloat ['2', '0', '0'] = some ((200 : ℕ) : ℚ) := by
      rw [jsParseFloat_digits _ (by decide) (by decide)]; rfl
    simp only [f1, f2, f3, h3, if_true, Option.none_orElse]
    norm_num [jsRound, Rgb.mk.injEq]
    rw [f1, f2, f3]
    norm_num
  · unfold jsRound
    norm_num

theorem skipWs_digits_append {d r : List Char} (hne : d ≠ [])
    (hd : ∀ c ∈ d, c.isDigit = true) : skipWs (d ++ r) = d ++ r := by
  cases d with
  | nil => exact absurd rfl hne
  | cons c d' => exact skipWs_head (digit_not_ws (hd c (List.mem_cons_self c d')))

theorem ws1_none {c : Char} {r : List Char} (h : isJsWs c = false) :
    ws1 (c :: r) = none := by simp [ws1, h]

theorem pcIf_append_head (p : Bool) (c0 : Char) (X : List Char) :
    ((if p then ['%'] else []) ++ c0 :: X).head? =
      some (if p then '%' else c0) := by
  cases p <;> simp

theorem optChar_pcIf (p : Bool) (c0 : Char) (X : List Char) (h : c0 ≠ '%') :
    optChar '%' ((if p then ['%'] else []) ++ c0 :: X) = c0 :: X := by
  cases p <;> simp [optChar, h]

theorem optChar_cons_ne {c x : Char} {X : List Char} (h : x ≠ c) :
    optChar c (x :: X) = x :: X := by simp [optChar, h]

theorem tryLegacyRgb_render (d1 d2 d3 : List Char) (p1 p2 p3 : Bool)
    (h1 : d1 ≠ []) (h2 : d2 ≠ []) (h3 : d3 ≠ [])
    (hd1 : ∀ c ∈ d1, c.isDigit = true) (hd2 : ∀ c ∈ d2, c.isDigit = true)
    (hd3 : ∀ c ∈ d3, c.isDigit = true) :
    tryLegacyRgb ('r' :: 'g' :: 'b' :: '(' ::
        (d1 ++ ((if p1 then ['%'] else []) ++ (',' :: ' ' ::
          (d2 ++ ((if p2 then ['%'] else []) ++ (',' :: ' ' ::
            (d3 ++ ((if p3 then ['%'] else []) ++ [')'])))))))))  =
      some (d1, d2, d3) := by
  have hrgb : "rgb".toList = ['r', 'g', 'b'] := rfl
  have hnum1 : num1 (d1 ++ ((if p1 then ['%'] else []) ++ (',' :: ' ' ::
      (d2 ++ ((if p2 then ['%'] else []) ++ (',' :: ' ' ::
        (d3 ++ ((if p3 then ['%'] else []) ++ [')'])))))))) =
      some (d1, (if p1 then ['%'] else []) ++ (',' :: ' ' ::
      (d2 ++ ((if p2 then ['%'] else []) ++ (',' :: ' ' ::
        (d3 ++ ((if p3 then ['%'] else []) ++ [')']))))))) := by
    refine num1_all _ _ h1 (fun c hc => digit_isNum (hd1 c hc)) ?_
    intro c hc
    rw [pcIf_append_head] at hc
    cases p1 <;> simp at hc <;> subst hc <;> decide
  have hnum2 : num1 (d2 ++ ((if p2 then ['%'] else []) ++ (',' :: ' ' ::
        (d3 ++ ((if p3 then ['%'] else []) ++ [')']))))) =
      some (d2, (if p2 then ['%'] else []) ++ (',' :: ' ' ::
        (d3 ++ ((if p3 then ['%'] else []) ++ [')'])))) := by
    refine num1_all _ _ h2 (fun c hc => digit_isNum (hd2 c hc)) ?_
    intro c hc
    rw [pcIf_append_head] at hc
    cases p2 <;> simp at hc <;> subst hc <;> decide
  have hnum3 : num1 (d3 ++ ((if p3 then ['%'] else []) ++ [')'])) =
      some (d3, (if p3 then ['%'] else []) ++ [')']) := by
    refine num1_all _ _ h3 (fun c hc => digit_isNum (hd3 c hc)) ?_
    intro c hc
    rw [pcIf_append_head] at hc
    cases p3 <;> simp at hc <;> subst hc <;> decide
  have hopt1 := optChar_pcIf p1 ',' (' ' ::
      (d2 ++ ((if p2 then ['%'] else []) ++ (',' :: ' ' ::
        (d3 ++ ((if p3 then ['%'] else []) ++ [')'])))))) (by decide)
  have hopt2 := optChar_pcIf p2 ',' (' ' ::
      (d3 ++ ((if p3 then ['%'] else []) ++ [')']))) (by decide)
  have hopt3 := optChar_pcIf p3 ')' ([] : List Char) (by decide)
  have hsk1 : skipWs (d1 ++ ((if p1 then ['%'] else []) ++ (',' :: ' ' ::
      (d2 ++ ((if p2 then ['%'] else []) ++ (',' :: ' ' ::
        (d3 ++ ((if p3 then ['%'] else []) ++ [')'])))))))) =
      d1 ++ ((if p1 then ['%'] else []) ++ (',' :: ' ' ::
      (d2 ++ ((if p2 then ['%'] else []) ++ (',' :: ' ' ::
        (d3 ++ ((if p3 then ['%'] else []) ++ [')']))))))) :=
    skipWs_digits_append h1 hd1
  have hsk2 : skipWs (d2 ++ ((if p2 then ['%'] else []) ++ (',' :: ' ' ::
        (d3 ++ ((if p3 then ['%'] else []) ++ [')']))))) =
      d2 ++ ((if p2 then ['%'] else []) ++ (',' :: ' ' ::
        (d3 ++ ((if p3 then ['%'] else []) ++ [')'])))) :=
    skipWs_digits_append h2 hd2
  have hsk3 : skipWs (d3 ++ ((if p3 then ['%'] else []) ++ [')'])) =
      d3 ++ ((if p3 then ['%'] else []) ++ [')']) :=
    skipWs_digits_append h3 hd3
  unfold tryLegacyRgb
  rw [hrgb]
  simp only [expectLit, expectChar, Char.reduceEq, reduceIte, not_false_eq_true, ne_eq,
    Option.bind_eq_bind, Option.some_bind, optChar_cons_ne]
  rw [hsk1]
  rw [hnum1]
  simp only [Option.some_bind]
  rw [hopt1]
  rw [show skipWs (',' :: ' ' ::
      (d2 ++ ((if p2 then ['%'] else []) ++ (',' :: ' ' ::
        (d3 ++ ((if p3 then ['%'] else []) ++ [')'])))))) = ',' :: ' ' ::
      (d2 ++ ((if p2 then ['%'] else []) ++ (',' :: ' ' ::
        (d3 ++ ((if p3 then ['%'] else []) ++ [')']))))) from skipWs_head (by decide)]
  simp only [expectChar, Char.reduceEq, reduceIte, Option.some_bind]
  rw [skipWs_sp, hsk2, hnum2]
  simp only [Option.some_bind]
  rw [hopt2]
  rw [show skipWs (',' :: ' ' ::
        (d3 ++ ((if p3 then ['%'] else []) ++ [')']))) = ',' :: ' ' ::
        (d3 ++ ((if p3 then ['%'] else []) ++ [')'])) from skipWs_head (by decide)]
  simp only [expectChar, Char.reduceEq, reduceIte, Option.some_bind]
  rw [skipWs_sp, hsk3, hnum3]
  simp only [Option.some_bind]
  rw [hopt3]
  rw [show skipWs [')'] = [')'] from rfl]
  simp [optAlphaTail, expectChar]

theorem firstMatch_none_no_r {α : Type} (tryAt : List Char → Option α)
    (hne : ∀ l : List Char, (∀ c, l.head? = some c → c ≠ 'r') → tryAt l = none)
    (T : List Char) (hT : ∀ c ∈ T, c ≠ 'r') : firstMatch tryAt T = none :=
  firstMatch_none_of_suffixes tryAt T (fun s hs =>
    hne s (fun c hc => hT c (hs.subset (List.mem_of_mem_head? hc))))

theorem mem_pcIf {c : Char} {p : Bool} (h : c ∈ (if p then ['%'] else ([] : List Char))) :
    c = '%' := by cases p <;> simp at h <;> exact h

theorem tryModernRgb_render_none (d1 d2 d3 : List Char) (p1 p2 p3 : Bool)
    (h1 : d1 ≠ []) (hd1 : ∀ c ∈ d1, c.isDigit = true) :
    tryModernRgb ('r' :: 'g' :: 'b' :: '(' ::
        (d1 ++ ((if p1 then ['%'] else []) ++ (',' :: ' ' ::
          (d2 ++ ((if p2 then ['%'] else []) ++ (',' :: ' ' ::
            (d3 ++ ((if p3 then ['%'] else []) ++ [')'])))))))))  = none := by
  have hrgb : "rgb".toList = ['r', 'g', 'b'] := rfl
  have hnum1 : num1 (d1 ++ ((if p1 then ['%'] else []) ++ (',' :: ' ' ::
      (d2 ++ ((if p2 then ['%'] else []) ++ (',' :: ' ' ::
        (d3 ++ ((if p3 then ['%'] else []) ++ [')'])))))))) =
      some (d1, (if p1 then ['%'] else []) ++ (',' :: ' ' ::
      (d2 ++ ((if p2 then ['%'] else []) ++ (',' :: ' ' ::
        (d3 ++ ((if p3 then ['%'] else []) ++ [')']))))))) := by
    refine num1_all _ _ h1 (fun c hc => digit_isNum (hd1 c hc)) ?_
    intro c hc
    rw [pcIf_append_head] at hc
    cases p1 <;> simp at hc <;> subst hc <;> decide
  have hopt1 := optChar_pcIf p1 ',' (' ' ::
      (d2 ++ ((if p2 then ['%'] else []) ++ (',' :: ' ' ::
        (d3 ++ ((if p3 then ['%'] else []) ++ [')'])))))) (by decide)
  have hsk1 : skipWs (d1 ++ ((if p1 then ['%'] else []) ++ (',' :: ' ' ::
      (d2 ++ ((if p2 then ['%'] else []) ++ (',' :: ' ' ::
        (d3 ++ ((if p3 then ['%'] else []) ++ [')'])))))))) =
      d1 ++ ((if p1 then ['%'] else []) ++ (',' :: ' ' ::
      (d2 ++ ((if p2 then ['%'] else []) ++ (',' :: ' ' ::
        (d3 ++ ((if p3 then ['%'] else []) ++ [')']))))))) :=
    skipWs_digits_append h1 hd1
  unfold tryModernRgb
  rw [hrgb]
  simp only [expectLit, expectChar, Char.reduceEq, reduceIte, not_false_eq_true, ne_eq,
    Option.bind_eq_bind, Option.some_bind, optChar_cons_ne]
  rw [hsk1, hnum1]
  simp only [Option.some_bind]
  rw [hopt1]
  rw [ws1_none (by decide)]
  simp

theorem tryLeadPct_render (d1 d2 d3 : List Char) (p1 p2 p3 : Bool)
    (h1 : d1 ≠ []) (hd1 : ∀ c ∈ d1, c.isDigit = true) :
    tryLeadPct ('r' :: 'g' :: 'b' :: '(' ::
        (d1 ++ ((if p1 then ['%'] else []) ++ (',' :: ' ' ::
          (d2 ++ ((if p2 then ['%'] else []) ++ (',' :: ' ' ::
            (d3 ++ ((if p3 then ['%'] else []) ++ [')'])))))))))  =
      (if p1 then some () else none) := by
  have hrgb : "rgb".toList = ['r', 'g', 'b'] := rfl
  have hnum1 : num1 (d1 ++ ((if p1 then ['%'] else []) ++ (',' :: ' ' ::
      (d2 ++ ((if p2 then ['%'] else []) ++ (',' :: ' ' ::
        (d3 ++ ((if p3 then ['%'] else []) ++ [')'])))))))) =
      some (d1, (if p1 then ['%'] else []) ++ (',' :: ' ' ::
      (d2 ++ ((if p2 then ['%'] else []) ++ (',' :: ' ' ::
        (d3 ++ ((if p3 then ['%'] else []) ++ [')']))))))) := by
    refine num1_all _ _ h1 (fun c hc => digit_isNum (hd1 c hc)) ?_
    intro c hc
    rw [pcIf_append_head] at hc
    cases p1 <;> simp at hc <;> subst hc <;> decide
  have hsk1 : skipWs (d1 ++ ((if p1 then ['%'] else []) ++ (',' :: ' ' ::
      (d2 ++ ((if p2 then ['%'] else []) ++ (',' :: ' ' ::
        (d3 ++ ((if p3 then ['%'] else []) ++ [')'])))))))) =
      d1 ++ ((if p1 then ['%'] else []) ++ (',' :: ' ' ::
      (d2 ++ ((if p2 then ['%'] else []) ++ (',' :: ' ' ::
        (d3 ++ ((if p3 then ['%'] else []) ++ [')']))))))) :=
    skipWs_digits_append h1 hd1
  unfold tryLeadPct
  rw [hrgb]
  simp only [expectLit, expectChar, Char.reduceEq, reduceIte, not_false_eq_true, ne_eq,
    Option.bind_eq_bind, Option.some_bind, optChar_cons_ne]
  rw [hsk1, hnum1]
  simp only [Option.some_bind]
  cases p1 <;> simp [expectChar]

theorem renderTail_ne_r (d1 d2 d3 : List Char) (p1 p2 p3 : Bool)
    (hd1 : ∀ c ∈ d1, c.isDigit = true) (hd2 : ∀ c ∈ d2, c.isDigit = true)
    (hd3 : ∀ c ∈ d3, c.isDigit = true) :
    ∀ c ∈ ('g' :: 'b' :: '(' ::
        (d1 ++ ((if p1 then ['%'] else []) ++ (',' :: ' ' ::
          (d2 ++ ((if p2 then ['%'] else []) ++ (',' :: ' ' ::
            (d3 ++ ((if p3 then ['%'] else []) ++ [')']))))))))), c ≠ 'r' := by
  intro c hc
  simp only [List.mem_cons, List.mem_append, List.mem_singleton, List.not_mem_nil,
    or_false] at hc
  rcases hc with rfl | rfl | rfl | h | h | rfl | rfl | h | h | rfl | rfl | h | h | rfl
  · decide
  · decide
  · decide
  · exact digit_ne_of (hd1 c h) (by decide)
  · rw [mem_pcIf h]; decide
  · decide
  · decide
  · exact digit_ne_of (hd2 c h) (by decide)
  · rw [mem_pcIf h]; decide
  · decide
  · decide
  · exact digit_ne_of (hd3 c h) (by decide)
  · rw [mem_pcIf h]; decide
  · decide

theorem toList_mk (l : List Char) : (String.mk l).toList = l := rfl

theorem firstMatch_cons {α : Type} (tryAt : List Char → Option α) (c : Char)
    (rest : List Char) :
    firstMatch tryAt (c :: rest) =
      (match tryAt (c :: rest) with
       | some r => some r
       | none => firstMatch tryAt rest) := rfl

theorem jsRound_natCast (n : ℕ) : jsRound ((n : ℚ)) = (n : ℤ) := by
  rw [show ((n : ℚ)) = (((n : ℤ) : ℚ)) by push_cast; ring]
  exact jsRound_intCast n

/-- C4 (amended): for an `rgb()` literal with three integer channels, each
optionally carrying `%`, ALL three channels are multiplied by 2.55 and
rounded when the FIRST channel carries `%`, and none is scaled otherwise:
the scaling decision is global to the literal, not per channel. -/
theorem rgbStringToRgb_amended (d1 d2 d3 : List Char) (p1 p2 p3 : Bool)
    (h1 : d1 ≠ []) (h2 : d2 ≠ []) (h3 : d3 ≠ [])
    (hd1 : ∀ c ∈ d1, c.isDigit = true) (hd2 : ∀ c ∈ d2, c.isDigit = true)
    (hd3 : ∀ c ∈ d3, c.isDigit = true) :
    rgbStringToRgb (String.mk ('r' :: 'g' :: 'b' :: '(' ::
        (d1 ++ ((if p1 then ['%'] else []) ++ (',' :: ' ' ::
          (d2 ++ ((if p2 then ['%'] else []) ++ (',' :: ' ' ::
            (d3 ++ ((if p3 then ['%'] else []) ++ [')'])))))))))) =
      some ⟨rgbChannelVal p1 d1, rgbChannelVal p1 d2, rgbChannelVal p1 d3⟩ := by
  have hTne := renderTail_ne_r d1 d2 d3 p1 p2 p3 hd1 hd2 hd3
  have hmod : firstMatch tryModernRgb ('r' :: 'g' :: 'b' :: '(' ::
      (d1 ++ ((if p1 then ['%'] else []) ++ (',' :: ' ' ::
        (d2 ++ ((if p2 then ['%'] else []) ++ (',' :: ' ' ::
          (d3 ++ ((if p3 then ['%'] else []) ++ [')'])))))))))  = none := by
    rw [firstMatch_cons, tryModernRgb_render_none d1 d2 d3 p1 p2 p3 h1 hd1]
    exact firstMatch_none_no_r tryModernRgb (fun l hl => tryModernRgb_ne_r hl) _ hTne
  have hleg : firstMatch tryLegacyRgb ('r' :: 'g' :: 'b' :: '(' ::
      (d1 ++ ((if p1 then ['%'] else []) ++ (',' :: ' ' ::
        (d2 ++ ((if p2 then ['%'] else []) ++ (',' :: ' ' ::
          (d3 ++ ((if p3 then ['%'] else []) ++ [')'])))))))))  = some (d1, d2, d3) := by
    rw [firstMatch_cons, tryLegacyRgb_render d1 d2 d3 p1 p2 p3 h1 h2 h3 hd1 hd2 hd3]
  have hlead : rgbLeadPct (String.mk ('r' :: 'g' :: 'b' :: '(' ::
      (d1 ++ ((if p1 then ['%'] else []) ++ (',' :: ' ' ::
        (d2 ++ ((if p2 then ['%'] else []) ++ (',' :: ' ' ::
          (d3 ++ ((if p3 then ['%'] else []) ++ [')'])))))))))) = p1 := by
    unfold rgbLeadPct
    rw [toList_mk]
    cases hp : p1
    · rw [hp] at hTne
      rw [firstMatch_cons, tryLeadPct_render d1 d2 d3 false p2 p3 h1 hd1]
      rw [if_neg (by simp)]
      rw [firstMatch_none_no_r tryLeadPct (fun l hl => tryLeadPct_ne_r hl) _ hTne]
      rfl
    · rw [firstMatch_cons, tryLeadPct_render d1 d2 d3 true p2 p3 h1 hd1]
      rfl
  unfold rgbStringToRgb
  rw [toList_mk, hmod, hleg]
  simp only [Option.orElse]
  rw [jsParseFloat_digits d1 h1 hd1, jsParseFloat_digits d2 h2 hd2,
    jsParseFloat_digits d3 h3 hd3]
  rw [hlead]
  cases p1
  · simp only [Bool.false_eq_true, if_false, rgbChannelVal, jsRound_natCast]
    norm_num
  · simp only [if_true, rgbChannelVal, jsRound_intCast]

/-- C4 amended-claim witness: all three channels carry `%`, so all three
are scaled: `rgb(40%, 20%, 60%)` parses to `(102, 51, 153)`. -/
theorem rgbStringToRgb_amended_witness :
    rgbStringToRgb "rgb(40%, 20%, 60%)" = some ⟨102, 51, 153⟩ := by
  have h := rgbStringToRgb_amended ['4', '0'] ['2', '0'] ['6', '0'] true true true
    (by decide) (by decide) (by decide) (by decide) (by decide) (by decide)
  rw [show String.mk ('r' :: 'g' :: 'b' :: '(' ::
      (['4', '0'] ++ ((if true then ['%'] else []) ++ (',' :: ' ' ::
        (['2', '0'] ++ ((if true then ['%'] else []) ++ (',' :: ' ' ::
          (['6', '0'] ++ ((if true then ['%'] else []) ++ [')'])))))))))  =
      "rgb(40%, 20%, 60%)" from rfl] at h
  rw [h]
  have e1 : digitsVal ['4', '0'] = 40 := by decide
  have e2 : digitsVal ['2', '0'] = 20 := by decide
  have e3 : digitsVal ['6', '0'] = 60 := by decide
  simp only [rgbChannelVal, if_true, e1, e2, e3]
  norm_num [jsRound, Rgb.mk.injEq]

/-! ## `extractAlpha` (src/color-utils.js)

```js
function extractAlpha(colorStr) {
  if (!colorStr) return null;
  const str = colorStr.trim().toLowerCase();
  if (str.startsWith('#')) {
    const hex = str.slice(1);
    if (hex.length === 8) {
      const a = parseInt(hex.substring(6, 8), 16) / 255;
      return a < 1 ? Math.round(a * 100) / 100 : null;
    }
    if (hex.length === 4) {
      const a = parseInt(hex[3] + hex[3], 16) / 255;
      return a < 1 ? Math.round(a * 100) / 100 : null;
    }
    return null;
  }
  if (str.startsWith('rgb')) {
    const modernAlpha = str.match(/\/\s*([\d.]+)(%?)\s*\)/);
    if (modernAlpha) {
      const val = parseFloat(modernAlpha[1]);
      return modernAlpha[2] === '%' ? val / 100 : val;
    }
    const legacyAlpha = str.match(/,\s*([\d.]+)\s*\)/);
    if (legacyAlpha && str.startsWith('rgba')) return parseFloat(legacyAlpha[1]);
    return null;
  }
  if (str.startsWith('hsl')) { /* same two regexes, gated on 'hsla' */ }
  return null;
}
```
(`parseInt(..) / 255` can be `NaN` for a hex tail that is not hexadecimal;
`NaN < 1` is false so the function returns `null`, modelled by `none`.) -/

/-- The value returned for a hex alpha byte: `a = n/255`, reported as
`Math.round(a*100)/100` when `a < 1`, `null` otherwise. -/
def hexAlphaVal (n : ℤ) : Option ℚ :=
  if ((n : ℚ) / 255) < 1 then some ((((jsRound (((n : ℚ) / 255) * 100)) : ℤ) : ℚ) / 100)
  else none

/-- `/\/\s*([\d.]+)(%?)\s*\)/` anchored at the current position; the
returned Bool is the `(%?)` capture. -/
def tryModAlpha (l : List Char) : Option (List Char × Bool) := do
  let l ← expectChar '/' l
  let l := skipWs l
  let (d, l) ← num1 l
  let (pct, l) := (match l with
    | c :: r => if c = '%' then (true, r) else (false, c :: r)
    | [] => (false, []))
  let l := skipWs l
  let _ ← expectChar ')' l
  pure (d, pct)

/-- `/,\s*([\d.]+)\s*\)/` anchored at the current position. -/
def tryLegAlpha (l : List Char) : Option (List Char) := do
  let l ← expectChar ',' l
  let l := skipWs l
  let (d, l) ← num1 l
  let l := skipWs l
  let _ ← expectChar ')' l
  pure d

def extractAlpha (colorStr : String) : Option ℚ :=
  if colorStr = "" then none
  else if startsWithL (normStr colorStr) "#".toList then
    if ((normStr colorStr).drop 1).length = 8 then
      match jsParseInt16 (jsSubstring ((normStr colorStr).drop 1) 6 8) with
      | some n => hexAlphaVal n
      | none => none
    else if ((normStr colorStr).drop 1).length = 4 then
      match ((normStr colorStr).drop 1).get? 3 with
      | some c4 =>
        match jsParseInt16 [c4, c4] with
        | some n => hexAlphaVal n
        | none => none
      | none => none
    else none
  else if startsWithL (normStr colorStr) "rgb".toList then
    match firstMatch tryModAlpha (normStr colorStr) with
    | some (d, pct) => (jsParseFloat d).map (fun v => if pct then v / 100 else v)
    | none =>
      if startsWithL (normStr colorStr) "rgba".toList then
        match firstMatch tryLegAlpha (normStr colorStr) with
        | some d => jsParseFloat d
        | none => none
      else none
  else if startsWithL (normStr colorStr) "hsl".toList then
    match firstMatch tryModAlpha (normStr colorStr) with
    | some (d, pct) => (jsParseFloat d).map (fun v => if pct then v / 100 else v)
    | none =>
      if startsWithL (normStr colorStr) "hsla".toList then
        match firstMatch tryLegAlpha (normStr colorStr) with
        | some d => jsParseFloat d
        | none => none
      else none
  else none

theorem jsRound_eq {q : ℚ} {n : ℤ} (h1 : (n : ℚ) ≤ q + 1/2) (h2 : q + 1/2 < n + 1) :
    jsRound q = n := by
  unfold jsRound
  exact Int.floor_eq_iff.mpr ⟨h1, by exact_mod_cast h2⟩

/-- Characters unaffected by the `trim().toLowerCase()` normalization. -/
def plainLower (c : Char) : Prop := isJsWs c = false ∧ c.toLower = c

instance : DecidablePred plainLower := fun _ => by unfold plainLower; infer_instance

theorem dropWhile_eq_self_of_all {p : Char → Bool} {l : List Char}
    (h : ∀ c ∈ l, p c = false) : l.dropWhile p = l := by
  cases l with
  | nil => rfl
  | cons c rest => simp [List.dropWhile_cons, h c (List.mem_cons_self c rest)]

theorem jsTrim_eq_self {l : List Char} (h : ∀ c ∈ l, isJsWs c = false) : jsTrim l = l := by
  unfold jsTrim
  rw [dropWhile_eq_self_of_all h,
    dropWhile_eq_self_of_all (fun c hc => h c (List.mem_reverse.mp hc)), List.reverse_reverse]

theorem jsToLower_eq_self {l : List Char} (h : ∀ c ∈ l, c.toLower = c) : jsToLower l = l := by
  induction l with
  | nil => rfl
  | cons c rest ih =>
    unfold jsToLower at *
    rw [List.map_cons, h c (List.mem_cons_self c rest),
      ih (fun x hx => h x (List.mem_cons_of_mem c hx))]

theorem normStr_plain {l : List Char} (h : ∀ c ∈ l, plainLower c) :
    normStr (String.mk l) = l := by
  unfold normStr
  rw [toList_mk, jsTrim_eq_self (fun c hc => (h c hc).1),
    jsToLower_eq_self (fun c hc => (h c hc).2)]

theorem startsWithL_append {l p : List Char} (h : startsWithL l p = true) :
    ∃ t, l = p ++ t := by
  induction p generalizing l with
  | nil => exact ⟨l, rfl⟩
  | cons x ps ih =>
    cases l with
    | nil => simp [startsWithL] at h
    | cons c cs =>
      simp only [startsWithL, Bool.and_eq_true, beq_iff_eq] at h
      obtain ⟨t, ht⟩ := ih h.2
      exact ⟨t, by rw [h.1, List.cons_append, ht]⟩

theorem tryModAlpha_ne_slash {l : List Char} (h : ∀ c, l.head? = some c → c ≠ '/') :
    tryModAlpha l = none := by
  cases l with
  | nil => rfl
  | cons c rest =>
    have := h c rfl
    simp [tryModAlpha, expectChar, this]

theorem firstMatch_modAlpha_none {l : List Char} (h : '/' ∉ l) :
    firstMatch tryModAlpha l = none := by
  refine firstMatch_none_of_suffixes _ _ (fun s hs => tryModAlpha_ne_slash ?_)
  intro c hc heq
  subst heq
  exact h (hs.subset (List.mem_of_mem_head? hc))

/-- C8 counterexample: the claim states the alpha of an 8-digit hex literal
equals its last byte divided by 255; the code reports that ratio rounded
to two decimals, so `extractAlpha "#ff000080"` is exactly `0.5` and not
`128/255 ≈ 0.50196`. -/
theorem extractAlpha_c8_counterexample :
    extractAlpha "#ff000080" = some (1/2) ∧ ((1/2 : ℚ)) ≠ 128 / 255 := by
  constructor
  · unfold extractAlpha
    rw [if_neg (by decide)]
    have hn : normStr "#ff000080" = "#ff000080".toList := by decide
    rw [hn]
    rw [if_pos (by decide), if_pos (by decide)]
    rw [show jsParseInt16 (jsSubstring ("#ff000080".toList.drop 1) 6 8) = some 128 by decide]
    show hexAlphaVal 128 = some (1/2)
    unfold hexAlphaVal
    rw [if_pos (by norm_num)]
    rw [show jsRound (((128 : ℤ) : ℚ) / 255 * 100) = 50 from
      jsRound_eq (by norm_num) (by norm_num)]
    norm_num
  · norm_num

theorem mk_cons_ne_empty (c : Char) (l : List Char) : String.mk (c :: l) ≠ "" := by
  simp [String.ext_iff]

/-- C8 (amended): `extractAlpha` returns, for an 8-digit hex literal, the
last byte divided by 255 *rounded to two decimals*, and only when that
ratio is < 1 (`hexAlphaVal`); it returns nothing for any other hex length
than 8 or 4; and for `rgb()`/`hsl()` literals without the modern `/ alpha`
syntax the legacy comma path applies only when the lowercased literal
starts with `rgba`/`hsla`, so a bare `rgb()`/`hsl()` with a fourth comma
argument yields no alpha.  Scenarios: `extractAlpha 'rgba(255,0,0,0.5)' =
0.5`, `extractAlpha 'rgb(255 0 0 / 50%)' = 0.5`, `extractAlpha '#ff0000'`
is absent. -/
theorem extractAlpha_amended :
    (∀ (l : List Char) (a1 a2 : Char) (v1 v2 : ℕ),
        l.length = 6 → (∀ c ∈ l, plainLower c) → plainLower a1 → plainLower a2 →
        hexVal a1 = some v1 → hexVal a2 = some v2 →
        extractAlpha (String.mk ('#' :: (l ++ [a1, a2]))) =
          hexAlphaVal ((16 * v1 + v2 : ℕ))) ∧
    (∀ l : List Char, (∀ c ∈ l, plainLower c) → l.length ≠ 8 → l.length ≠ 4 →
        extractAlpha (String.mk ('#' :: l)) = none) ∧
    (∀ s : String, startsWithL (normStr s) "rgb".toList = true →
        startsWithL (normStr s) "rgba".toList = false → '/' ∉ normStr s →
        extractAlpha s = none) ∧
    (∀ s : String, startsWithL (normStr s) "#".toList = false →
        startsWithL (normStr s) "rgb".toList = false →
        startsWithL (normStr s) "hsl".toList = true →
        startsWithL (normStr s) "hsla".toList = false → '/' ∉ normStr s →
        extractAlpha s = none) ∧
    extractAlpha "rgba(255,0,0,0.5)" = some (1/2) ∧
    extractAlpha "rgb(255 0 0 / 50%)" = some (1/2) ∧
    extractAlpha "#ff0000" = none := by
  refine ⟨?_, ?_, ?_, ?_, ?_, ?_, ?_⟩
  · intro l a1 a2 v1 v2 hlen hl ha1 ha2 hv1 hv2
    unfold extractAlpha
    rw [if_neg (mk_cons_ne_empty _ _)]
    have hn : normStr (String.mk ('#' :: (l ++ [a1, a2]))) = '#' :: (l ++ [a1, a2]) := by
      refine normStr_plain ?_
      intro c hc
      rcases List.mem_cons.mp hc with rfl | hc
      · exact ⟨by decide, by decide⟩
      rcases List.mem_append.mp hc with hc | hc
      · exact hl c hc
      rcases List.mem_cons.mp hc with rfl | hc
      · exact ha1
      rcases List.mem_cons.mp hc with rfl | hc
      · exact ha2
      · cases hc
    rw [hn]
    rw [if_pos (by simp [startsWithL])]
    have hdrop : ('#' :: (l ++ [a1, a2])).drop 1 = l ++ [a1, a2] := rfl
    rw [hdrop]
    rw [if_pos (by simp [hlen])]
    have hsub : jsSubstring (l ++ [a1, a2]) 6 8 = [a1, a2] := by
      unfold jsSubstring
      rw [show l ++ [a1, a2] = l ++ [a1, a2] from rfl, ← hlen, List.drop_left, hlen]
      rfl
    rw [hsub, jsParseInt16_pair a1 a2 (hexVal_plain (by simp [hv1]))
      ⟨(hexVal_plain (by simp [hv2])).2.2.2.1, (hexVal_plain (by simp [hv2])).2.2.2.2⟩]
    simp [jsHexPairVal, hv1, hv2]
  · intro l hl h8 h4
    unfold extractAlpha
    rw [if_neg (mk_cons_ne_empty _ _)]
    have hn : normStr (String.mk ('#' :: l)) = '#' :: l := by
      refine normStr_plain ?_
      intro c hc
      rcases List.mem_cons.mp hc with rfl | hc
      · exact ⟨by decide, by decide⟩
      · exact hl c hc
    rw [hn]
    rw [if_pos (by simp [startsWithL])]
    have hdrop : ('#' :: l).drop 1 = l := rfl
    rw [hdrop, if_neg h8, if_neg h4]
  · intro s hrgb hrgba hslash
    have hne : s ≠ "" := by
      intro h
      subst h
      rw [show normStr "" = [] from rfl] at hrgb
      simp [startsWithL] at hrgb
    obtain ⟨t, ht⟩ := startsWithL_append hrgb
    unfold extractAlpha
    rw [if_neg hne]
    rw [if_neg (by rw [ht]; simp [startsWithL])]
    rw [if_pos hrgb]
    rw [firstMatch_modAlpha_none hslash]
    rw [if_neg (by rw [hrgba]; simp)]
  · intro s hhash hrgb hhsl hhsla hslash
    have hne : s ≠ "" := by
      intro h
      subst h
      rw [show normStr "" = [] from rfl] at hhsl
      simp [startsWithL] at hhsl
    unfold extractAlpha
    rw [if_neg hne]
    rw [if_neg (by rw [hhash]; simp)]
    rw [if_neg (by rw [hrgb]; simp)]
    rw [if_pos hhsl]
    rw [firstMatch_modAlpha_none hslash]
    rw [if_neg (by rw [hhsla]; simp)]
  · unfold extractAlpha
    rw [if_neg (by decide)]
    have hn : normStr "rgba(255,0,0,0.5)" = "rgba(255,0,0,0.5)".toList := by decide
    rw [hn]
    rw [if_neg (by decide), if_pos (by decide)]
    rw [show firstMatch tryModAlpha "rgba(255,0,0,0.5)".toList = none by decide]
    rw [if_pos (by decide)]
    rw [show firstMatch tryLegAlpha "rgba(255,0,0,0.5)".toList = some ['0', '.', '5'] by decide]
    show jsParseFloat ['0', '.', '5'] = some (1/2)
    rw [show jsParseFloat ['0', '.', '5'] =
      some ((digitsVal ['0'] : ℚ) + (digitsVal ['5'] : ℚ) / (10 ^ (1 : ℕ))) from rfl]
    rw [show digitsVal ['0'] = 0 from by decide, show digitsVal ['5'] = 5 from by decide]
    norm_num
  · unfold extractAlpha
    rw [if_neg (by decide)]
    have hn : normStr "rgb(255 0 0 / 50%)" = "rgb(255 0 0 / 50%)".toList := by decide
    rw [hn]
    rw [if_neg (by decide), if_pos (by decide)]
    rw [show firstMatch tryModAlpha "rgb(255 0 0 / 50%)".toList =
      some (['5', '0'], true) by decide]
    show (jsParseFloat ['5', '0']).map (fun v => if true = true then v / 100 else v) =
      some (1/2)
    rw [jsParseFloat_digits ['5', '0'] (by decide) (by decide)]
    rw [show digitsVal ['5', '0'] = 50 from by decide]
    norm_num
  · decide

/-- C8 amended-claim witness: the 8-digit clause applied to `"#ff000080"`
(last byte `0x80 = 128`, reported alpha `round(12800/255)/100 = 0.5`),
and the bare-`rgb` clause applied to `"rgb(1,2,3,0.5)"`. -/
theorem extractAlpha_amended_witness :
    extractAlpha "#ff000080" = hexAlphaVal 128 ∧ extractAlpha "rgb(1,2,3,0.5)" = none := by
  constructor
  · have h := extractAlpha_amended.1 ['f', 'f', '0', '0', '0', '0'] '8' '0' 8 0
      (by decide) (by decide) (by decide) (by decide) (by decide) (by decide)
    rw [show String.mk ('#' :: (['f', 'f', '0', '0', '0', '0'] ++ ['8', '0'])) =
      "#ff000080" from rfl] at h
    rw [h]
    norm_num
  · exact extractAlpha_amended.2.2.1 "rgb(1,2,3,0.5)" (by decide) (by decide) (by decide)

/-! ## CIE Lab conversion and distance (src/color-utils.js)

```js
function rgbToLab(r, g, b) {
  let rr = r / 255, gg = g / 255, bb = b / 255;
  rr = rr > 0.04045 ? Math.pow((rr + 0.055) / 1.055, 2.4) : rr / 12.92;
  // same for gg, bb
  let x = (rr * 0.4124564 + gg * 0.3575761 + bb * 0.1804375) / 0.95047;
  let y = (rr * 0.2126729 + gg * 0.7151522 + bb * 0.0721750);
  let z = (rr * 0.0193339 + gg * 0.1191920 + bb * 0.9503041) / 1.08883;
  const f = t => t > 0.008856 ? Math.cbrt(t) : (7.787 * t) + 16 / 116;
  ...
  return { l: (116 * y) - 16, a: 500 * (x - y), b: 200 * (y - z) };
}
function colorDistance(color1, color2) { ... Math.sqrt(dl^2 + da^2 + db^2) }
```

JS numbers are modelled as exact reals.  `Math.cbrt` is only ever applied
in the `t > 0.008856` branch, where the argument is positive, so it is
embedded as `t ^ (1/3 : ℝ)` (`Real.rpow`), which agrees with the real cube
root on positives. -/

open Classical in
noncomputable def srgbGamma (u : ℝ) : ℝ :=
  if u > 0.04045 then ((u + 0.055) / 1.055) ^ (2.4 : ℝ) else u / 12.92

open Classical in
noncomputable def labF (t : ℝ) : ℝ :=
  if t > 0.008856 then t ^ ((1 : ℝ) / 3) else 7.787 * t + 16 / 116

structure Lab where
  L : ℝ
  a : ℝ
  b : ℝ

noncomputable def labX (c : Rgb) : ℝ :=
  (srgbGamma ((c.r : ℝ) / 255) * 0.4124564 + srgbGamma ((c.g : ℝ) / 255) * 0.3575761 +
    srgbGamma ((c.b : ℝ) / 255) * 0.1804375) / 0.95047

noncomputable def labY (c : Rgb) : ℝ :=
  srgbGamma ((c.r : ℝ) / 255) * 0.2126729 + srgbGamma ((c.g : ℝ) / 255) * 0.7151522 +
    srgbGamma ((c.b : ℝ) / 255) * 0.0721750

noncomputable def labZ (c : Rgb) : ℝ :=
  (srgbGamma ((c.r : ℝ) / 255) * 0.0193339 + srgbGamma ((c.g : ℝ) / 255) * 0.1191920 +
    srgbGamma ((c.b : ℝ) / 255) * 0.9503041) / 1.08883

noncomputable def rgbToLab (c : Rgb) : Lab :=
  ⟨116 * labF (labY c) - 16, 500 * (labF (labX c) - labF (labY c)),
    200 * (labF (labY c) - labF (labZ c))⟩

noncomputable def colorDistance (c1 c2 : Rgb) : ℝ :=
  Real.sqrt (((rgbToLab c2).L - (rgbToLab c1).L) ^ 2 + ((rgbToLab c2).a - (rgbToLab c1).a) ^ 2 +
    ((rgbToLab c2).b - (rgbToLab c1).b) ^ 2)

/-- JS `Math.round(x * 100) / 100` on reals. -/
noncomputable def round2R (x : ℝ) : ℝ := ((⌊x * 100 + 1 / 2⌋ : ℤ) : ℝ) / 100

theorem colorDistance_self (c : Rgb) : colorDistance c c = 0 := by
  simp [colorDistance]

theorem colorDistance_nonneg (c1 c2 : Rgb) : 0 ≤ colorDistance c1 c2 := Real.sqrt_nonneg _

theorem round2R_le (x : ℝ) : round2R x ≤ x + 1 / 200 := by
  unfold round2R
  have h := Int.floor_le (x * 100 + 1 / 2)
  have h100 : (0:ℝ) < 100 := by norm_num
  rw [div_le_iff h100]
  linarith

theorem round2R_ge (x : ℝ) : x - 1 / 200 ≤ round2R x := by
  unfold round2R
  have h := Int.lt_floor_add_one (x * 100 + 1 / 2)
  have h100 : (0:ℝ) < 100 := by norm_num
  rw [le_div_iff h100]
  linarith

theorem round2R_zero : round2R 0 = 0 := by
  unfold round2R
  rw [show (0:ℝ) * 100 + 1/2 = 1/2 by norm_num]
  rw [show ⌊(1:ℝ)/2⌋ = 0 by rw [Int.floor_eq_iff] <;> norm_num]
  norm_num

/-- `q ≤ b ^ 2.4` reduces to the rational inequality `q ^ 5 ≤ b ^ 12`. -/
theorem rpow_twoPointFour_ge (b q : ℝ) (hb : 0 ≤ b) (hq : 0 ≤ q) (h : q ^ 5 ≤ b ^ 12) :
    q ≤ b ^ (2.4 : ℝ) := by
  have key : (b ^ (2.4 : ℝ)) ^ (5 : ℕ) = b ^ (12 : ℕ) := by
    rw [← Real.rpow_natCast (b ^ (2.4 : ℝ)) 5, ← Real.rpow_mul hb, ← Real.rpow_natCast b 12]
    norm_num
  have h2 : q ^ (5 : ℕ) ≤ (b ^ (2.4 : ℝ)) ^ (5 : ℕ) := by
    rw [key]
    exact h
  exact le_of_pow_le_pow_left₀ (by norm_num) (Real.rpow_nonneg hb _) h2

/-- `b ^ 2.4 ≤ q` reduces to the rational inequality `b ^ 12 ≤ q ^ 5`. -/
theorem rpow_twoPointFour_le (b q : ℝ) (hb : 0 ≤ b) (hq : 0 ≤ q) (h : b ^ 12 ≤ q ^ 5) :
    b ^ (2.4 : ℝ) ≤ q := by
  have key : (b ^ (2.4 : ℝ)) ^ (5 : ℕ) = b ^ (12 : ℕ) := by
    rw [← Real.rpow_natCast (b ^ (2.4 : ℝ)) 5, ← Real.rpow_mul hb, ← Real.rpow_natCast b 12]
    norm_num
  have h2 : (b ^ (2.4 : ℝ)) ^ (5 : ℕ) ≤ q ^ (5 : ℕ) := by
    rw [key]
    exact h
  exact le_of_pow_le_pow_left₀ (by norm_num) hq h2

/-- `q ≤ t ^ (1/3)` reduces to `q ^ 3 ≤ t`. -/
theorem cbrt_ge (t q : ℝ) (ht : 0 ≤ t) (hq : 0 ≤ q) (h : q ^ 3 ≤ t) :
    q ≤ t ^ ((1 : ℝ) / 3) := by
  have key : (t ^ ((1 : ℝ) / 3)) ^ (3 : ℕ) = t := by
    rw [← Real.rpow_natCast (t ^ ((1 : ℝ) / 3)) 3, ← Real.rpow_mul ht]
    norm_num
  have h2 : q ^ (3 : ℕ) ≤ (t ^ ((1 : ℝ) / 3)) ^ (3 : ℕ) := by
    rw [key]
    exact h
  exact le_of_pow_le_pow_left₀ (by norm_num) (Real.rpow_nonneg ht _) h2

/-- `t ^ (1/3) ≤ q` reduces to `t ≤ q ^ 3`. -/
theorem cbrt_le (t q : ℝ) (ht : 0 ≤ t) (hq : 0 ≤ q) (h : t ≤ q ^ 3) :
    t ^ ((1 : ℝ) / 3) ≤ q := by
  have key : (t ^ ((1 : ℝ) / 3)) ^ (3 : ℕ) = t := by
    rw [← Real.rpow_natCast (t ^ ((1 : ℝ) / 3)) 3, ← Real.rpow_mul ht]
    norm_num
  have h2 : (t ^ ((1 : ℝ) / 3)) ^ (3 : ℕ) ≤ q ^ (3 : ℕ) := by
    rw [key]
    exact h
  exact le_of_pow_le_pow_left₀ (by norm_num) hq h2

theorem P16_bounds :
    (1295379/250000000 : ℝ) ≤ srgbGamma ((16 : ℝ) / 255) ∧
      srgbGamma ((16 : ℝ) / 255) ≤ 5181517/1000000000 := by
  have hb : srgbGamma ((16 : ℝ) / 255) = ((1201 : ℝ) / 10761) ^ (2.4 : ℝ) := by
    unfold srgbGamma
    rw [if_pos (by norm_num : ((16 : ℝ) / 255) > 0.04045)]
    norm_num
  rw [hb]
  constructor
  · exact rpow_twoPointFour_ge _ _ (by norm_num) (by norm_num) (by norm_num)
  · exact rpow_twoPointFour_le _ _ (by norm_num) (by norm_num) (by norm_num)

theorem P20_bounds :
    (699541/100000000 : ℝ) ≤ srgbGamma ((20 : ℝ) / 255) ∧
      srgbGamma ((20 : ℝ) / 255) ≤ 6995411/1000000000 := by
  have hb : srgbGamma ((20 : ℝ) / 255) = ((1361 : ℝ) / 10761) ^ (2.4 : ℝ) := by
    unfold srgbGamma
    rw [if_pos (by norm_num : ((20 : ℝ) / 255) > 0.04045)]
    norm_num
  rw [hb]
  constructor
  · exact rpow_twoPointFour_ge _ _ (by norm_num) (by norm_num) (by norm_num)
  · exact rpow_twoPointFour_le _ _ (by norm_num) (by norm_num) (by norm_num)

theorem P185_bounds :
    (24257497/50000000 : ℝ) ≤ srgbGamma ((185 : ℝ) / 255) ∧
      srgbGamma ((185 : ℝ) / 255) ≤ 485149941/1000000000 := by
  have hb : srgbGamma ((185 : ℝ) / 255) = ((7961 : ℝ) / 10761) ^ (2.4 : ℝ) := by
    unfold srgbGamma
    rw [if_pos (by norm_num : ((185 : ℝ) / 255) > 0.04045)]
    norm_num
  rw [hb]
  constructor
  · exact rpow_twoPointFour_ge _ _ (by norm_num) (by norm_num) (by norm_num)
  · exact rpow_twoPointFour_le _ _ (by norm_num) (by norm_num) (by norm_num)

theorem P186_bounds :
    (491020849/1000000000 : ℝ) ≤ srgbGamma ((186 : ℝ) / 255) ∧
      srgbGamma ((186 : ℝ) / 255) ≤ 9820417/20000000 := by
  have hb : srgbGamma ((186 : ℝ) / 255) = ((2667 : ℝ) / 3587) ^ (2.4 : ℝ) := by
    unfold srgbGamma
    rw [if_pos (by norm_num : ((186 : ℝ) / 255) > 0.04045)]
    norm_num
  rw [hb]
  constructor
  · exact rpow_twoPointFour_ge _ _ (by norm_num) (by norm_num) (by norm_num)
  · exact rpow_twoPointFour_le _ _ (by norm_num) (by norm_num) (by norm_num)

theorem P129_bounds :
    (219526199/1000000000 : ℝ) ≤ srgbGamma ((129 : ℝ) / 255) ∧
      srgbGamma ((129 : ℝ) / 255) ≤ 1097631/5000000 := by
  have hb : srgbGamma ((129 : ℝ) / 255) = ((1907 : ℝ) / 3587) ^ (2.4 : ℝ) := by
    unfold srgbGamma
    rw [if_pos (by norm_num : ((129 : ℝ) / 255) > 0.04045)]
    norm_num
  rw [hb]
  constructor
  · exact rpow_twoPointFour_ge _ _ (by norm_num) (by norm_num) (by norm_num)
  · exact rpow_twoPointFour_le _ _ (by norm_num) (by norm_num) (by norm_num)

theorem P130_bounds :
    (223227957/1000000000 : ℝ) ≤ srgbGamma ((130 : ℝ) / 255) ∧
      srgbGamma ((130 : ℝ) / 255) ≤ 111613979/500000000 := by
  have hb : srgbGamma ((130 : ℝ) / 255) = ((5761 : ℝ) / 10761) ^ (2.4 : ℝ) := by
    unfold srgbGamma
    rw [if_pos (by norm_num : ((130 : ℝ) / 255) > 0.04045)]
    norm_num
  rw [hb]
  constructor
  · exact rpow_twoPointFour_ge _ _ (by norm_num) (by norm_num) (by norm_num)
  · exact rpow_twoPointFour_le _ _ (by norm_num) (by norm_num) (by norm_num)
def rgbC0 : Rgb := ⟨16, 185, 129⟩

theorem labBounds_C0 :
    ((304758199/500000000 : ℝ) ≤ labF (labX rgbC0) ∧ labF (labX rgbC0) ≤ 609516399/1000000000) ∧
    ((713939823/1000000000 : ℝ) ≤ labF (labY rgbC0) ∧ labF (labY rgbC0) ≤ 28557593/40000000) ∧
    ((156389999/250000000 : ℝ) ≤ labF (labZ rgbC0) ∧ labF (labZ rgbC0) ≤ 312779999/500000000) := by
  obtain ⟨hr1, hr2⟩ := P16_bounds
  obtain ⟨hg1, hg2⟩ := P185_bounds
  obtain ⟨hb1, hb2⟩ := P129_bounds
  have hx : labX rgbC0 = (srgbGamma ((16 : ℝ) / 255) * 4124564 + srgbGamma ((185 : ℝ) / 255) * 3575761 +
      srgbGamma ((129 : ℝ) / 255) * 1804375) / 9504700 := by
    simp only [labX, rgbC0]
    norm_num
    first
    | ring
    | skip
  have hx0 : (0 : ℝ) ≤ labX rgbC0 := by
    rw [hx]
    linarith
  have hxf : labF (labX rgbC0) = labX rgbC0 ^ ((1 : ℝ) / 3) := by
    unfold labF
    rw [if_pos (by rw [hx] ; linarith : labX rgbC0 > 0.008856)]
  have hy : labY rgbC0 = (srgbGamma ((16 : ℝ) / 255) * 2126729 + srgbGamma ((185 : ℝ) / 255) * 7151522 +
      srgbGamma ((129 : ℝ) / 255) * 721750) / 10000000 := by
    simp only [labY, rgbC0]
    norm_num
    first
    | ring
    | skip
  have hy0 : (0 : ℝ) ≤ labY rgbC0 := by
    rw [hy]
    linarith
  have hyf : labF (labY rgbC0) = labY rgbC0 ^ ((1 : ℝ) / 3) := by
    unfold labF
    rw [if_pos (by rw [hy] ; linarith : labY rgbC0 > 0.008856)]
  have hz : labZ rgbC0 = (srgbGamma ((16 : ℝ) / 255) * 193339 + srgbGamma ((185 : ℝ) / 255) * 1191920 +
      srgbGamma ((129 : ℝ) / 255) * 9503041) / 10888300 := by
    simp only [labZ, rgbC0]
    norm_num
    first
    | ring
    | skip
  have hz0 : (0 : ℝ) ≤ labZ rgbC0 := by
    rw [hz]
    linarith
  have hzf : labF (labZ rgbC0) = labZ rgbC0 ^ ((1 : ℝ) / 3) := by
    unfold labF
    rw [if_pos (by rw [hz] ; linarith : labZ rgbC0 > 0.008856)]
  refine ⟨⟨?_, ?_⟩, ⟨?_, ?_⟩, ⟨?_, ?_⟩⟩
  · rw [hxf]
    refine cbrt_ge _ _ hx0 (by norm_num) ?_
    rw [hx, show ((304758199/500000000 : ℝ)) ^ 3 = 28305197869754540880554599/125000000000000000000000000 from by norm_num]
    linarith
  · rw [hxf]
    refine cbrt_le _ _ hx0 (by norm_num) ?_
    rw [hx, show ((609516399/1000000000 : ℝ)) ^ 3 = 226441584072567047165669199/1000000000000000000000000000 from by norm_num]
    linarith
  · rw [hyf]
    refine cbrt_ge _ _ hy0 (by norm_num) ?_
    rw [hy, show ((713939823/1000000000 : ℝ)) ^ 3 = 363902317774869269473234767/1000000000000000000000000000 from by norm_num]
    linarith
  · rw [hyf]
    refine cbrt_le _ _ hy0 (by norm_num) ?_
    rw [hy, show ((28557593/40000000 : ℝ)) ^ 3 = 23289748533320301006857/64000000000000000000000 from by norm_num]
    linarith
  · rw [hzf]
    refine cbrt_ge _ _ hz0 (by norm_num) ?_
    rw [hz, show ((156389999/250000000 : ℝ)) ^ 3 = 3824960288745504169169999/15625000000000000000000000 from by norm_num]
    linarith
  · rw [hzf]
    refine cbrt_le _ _ hz0 (by norm_num) ?_
    rw [hz, show ((312779999/500000000 : ℝ)) ^ 3 = 30599682603458015738339999/125000000000000000000000000 from by norm_num]
    linarith

def rgbCr : Rgb := ⟨20, 185, 129⟩

theorem labBounds_Cr :
    ((76277729/125000000 : ℝ) ≤ labF (labX rgbCr) ∧ labF (labX rgbCr) ≤ 305110917/500000000) ∧
    ((178548003/250000000 : ℝ) ≤ labF (labY rgbCr) ∧ labF (labY rgbCr) ≤ 357096007/500000000) ∧
    ((62558743/100000000 : ℝ) ≤ labF (labZ rgbCr) ∧ labF (labZ rgbCr) ≤ 78198429/125000000) := by
  obtain ⟨hr1, hr2⟩ := P20_bounds
  obtain ⟨hg1, hg2⟩ := P185_bounds
  obtain ⟨hb1, hb2⟩ := P129_bounds
  have hx : labX rgbCr = (srgbGamma ((20 : ℝ) / 255) * 4124564 + srgbGamma ((185 : ℝ) / 255) * 3575761 +
      srgbGamma ((129 : ℝ) / 255) * 1804375) / 9504700 := by
    simp only [labX, rgbCr]
    norm_num
    first
    | ring
    | skip
  have hx0 : (0 : ℝ) ≤ labX rgbCr := by
    rw [hx]
    linarith
  have hxf : labF (labX rgbCr) = labX rgbCr ^ ((1 : ℝ) / 3) := by
    unfold labF
    rw [if_pos (by rw [hx] ; linarith : labX rgbCr > 0.008856)]
  have hy : labY rgbCr = (srgbGamma ((20 : ℝ) / 255) * 2126729 + srgbGamma ((185 : ℝ) / 255) * 7151522 +
      srgbGamma ((129 : ℝ) / 255) * 721750) / 10000000 := by
    simp only [labY, rgbCr]
    norm_num
    first
    | ring
    | skip
  have hy0 : (0 : ℝ) ≤ labY rgbCr := by
    rw [hy]
    linarith
  have hyf : labF (labY rgbCr) = labY rgbCr ^ ((1 : ℝ) / 3) := by
    unfold labF
    rw [if_pos (by rw [hy] ; linarith : labY rgbCr > 0.008856)]
  have hz : labZ rgbCr = (srgbGamma ((20 : ℝ) / 255) * 193339 + srgbGamma ((185 : ℝ) / 255) * 1191920 +
      srgbGamma ((129 : ℝ) / 255) * 9503041) / 10888300 := by
    simp only [labZ, rgbCr]
    norm_num
    first
    | ring
    | skip
  have hz0 : (0 : ℝ) ≤ labZ rgbCr := by
    rw [hz]
    linarith
  have hzf : labF (labZ rgbCr) = labZ rgbCr ^ ((1 : ℝ) / 3) := by
    unfold labF
    rw [if_pos (by rw [hz] ; linarith : labZ rgbCr > 0.008856)]
  refine ⟨⟨?_, ?_⟩, ⟨?_, ?_⟩, ⟨?_, ?_⟩⟩
  · rw [hxf]
    refine cbrt_ge _ _ hx0 (by norm_num) ?_
    rw [hx, show ((76277729/125000000 : ℝ)) ^ 3 = 443806095948797885891489/1953125000000000000000000 from by norm_num]
    linarith
  · rw [hxf]
    refine cbrt_le _ _ hx0 (by norm_num) ?_
    rw [hx, show ((305110917/500000000 : ℝ)) ^ 3 = 28403590420001078799465213/125000000000000000000000000 from by norm_num]
    linarith
  · rw [hyf]
    refine cbrt_ge _ _ hy0 (by norm_num) ?_
    rw [hy, show ((178548003/250000000 : ℝ)) ^ 3 = 5692001309817091556796027/15625000000000000000000000 from by norm_num]
    linarith
  · rw [hyf]
    refine cbrt_le _ _ hy0 (by norm_num) ?_
    rw [hy, show ((357096007/500000000 : ℝ)) ^ 3 = 45536010861089406029112343/125000000000000000000000000 from by norm_num]
    linarith
  · rw [hzf]
    refine cbrt_ge _ _ hz0 (by norm_num) ?_
    rw [hz, show ((62558743/100000000 : ℝ)) ^ 3 = 244829666747716010198407/1000000000000000000000000 from by norm_num]
    linarith
  · rw [hzf]
    refine cbrt_le _ _ hz0 (by norm_num) ?_
    rw [hz, show ((78198429/125000000 : ℝ)) ^ 3 = 478182947452878541307589/1953125000000000000000000 from by norm_num]
    linarith

def rgbCg : Rgb := ⟨16, 186, 129⟩

theorem labBounds_Cg :
    ((305745857/500000000 : ℝ) ≤ labF (labX rgbCg) ∧ labF (labX rgbCg) ≤ 152872929/250000000) ∧
    ((71667507/100000000 : ℝ) ≤ labF (labY rgbCg) ∧ labF (labY rgbCg) ≤ 1399756/1953125) ∧
    ((313053477/500000000 : ℝ) ≤ labF (labZ rgbCg) ∧ labF (labZ rgbCg) ≤ 125221391/200000000) := by
  obtain ⟨hr1, hr2⟩ := P16_bounds
  obtain ⟨hg1, hg2⟩ := P186_bounds
  obtain ⟨hb1, hb2⟩ := P129_bounds
  have hx : labX rgbCg = (srgbGamma ((16 : ℝ) / 255) * 4124564 + srgbGamma ((186 : ℝ) / 255) * 3575761 +
      srgbGamma ((129 : ℝ) / 255) * 1804375) / 9504700 := by
    simp only [labX, rgbCg]
    norm_num
    first
    | ring
    | skip
  have hx0 : (0 : ℝ) ≤ labX rgbCg := by
    rw [hx]
    linarith
  have hxf : labF (labX rgbCg) = labX rgbCg ^ ((1 : ℝ) / 3) := by
    unfold labF
    rw [if_pos (by rw [hx] ; linarith : labX rgbCg > 0.008856)]
  have hy : labY rgbCg = (srgbGamma ((16 : ℝ) / 255) * 2126729 + srgbGamma ((186 : ℝ) / 255) * 7151522 +
      srgbGamma ((129 : ℝ) / 255) * 721750) / 10000000 := by
    simp only [labY, rgbCg]
    norm_num
    first
    | ring
    | skip
  have hy0 : (0 : ℝ) ≤ labY rgbCg := by
    rw [hy]
    linarith
  have hyf : labF (labY rgbCg) = labY rgbCg ^ ((1 : ℝ) / 3) := by
    unfold labF
    rw [if_pos (by rw [hy] ; linarith : labY rgbCg > 0.008856)]
  have hz : labZ rgbCg = (srgbGamma ((16 : ℝ) / 255) * 193339 + srgbGamma ((186 : ℝ) / 255) * 1191920 +
      srgbGamma ((129 : ℝ) / 255) * 9503041) / 10888300 := by
    simp only [labZ, rgbCg]
    norm_num
    first
    | ring
    | skip
  have hz0 : (0 : ℝ) ≤ labZ rgbCg := by
    rw [hz]
    linarith
  have hzf : labF (labZ rgbCg) = labZ rgbCg ^ ((1 : ℝ) / 3) := by
    unfold labF
    rw [if_pos (by rw [hz] ; linarith : labZ rgbCg > 0.008856)]
  refine ⟨⟨?_, ?_⟩, ⟨?_, ?_⟩, ⟨?_, ?_⟩⟩
  · rw [hxf]
    refine cbrt_ge _ _ hx0 (by norm_num) ?_
    rw [hx, show ((305745857/500000000 : ℝ)) ^ 3 = 28581284474135207232937793/125000000000000000000000000 from by norm_num]
    linarith
  · rw [hxf]
    refine cbrt_le _ _ hx0 (by norm_num) ?_
    rw [hx, show ((152872929/250000000 : ℝ)) ^ 3 = 3572660594322099421021089/15625000000000000000000000 from by norm_num]
    linarith
  · rw [hyf]
    refine cbrt_ge _ _ hy0 (by norm_num) ?_
    rw [hy, show ((71667507/100000000 : ℝ)) ^ 3 = 368100911250899091372843/1000000000000000000000000 from by norm_num]
    linarith
  · rw [hyf]
    refine cbrt_le _ _ hy0 (by norm_num) ?_
    rw [hy, show ((1399756/1953125 : ℝ)) ^ 3 = 2742565530036673216/7450580596923828125 from by norm_num]
    linarith
  · rw [hzf]
    refine cbrt_ge _ _ hz0 (by norm_num) ?_
    rw [hz, show ((313053477/500000000 : ℝ)) ^ 3 = 30680016950134300695642333/125000000000000000000000000 from by norm_num]
    linarith
  · rw [hzf]
    refine cbrt_le _ _ hz0 (by norm_num) ?_
    rw [hz, show ((125221391/200000000 : ℝ)) ^ 3 = 1963521094216833287879471/8000000000000000000000000 from by norm_num]
    linarith

def rgbCb : Rgb := ⟨16, 185, 130⟩

theorem labBounds_Cb :
    ((305073137/500000000 : ℝ) ≤ labF (labX rgbCb) ∧ labF (labX rgbCb) ≤ 152536569/250000000) ∧
    ((714114503/1000000000 : ℝ) ≤ labF (labY rgbCb) ∧ labF (labY rgbCb) ≤ 142822901/200000000) ∧
    ((157074999/250000000 : ℝ) ≤ labF (labZ rgbCb) ∧ labF (labZ rgbCb) ≤ 314149999/500000000) := by
  obtain ⟨hr1, hr2⟩ := P16_bounds
  obtain ⟨hg1, hg2⟩ := P185_bounds
  obtain ⟨hb1, hb2⟩ := P130_bounds
  have hx : labX rgbCb = (srgbGamma ((16 : ℝ) / 255) * 4124564 + srgbGamma ((185 : ℝ) / 255) * 3575761 +
      srgbGamma ((130 : ℝ) / 255) * 1804375) / 9504700 := by
    simp only [labX, rgbCb]
    norm_num
    first
    | ring
    | skip
  have hx0 : (0 : ℝ) ≤ labX rgbCb := by
    rw [hx]
    linarith
  have hxf : labF (labX rgbCb) = labX rgbCb ^ ((1 : ℝ) / 3) := by
    unfold labF
    rw [if_pos (by rw [hx] ; linarith : labX rgbCb > 0.008856)]
  have hy : labY rgbCb = (srgbGamma ((16 : ℝ) / 255) * 2126729 + srgbGamma ((185 : ℝ) / 255) * 7151522 +
      srgbGamma ((130 : ℝ) / 255) * 721750) / 10000000 := by
    simp only [labY, rgbCb]
    norm_num
    first
    | ring
    | skip
  have hy0 : (0 : ℝ) ≤ labY rgbCb := by
    rw [hy]
    linarith
  have hyf : labF (labY rgbCb) = labY rgbCb ^ ((1 : ℝ) / 3) := by
    unfold labF
    rw [if_pos (by rw [hy] ; linarith : labY rgbCb > 0.008856)]
  have hz : labZ rgbCb = (srgbGamma ((16 : ℝ) / 255) * 193339 + srgbGamma ((185 : ℝ) / 255) * 1191920 +
      srgbGamma ((130 : ℝ) / 255) * 9503041) / 10888300 := by
    simp only [labZ, rgbCb]
    norm_num
    first
    | ring
    | skip
  have hz0 : (0 : ℝ) ≤ labZ rgbCb := by
    rw [hz]
    linarith
  have hzf : labF (labZ rgbCb) = labZ rgbCb ^ ((1 : ℝ) / 3) := by
    unfold labF
    rw [if_pos (by rw [hz] ; linarith : labZ rgbCb > 0.008856)]
  refine ⟨⟨?_, ?_⟩, ⟨?_, ?_⟩, ⟨?_, ?_⟩⟩
  · rw [hxf]
    refine cbrt_ge _ _ hx0 (by norm_num) ?_
    rw [hx, show ((305073137/500000000 : ℝ)) ^ 3 = 28393040603020214966982353/125000000000000000000000000 from by norm_num]
    linarith
  · rw [hxf]
    refine cbrt_le _ _ hx0 (by norm_num) ?_
    rw [hx, show ((152536569/250000000 : ℝ)) ^ 3 = 3549130110278634079908009/15625000000000000000000000 from by norm_num]
    linarith
  · rw [hyf]
    refine cbrt_ge _ _ hy0 (by norm_num) ?_
    rw [hy, show ((714114503/1000000000 : ℝ)) ^ 3 = 364169491599292314898341527/1000000000000000000000000000 from by norm_num]
    linarith
  · rw [hyf]
    refine cbrt_le _ _ hy0 (by norm_num) ?_
    rw [hy, show ((142822901/200000000 : ℝ)) ^ 3 = 2913355957272395710698701/8000000000000000000000000 from by norm_num]
    linarith
  · rw [hzf]
    refine cbrt_ge _ _ hz0 (by norm_num) ?_
    rw [hz, show ((157074999/250000000 : ℝ)) ^ 3 = 3875441600779208596224999/15625000000000000000000000 from by norm_num]
    linarith
  · rw [hzf]
    refine cbrt_le _ _ hz0 (by norm_num) ?_
    rw [hz, show ((314149999/500000000 : ℝ)) ^ 3 = 31003533102304333442449999/125000000000000000000000000 from by norm_num]
    linarith

theorem dist_C0Cr_bounds :
    (23/100 : ℝ) ≤ colorDistance rgbC0 rgbCr ∧ colorDistance rgbC0 rgbCr ≤ 24/100 := by
  obtain ⟨⟨hx0l, hx0h⟩, ⟨hy0l, hy0h⟩, ⟨hz0l, hz0h⟩⟩ := labBounds_C0
  obtain ⟨⟨hx1l, hx1h⟩, ⟨hy1l, hy1h⟩, ⟨hz1l, hz1h⟩⟩ := labBounds_Cr
  have hd : colorDistance rgbC0 rgbCr =
      Real.sqrt ((116 * labF (labY rgbCr) - 16 - (116 * labF (labY rgbC0) - 16)) ^ 2 +
        (500 * (labF (labX rgbCr) - labF (labY rgbCr)) - 500 * (labF (labX rgbC0) - labF (labY rgbC0))) ^ 2 +
        (200 * (labF (labY rgbCr) - labF (labZ rgbCr)) - 200 * (labF (labY rgbC0) - labF (labZ rgbC0))) ^ 2) := rfl
  have hA1 : (292/10000 : ℝ) ≤ (116 * labF (labY rgbCr) - 16 - (116 * labF (labY rgbC0) - 16)) := by linarith
  have hA2 : (116 * labF (labY rgbCr) - 16 - (116 * labF (labY rgbC0) - 16)) ≤ (293/10000 : ℝ) := by linarith
  have hAsqU : (116 * labF (labY rgbCr) - 16 - (116 * labF (labY rgbC0) - 16)) ^ 2 ≤ (293/10000 : ℝ) ^ 2 :=
    sq_le_sq' (by linarith) (by linarith)
  have hAsqL : (292/10000 : ℝ) ^ 2 ≤ (116 * labF (labY rgbCr) - 16 - (116 * labF (labY rgbC0) - 16)) ^ 2 :=
    pow_le_pow_left₀ (by norm_num) hA1 2
  have eAU : ((293/10000 : ℝ)) ^ 2 = 85849/100000000 := by norm_num
  have eAL : ((292/10000 : ℝ)) ^ 2 = 85264/100000000 := by norm_num
  have hB1 : (2266/10000 : ℝ) ≤ (500 * (labF (labX rgbCr) - labF (labY rgbCr)) - 500 * (labF (labX rgbC0) - labF (labY rgbC0))) := by linarith
  have hB2 : (500 * (labF (labX rgbCr) - labF (labY rgbCr)) - 500 * (labF (labX rgbC0) - labF (labY rgbC0))) ≤ (2267/10000 : ℝ) := by linarith
  have hBsqU : (500 * (labF (labX rgbCr) - labF (labY rgbCr)) - 500 * (labF (labX rgbC0) - labF (labY rgbC0))) ^ 2 ≤ (2267/10000 : ℝ) ^ 2 :=
    sq_le_sq' (by linarith) (by linarith)
  have hBsqL : (2266/10000 : ℝ) ^ 2 ≤ (500 * (labF (labX rgbCr) - labF (labY rgbCr)) - 500 * (labF (labX rgbC0) - labF (labY rgbC0))) ^ 2 :=
    pow_le_pow_left₀ (by norm_num) hB1 2
  have eBU : ((2267/10000 : ℝ)) ^ 2 = 5139289/100000000 := by norm_num
  have eBL : ((2266/10000 : ℝ)) ^ 2 = 5134756/100000000 := by norm_num
  have hC1 : (449/10000 : ℝ) ≤ (200 * (labF (labY rgbCr) - labF (labZ rgbCr)) - 200 * (labF (labY rgbC0) - labF (labZ rgbC0))) := by linarith
  have hC2 : (200 * (labF (labY rgbCr) - labF (labZ rgbCr)) - 200 * (labF (labY rgbC0) - labF (labZ rgbC0))) ≤ (450/10000 : ℝ) := by linarith
  have hCsqU : (200 * (labF (labY rgbCr) - labF (labZ rgbCr)) - 200 * (labF (labY rgbC0) - labF (labZ rgbC0))) ^ 2 ≤ (450/10000 : ℝ) ^ 2 :=
    sq_le_sq' (by linarith) (by linarith)
  have hCsqL : (449/10000 : ℝ) ^ 2 ≤ (200 * (labF (labY rgbCr) - labF (labZ rgbCr)) - 200 * (labF (labY rgbC0) - labF (labZ rgbC0))) ^ 2 :=
    pow_le_pow_left₀ (by norm_num) hC1 2
  have eCU : ((450/10000 : ℝ)) ^ 2 = 202500/100000000 := by norm_num
  have eCL : ((449/10000 : ℝ)) ^ 2 = 201601/100000000 := by norm_num
  constructor
  · rw [hd, show (23/100 : ℝ) = Real.sqrt ((23/100 : ℝ) ^ 2) from
        (Real.sqrt_sq (by norm_num)).symm]
    refine Real.sqrt_le_sqrt ?_
    rw [show ((23/100 : ℝ)) ^ 2 = 5290000/100000000 from by norm_num]
    linarith
  · rw [hd]
    have hS : (116 * labF (labY rgbCr) - 16 - (116 * labF (labY rgbC0) - 16)) ^ 2 +
        (500 * (labF (labX rgbCr) - labF (labY rgbCr)) - 500 * (labF (labX rgbC0) - labF (labY rgbC0))) ^ 2 +
        (200 * (labF (labY rgbCr) - labF (labZ rgbCr)) - 200 * (labF (labY rgbC0) - labF (labZ rgbC0))) ^ 2 ≤ ((24/100 : ℝ)) ^ 2 := by
      rw [show ((24/100 : ℝ)) ^ 2 = 5760000/100000000 from by norm_num]
      linarith
    calc Real.sqrt ((116 * labF (labY rgbCr) - 16 - (116 * labF (labY rgbC0) - 16)) ^ 2 +
        (500 * (labF (labX rgbCr) - labF (labY rgbCr)) - 500 * (labF (labX rgbC0) - labF (labY rgbC0))) ^ 2 +
        (200 * (labF (labY rgbCr) - labF (labZ rgbCr)) - 200 * (labF (labY rgbC0) - labF (labZ rgbC0))) ^ 2) ≤ Real.sqrt (((24/100 : ℝ)) ^ 2) := Real.sqrt_le_sqrt hS
    _ = 24/100 := Real.sqrt_sq (by norm_num)

theorem dist_C0Cg_bounds :
    (66/100 : ℝ) ≤ colorDistance rgbC0 rgbCg ∧ colorDistance rgbC0 rgbCg ≤ 67/100 := by
  obtain ⟨⟨hx0l, hx0h⟩, ⟨hy0l, hy0h⟩, ⟨hz0l, hz0h⟩⟩ := labBounds_C0
  obtain ⟨⟨hx1l, hx1h⟩, ⟨hy1l, hy1h⟩, ⟨hz1l, hz1h⟩⟩ := labBounds_Cg
  have hd : colorDistance rgbC0 rgbCg =
      Real.sqrt ((116 * labF (labY rgbCg) - 16 - (116 * labF (labY rgbC0) - 16)) ^ 2 +
        (500 * (labF (labX rgbCg) - labF (labY rgbCg)) - 500 * (labF (labX rgbC0) - labF (labY rgbC0))) ^ 2 +
        (200 * (labF (labY rgbCg) - labF (labZ rgbCg)) - 200 * (labF (labY rgbC0) - labF (labZ rgbC0))) ^ 2) := rfl
  have hA1 : (3172/10000 : ℝ) ≤ (116 * labF (labY rgbCg) - 16 - (116 * labF (labY rgbC0) - 16)) := by linarith
  have hA2 : (116 * labF (labY rgbCg) - 16 - (116 * labF (labY rgbC0) - 16)) ≤ (3173/10000 : ℝ) := by linarith
  have hAsqU : (116 * labF (labY rgbCg) - 16 - (116 * labF (labY rgbC0) - 16)) ^ 2 ≤ (3173/10000 : ℝ) ^ 2 :=
    sq_le_sq' (by linarith) (by linarith)
  have hAsqL : (3172/10000 : ℝ) ^ 2 ≤ (116 * labF (labY rgbCg) - 16 - (116 * labF (labY rgbC0) - 16)) ^ 2 :=
    pow_le_pow_left₀ (by norm_num) hA1 2
  have eAU : ((3173/10000 : ℝ)) ^ 2 = 10067929/100000000 := by norm_num
  have eAL : ((3172/10000 : ℝ)) ^ 2 = 10061584/100000000 := by norm_num
  have hB1 : (-3800/10000 : ℝ) ≤ (500 * (labF (labX rgbCg) - labF (labY rgbCg)) - 500 * (labF (labX rgbC0) - labF (labY rgbC0))) := by linarith
  have hB2 : (500 * (labF (labX rgbCg) - labF (labY rgbCg)) - 500 * (labF (labX rgbC0) - labF (labY rgbC0))) ≤ (-3799/10000 : ℝ) := by linarith
  have hBsqU : (500 * (labF (labX rgbCg) - labF (labY rgbCg)) - 500 * (labF (labX rgbC0) - labF (labY rgbC0))) ^ 2 ≤ (3800/10000 : ℝ) ^ 2 :=
    sq_le_sq' (by linarith) (by linarith)
  have hBneg : (3799/10000 : ℝ) ≤ -(500 * (labF (labX rgbCg) - labF (labY rgbCg)) - 500 * (labF (labX rgbC0) - labF (labY rgbC0))) := by linarith
  have hBsqL0 : (3799/10000 : ℝ) ^ 2 ≤ (-(500 * (labF (labX rgbCg) - labF (labY rgbCg)) - 500 * (labF (labX rgbC0) - labF (labY rgbC0)))) ^ 2 :=
    pow_le_pow_left₀ (by norm_num) hBneg 2
  have hBsqL : (3799/10000 : ℝ) ^ 2 ≤ (500 * (labF (labX rgbCg) - labF (labY rgbCg)) - 500 * (labF (labX rgbC0) - labF (labY rgbC0))) ^ 2 := by
    rw [neg_sq] at hBsqL0
    exact hBsqL0
  have eBU : ((3800/10000 : ℝ)) ^ 2 = 14440000/100000000 := by norm_num
  have eBL : ((3799/10000 : ℝ)) ^ 2 = 14432401/100000000 := by norm_num
  have hC1 : (4376/10000 : ℝ) ≤ (200 * (labF (labY rgbCg) - labF (labZ rgbCg)) - 200 * (labF (labY rgbC0) - labF (labZ rgbC0))) := by linarith
  have hC2 : (200 * (labF (labY rgbCg) - labF (labZ rgbCg)) - 200 * (labF (labY rgbC0) - labF (labZ rgbC0))) ≤ (4377/10000 : ℝ) := by linarith
  have hCsqU : (200 * (labF (labY rgbCg) - labF (labZ rgbCg)) - 200 * (labF (labY rgbC0) - labF (labZ rgbC0))) ^ 2 ≤ (4377/10000 : ℝ) ^ 2 :=
    sq_le_sq' (by linarith) (by linarith)
  have hCsqL : (4376/10000 : ℝ) ^ 2 ≤ (200 * (labF (labY rgbCg) - labF (labZ rgbCg)) - 200 * (labF (labY rgbC0) - labF (labZ rgbC0))) ^ 2 :=
    pow_le_pow_left₀ (by norm_num) hC1 2
  have eCU : ((4377/10000 : ℝ)) ^ 2 = 19158129/100000000 := by norm_num
  have eCL : ((4376/10000 : ℝ)) ^ 2 = 19149376/100000000 := by norm_num
  constructor
  · rw [hd, show (66/100 : ℝ) = Real.sqrt ((66/100 : ℝ) ^ 2) from
        (Real.sqrt_sq (by norm_num)).symm]
    refine Real.sqrt_le_sqrt ?_
    rw [show ((66/100 : ℝ)) ^ 2 = 43560000/100000000 from by norm_num]
    linarith
  · rw [hd]
    have hS : (116 * labF (labY rgbCg) - 16 - (116 * labF (labY rgbC0) - 16)) ^ 2 +
        (500 * (labF (labX rgbCg) - labF (labY rgbCg)) - 500 * (labF (labX rgbC0) - labF (labY rgbC0))) ^ 2 +
        (200 * (labF (labY rgbCg) - labF (labZ rgbCg)) - 200 * (labF (labY rgbC0) - labF (labZ rgbC0))) ^ 2 ≤ ((67/100 : ℝ)) ^ 2 := by
      rw [show ((67/100 : ℝ)) ^ 2 = 44890000/100000000 from by norm_num]
      linarith
    calc Real.sqrt ((116 * labF (labY rgbCg) - 16 - (116 * labF (labY rgbC0) - 16)) ^ 2 +
        (500 * (labF (labX rgbCg) - labF (labY rgbCg)) - 500 * (labF (labX rgbC0) - labF (labY rgbC0))) ^ 2 +
        (200 * (labF (labY rgbCg) - labF (labZ rgbCg)) - 200 * (labF (labY rgbC0) - labF (labZ rgbC0))) ^ 2) ≤ Real.sqrt (((67/100 : ℝ)) ^ 2) := Real.sqrt_le_sqrt hS
    _ = 67/100 := Real.sqrt_sq (by norm_num)

theorem dist_C0Cb_le :
    colorDistance rgbC0 rgbCb ≤ (57/100 : ℝ) := by
  obtain ⟨⟨hx0l, hx0h⟩, ⟨hy0l, hy0h⟩, ⟨hz0l, hz0h⟩⟩ := labBounds_C0
  obtain ⟨⟨hx1l, hx1h⟩, ⟨hy1l, hy1h⟩, ⟨hz1l, hz1h⟩⟩ := labBounds_Cb
  have hd : colorDistance rgbC0 rgbCb =
      Real.sqrt ((116 * labF (labY rgbCb) - 16 - (116 * labF (labY rgbC0) - 16)) ^ 2 +
        (500 * (labF (labX rgbCb) - labF (labY rgbCb)) - 500 * (labF (labX rgbC0) - labF (labY rgbC0))) ^ 2 +
        (200 * (labF (labY rgbCb) - labF (labZ rgbCb)) - 200 * (labF (labY rgbC0) - labF (labZ rgbC0))) ^ 2) := rfl
  have hA1 : (202/10000 : ℝ) ≤ (116 * labF (labY rgbCb) - 16 - (116 * labF (labY rgbC0) - 16)) := by linarith
  have hA2 : (116 * labF (labY rgbCb) - 16 - (116 * labF (labY rgbC0) - 16)) ≤ (203/10000 : ℝ) := by linarith
  have hAsqU : (116 * labF (labY rgbCb) - 16 - (116 * labF (labY rgbC0) - 16)) ^ 2 ≤ (203/10000 : ℝ) ^ 2 :=
    sq_le_sq' (by linarith) (by linarith)
  have eAU : ((203/10000 : ℝ)) ^ 2 = 41209/100000000 := by norm_num
  have hB1 : (2275/10000 : ℝ) ≤ (500 * (labF (labX rgbCb) - labF (labY rgbCb)) - 500 * (labF (labX rgbC0) - labF (labY rgbC0))) := by linarith
  have hB2 : (500 * (labF (labX rgbCb) - labF (labY rgbCb)) - 500 * (labF (labX rgbC0) - labF (labY rgbC0))) ≤ (2277/10000 : ℝ) := by linarith
  have hBsqU : (500 * (labF (labX rgbCb) - labF (labY rgbCb)) - 500 * (labF (labX rgbC0) - labF (labY rgbC0))) ^ 2 ≤ (2277/10000 : ℝ) ^ 2 :=
    sq_le_sq' (by linarith) (by linarith)
  have eBU : ((2277/10000 : ℝ)) ^ 2 = 5184729/100000000 := by norm_num
  have hC1 : (-5131/10000 : ℝ) ≤ (200 * (labF (labY rgbCb) - labF (labZ rgbCb)) - 200 * (labF (labY rgbC0) - labF (labZ rgbC0))) := by linarith
  have hC2 : (200 * (labF (labY rgbCb) - labF (labZ rgbCb)) - 200 * (labF (labY rgbC0) - labF (labZ rgbC0))) ≤ (-5130/10000 : ℝ) := by linarith
  have hCsqU : (200 * (labF (labY rgbCb) - labF (labZ rgbCb)) - 200 * (labF (labY rgbC0) - labF (labZ rgbC0))) ^ 2 ≤ (5131/10000 : ℝ) ^ 2 :=
    sq_le_sq' (by linarith) (by linarith)
  have eCU : ((5131/10000 : ℝ)) ^ 2 = 26327161/100000000 := by norm_num
  rw [hd]
  have hS : (116 * labF (labY rgbCb) - 16 - (116 * labF (labY rgbC0) - 16)) ^ 2 +
        (500 * (labF (labX rgbCb) - labF (labY rgbCb)) - 500 * (labF (labX rgbC0) - labF (labY rgbC0))) ^ 2 +
        (200 * (labF (labY rgbCb) - labF (labZ rgbCb)) - 200 * (labF (labY rgbC0) - labF (labZ rgbC0))) ^ 2 ≤ ((57/100 : ℝ)) ^ 2 := by
    rw [show ((57/100 : ℝ)) ^ 2 = 32490000/100000000 from by norm_num]
    linarith
  calc Real.sqrt ((116 * labF (labY rgbCb) - 16 - (116 * labF (labY rgbC0) - 16)) ^ 2 +
        (500 * (labF (labX rgbCb) - labF (labY rgbCb)) - 500 * (labF (labX rgbC0) - labF (labY rgbC0))) ^ 2 +
        (200 * (labF (labY rgbCb) - labF (labZ rgbCb)) - 200 * (labF (labY rgbC0) - labF (labZ rgbC0))) ^ 2) ≤ Real.sqrt (((57/100 : ℝ)) ^ 2) := Real.sqrt_le_sqrt hS
  _ = 57/100 := Real.sqrt_sq (by norm_num)


/-! ## `findNearestColor` (src/color-utils.js)

```js
function findNearestColor(colorStr, palette) {
  const rgb = parseColor(colorStr);
  if (!rgb) return null;
  let nearest = null;
  let minDistance = Infinity;
  for (const [name, hex] of Object.entries(palette)) {
    const paletteRgb = parseColor(hex);
    if (!paletteRgb) continue;
    const dist = colorDistance(rgb, paletteRgb);
    if (dist < minDistance) {
      minDistance = dist;
      nearest = { name, hex, distance: Math.round(dist * 100) / 100 };
    }
  }
  return nearest;
}
```

The palette mapping is passed as its entry list in iteration order.  The
`nearest = null, minDistance = Infinity` initial state is modelled as
`none` (every finite distance satisfies `dist < Infinity`).  The fold state
carries `(name, hex, roundedDistance, minDistance)`. -/

open Classical in
noncomputable def nearestStep (rgb : Rgb) (st : Option (String × String × ℝ × ℝ))
    (e : String × String) : Option (String × String × ℝ × ℝ) :=
  match parseColor e.2 with
  | none => st
  | some prgb =>
    match st with
    | none => some (e.1, e.2, round2R (colorDistance rgb prgb), colorDistance rgb prgb)
    | some b =>
      if colorDistance rgb prgb < b.2.2.2 then
        some (e.1, e.2, round2R (colorDistance rgb prgb), colorDistance rgb prgb)
      else some b

noncomputable def findNearestColor (colorStr : String) (palette : List (String × String)) :
    Option (String × String × ℝ) :=
  match parseColor colorStr with
  | none => none
  | some rgb => (palette.foldl (nearestStep rgb) none).map (fun b => (b.1, b.2.1, b.2.2.1))

/-- Distance from the parsed input to a palette entry (meaningful when the
entry's hex parses; the default is irrelevant under that hypothesis). -/
noncomputable def entryDist (rgb : Rgb) (e : String × String) : ℝ :=
  colorDistance rgb ((parseColor e.2).getD ⟨0, 0, 0⟩)

theorem nearestStep_skip (rgb : Rgb) (st : Option (String × String × ℝ × ℝ))
    (e : String × String) (h : parseColor e.2 = none) : nearestStep rgb st e = st := by
  unfold nearestStep
  rw [h]

theorem nearestStep_first (rgb : Rgb) (e : String × String) (p : Rgb)
    (h : parseColor e.2 = some p) :
    nearestStep rgb none e =
      some (e.1, e.2, round2R (colorDistance rgb p), colorDistance rgb p) := by
  unfold nearestStep
  rw [h]

open Classical in
theorem nearestStep_update (rgb : Rgb) (e : String × String) (p : Rgb)
    (b : String × String × ℝ × ℝ) (h : parseColor e.2 = some p) :
    nearestStep rgb (some b) e =
      if colorDistance rgb p < b.2.2.2 then
        some (e.1, e.2, round2R (colorDistance rgb p), colorDistance rgb p)
      else some b := by
  unfold nearestStep
  rw [h]

theorem colorDistance_symm (c1 c2 : Rgb) : colorDistance c1 c2 = colorDistance c2 c1 := by
  unfold colorDistance
  congr 1
  ring

theorem nearest_foldl_spec (rgb : Rgb) (l : List (String × String)) :
    (∀ e ∈ l, (parseColor e.2).isSome = true) → l ≠ [] →
    ∃ pre e post, l = pre ++ e :: post ∧
      l.foldl (nearestStep rgb) none =
        some (e.1, e.2, round2R (entryDist rgb e), entryDist rgb e) ∧
      (∀ e2 ∈ pre, entryDist rgb e < entryDist rgb e2) ∧
      (∀ e2 ∈ post, entryDist rgb e ≤ entryDist rgb e2) := by
  induction l using List.reverseRecOn with
  | nil =>
    intro _ hne
    exact absurd rfl hne
  | append_singleton l en ih =>
    intro hall _
    obtain ⟨pn, hpn⟩ : ∃ p, parseColor en.2 = some p :=
      Option.isSome_iff_exists.mp (hall en (by simp))
    have hend : entryDist rgb en = colorDistance rgb pn := by
      unfold entryDist
      rw [hpn]
      rfl
    by_cases hl : l = []
    · subst hl
      refine ⟨[], en, [], by simp, ?_, by simp, by simp⟩
      simp only [List.nil_append, List.foldl_cons, List.foldl_nil]
      rw [nearestStep_first rgb en pn hpn, hend]
    · obtain ⟨pre, e, post, hsplit, hfold, hpre, hpost⟩ :=
        ih (fun e2 he2 => hall e2 (List.mem_append.mpr (Or.inl he2))) hl
      have hstep : (l ++ [en]).foldl (nearestStep rgb) none =
          nearestStep rgb
            (some (e.1, e.2, round2R (entryDist rgb e), entryDist rgb e)) en := by
        rw [List.foldl_append, hfold]
        simp only [List.foldl_cons, List.foldl_nil]
      rw [nearestStep_update rgb en pn _ hpn] at hstep
      dsimp only at hstep
      by_cases hlt : colorDistance rgb pn < entryDist rgb e
      · rw [if_pos hlt] at hstep
        refine ⟨l, en, [], by simp, ?_, ?_, by simp⟩
        · rw [hstep, hend]
        · intro e2 he2
          rw [hsplit] at he2
          rw [hend]
          rcases List.mem_append.mp he2 with h2 | h2
          · exact lt_trans hlt (hpre e2 h2)
          · rcases List.mem_cons.mp h2 with rfl | h2
            · exact hlt
            · exact lt_of_lt_of_le hlt (hpost e2 h2)
      · rw [if_neg hlt] at hstep
        refine ⟨pre, e, post ++ [en], by rw [hsplit]; simp, hstep, hpre, ?_⟩
        intro e2 he2
        rcases List.mem_append.mp he2 with h2 | h2
        · exact hpost e2 h2
        · have he : e2 = en := by simpa using h2
          subst he
          rw [hend]
          exact not_lt.mp hlt

/-- C5: `findNearestColor` returns, for a parseable input and a palette (as
its entry list in iteration order), the entry with the strictly minimum Lab
distance — first-seen wins exact ties, i.e. every earlier entry has
strictly greater distance and every later entry has greater-or-equal
distance — with the reported distance rounded to 2 decimal places; for an
unparseable input it returns `none`.  Scenario B: against palette
`[("--primary", "#10b981")]`, input `"#10b981"` yields `--primary` with
distance 0, and input `"#10b982"` yields the same name with distance < 1.
(The general clause assumes every palette entry parses; entries that do not
parse are skipped by the loop and cannot be returned.) -/
theorem findNearestColor_c5 :
    (∀ (s : String) (palette : List (String × String)), parseColor s = none →
      findNearestColor s palette = none) ∧
    (∀ (s : String) (rgb : Rgb) (palette : List (String × String)), parseColor s = some rgb →
      (∀ e ∈ palette, (parseColor e.2).isSome = true) → palette ≠ [] →
      ∃ pre e post, palette = pre ++ e :: post ∧
        findNearestColor s palette = some (e.1, e.2, round2R (entryDist rgb e)) ∧
        (∀ e2 ∈ pre, entryDist rgb e < entryDist rgb e2) ∧
        (∀ e2 ∈ post, entryDist rgb e ≤ entryDist rgb e2)) ∧
    findNearestColor "#10b981" [("--primary", "#10b981")] = some ("--primary", "#10b981", 0) ∧
    (∃ d, findNearestColor "#10b982" [("--primary", "#10b981")] =
        some ("--primary", "#10b981", d) ∧ d < 1) := by
  refine ⟨?_, ?_, ?_, ?_⟩
  · intro s palette h
    unfold findNearestColor
    rw [h]
  · intro s rgb palette hs hall hne
    obtain ⟨pre, e, post, hsp, hf, h1, h2⟩ := nearest_foldl_spec rgb palette hall hne
    refine ⟨pre, e, post, hsp, ?_, h1, h2⟩
    unfold findNearestColor
    rw [hs]
    show (palette.foldl (nearestStep rgb) none).map (fun b => (b.1, b.2.1, b.2.2.1)) =
      some (e.1, e.2, round2R (entryDist rgb e))
    rw [hf]
    rfl
  · have hpc : parseColor "#10b981" = some rgbC0 := by decide
    unfold findNearestColor
    rw [hpc]
    show (([("--primary", "#10b981")].foldl (nearestStep rgbC0) none).map
        (fun b => (b.1, b.2.1, b.2.2.1))) = some ("--primary", "#10b981", 0)
    simp only [List.foldl_cons, List.foldl_nil]
    rw [nearestStep_first rgbC0 _ rgbC0 (by decide), colorDistance_self, round2R_zero]
    rfl
  · have hpc : parseColor "#10b982" = some rgbCb := by decide
    refine ⟨round2R (colorDistance rgbCb rgbC0), ?_, ?_⟩
    · unfold findNearestColor
      rw [hpc]
      show (([("--primary", "#10b981")].foldl (nearestStep rgbCb) none).map
          (fun b => (b.1, b.2.1, b.2.2.1))) =
        some ("--primary", "#10b981", round2R (colorDistance rgbCb rgbC0))
      simp only [List.foldl_cons, List.foldl_nil]
      rw [nearestStep_first rgbCb _ rgbC0 (by decide)]
      rfl
    · have h1 := round2R_le (colorDistance rgbC0 rgbCb)
      have h3 := dist_C0Cb_le
      rw [colorDistance_symm rgbCb rgbC0]
      linarith

/-- C5 witness: the unparseable-input clause at `"zzqx"`, and the general
minimality clause at the Scenario B palette. -/
theorem findNearestColor_c5_witness :
    findNearestColor "zzqx" [("--primary", "#10b981")] = none ∧
    (∃ pre e post, [("--primary", "#10b981")] = pre ++ e :: post ∧
      findNearestColor "#10b981" [("--primary", "#10b981")] =
        some (e.1, e.2, round2R (entryDist rgbC0 e)) ∧
      (∀ e2 ∈ pre, entryDist rgbC0 e < entryDist rgbC0 e2) ∧
      (∀ e2 ∈ post, entryDist rgbC0 e ≤ entryDist rgbC0 e2)) :=
  ⟨findNearestColor_c5.1 "zzqx" [("--primary", "#10b981")] (by decide),
    findNearestColor_c5.2.1 "#10b981" rgbC0 [("--primary", "#10b981")] (by decide)
      (by decide) (by decide)⟩

/-! ## `findNearestColorSemantic` (src/commands/compare-vars.js)

```js
const PROPERTY_CATEGORIES = {
  background: ['background', 'backgroundColor', 'bg'],
  text: ['color', 'textDecorationColor', 'caretColor'],
  border: [...],
  shadow: ['boxShadow', 'textShadow', 'box-shadow', 'text-shadow'],
  fill: ['fill', 'stroke'],
};
const VAR_NAME_CATEGORIES = {
  background: /bg|background/i, text: /text|font|foreground/i,
  border: /border|outline|ring|divide/i, shadow: /shadow/i, fill: /fill|stroke/i,
};
function getPropertyCategory(cssProp) {
  const prop = cssProp.toLowerCase();
  for (const [category, props] of Object.entries(PROPERTY_CATEGORIES))
    for (const p of props)
      if (prop === p.toLowerCase() || prop.includes(p.toLowerCase())) return category;
  return null;
}
function findNearestColorSemantic(colorStr, palette, cssProp) {
  const rgb = parseColor(colorStr); if (!rgb) return null;
  const propCategory = cssProp ? getPropertyCategory(cssProp) : null;
  let nearest = null, minDistance = Infinity, bestSemanticScore = 0;
  for (const [name, hex] of Object.entries(palette)) {
    const paletteRgb = parseColor(hex); if (!paletteRgb) continue;
    const dist = colorDistance(rgb, paletteRgb);
    let semanticScore = 0;
    if (propCategory) {
      const varPattern = VAR_NAME_CATEGORIES[propCategory];
      if (varPattern && varPattern.test(name)) semanticScore = 1;
    }
    const isBetter = dist < minDistance - 0.5 ||
      (Math.abs(dist - minDistance) <= 0.5 && semanticScore > bestSemanticScore);
    if (isBetter) { minDistance = dist; bestSemanticScore = semanticScore;
      nearest = { name, hex, distance: Math.round(dist * 100) / 100 }; }
  }
  return nearest;
}
```

The `/x|y/i.test(name)` regexes are alternations of plain literals, i.e.
caseless substring tests.  The `nearest = null, minDistance = Infinity,
bestSemanticScore = 0` initial state is `none` (a finite `dist` always
satisfies `dist < Infinity - 0.5`).  The fold state carries
`((name, hex, roundedDistance), minDistance, bestSemanticScore)`. -/

def PROPERTY_CATEGORIES : List (String × List String) := [
  ("background", ["background", "backgroundColor", "bg"]),
  ("text", ["color", "textDecorationColor", "caretColor"]),
  ("border", ["borderColor", "borderTopColor", "borderRightColor", "borderBottomColor",
    "borderLeftColor", "border-color", "border-top-color", "border-right-color",
    "border-bottom-color", "border-left-color", "outlineColor", "outline-color"]),
  ("shadow", ["boxShadow", "textShadow", "box-shadow", "text-shadow"]),
  ("fill", ["fill", "stroke"])]

def getPropertyCategory (cssProp : String) : Option String :=
  (PROPERTY_CATEGORIES.find? (fun ce =>
    ce.2.any (fun p => (jsToLower cssProp.toList == jsToLower p.toList) ||
      containsSub (jsToLower cssProp.toList) (jsToLower p.toList)))).map (fun ce => ce.1)

def varCatTest (cat : String) (name : String) : Bool :=
  ((if cat = "background" then ["bg", "background"]
    else if cat = "text" then ["text", "font", "foreground"]
    else if cat = "border" then ["border", "outline", "ring", "divide"]
    else if cat = "shadow" then ["shadow"]
    else if cat = "fill" then ["fill", "stroke"]
    else []) : List String).any
    (fun w => containsSub (jsToLower name.toList) w.toList)

def semScore (propCat : Option String) (name : String) : ℕ :=
  match propCat with
  | some cat => if varCatTest cat name then 1 else 0
  | none => 0

/-- `cssProp ? getPropertyCategory(cssProp) : null` — the empty string is
falsy in JS, so it also yields `null`. -/
def propCategoryOf (cssProp : Option String) : Option String :=
  match cssProp with
  | some p => if p = "" then none else getPropertyCategory p
  | none => none

open Classical in
noncomputable def semStep (rgb : Rgb) (propCat : Option String)
    (st : Option ((String × String × ℝ) × ℝ × ℕ)) (e : String × String) :
    Option ((String × String × ℝ) × ℝ × ℕ) :=
  match parseColor e.2 with
  | none => st
  | some prgb =>
    match st with
    | none => some ((e.1, e.2, round2R (colorDistance rgb prgb)), colorDistance rgb prgb,
        semScore propCat e.1)
    | some b =>
      if colorDistance rgb prgb < b.2.1 - 0.5 ∨
          (|colorDistance rgb prgb - b.2.1| ≤ 0.5 ∧ b.2.2 < semScore propCat e.1) then
        some ((e.1, e.2, round2R (colorDistance rgb prgb)), colorDistance rgb prgb,
          semScore propCat e.1)
      else some b

noncomputable def findNearestColorSemantic (colorStr : String)
    (palette : List (String × String)) (cssProp : Option String) :
    Option (String × String × ℝ) :=
  match parseColor colorStr with
  | none => none
  | some rgb => (palette.foldl (semStep rgb (propCategoryOf cssProp)) none).map (fun b => b.1)

theorem semStep_first (rgb : Rgb) (pc : Option String) (e : String × String) (p : Rgb)
    (h : parseColor e.2 = some p) :
    semStep rgb pc none e =
      some ((e.1, e.2, round2R (colorDistance rgb p)), colorDistance rgb p, semScore pc e.1) := by
  unfold semStep
  rw [h]

open Classical in
theorem semStep_update (rgb : Rgb) (pc : Option String) (e : String × String) (p : Rgb)
    (b : (String × String × ℝ) × ℝ × ℕ) (h : parseColor e.2 = some p) :
    semStep rgb pc (some b) e =
      if colorDistance rgb p < b.2.1 - 0.5 ∨
          (|colorDistance rgb p - b.2.1| ≤ 0.5 ∧ b.2.2 < semScore pc e.1) then
        some ((e.1, e.2, round2R (colorDistance rgb p)), colorDistance rgb p, semScore pc e.1)
      else some b := by
  unfold semStep
  rw [h]

/-- C1 counterexample: against palette `a ↦ #14b981, b ↦ #10b981,
bg-x ↦ #10ba81` with CSS property `background`, input `#10b981` has
distance 0 to entry `b` and distance > 0.5 greater to entry `bg-x`, yet
`findNearestColorSemantic` returns `bg-x`: the 0.5 tie window chains
through the intermediate entry `a` (distance ≈ 0.23, seen first), so the
claimed monotonicity fails for palettes of three or more entries. -/
theorem findNearestColorSemantic_c1_counterexample :
    parseColor "#10b981" = some rgbC0 ∧ parseColor "#10ba81" = some rgbCg ∧
    colorDistance rgbC0 rgbC0 = 0 ∧
    colorDistance rgbC0 rgbCg - colorDistance rgbC0 rgbC0 > 0.5 ∧
    (findNearestColorSemantic "#10b981"
        [("a", "#14b981"), ("b", "#10b981"), ("bg-x", "#10ba81")]
        (some "background")).map (fun r => r.1) = some "bg-x" := by
  obtain ⟨hgl, hgh⟩ := dist_C0Cg_bounds
  obtain ⟨hrl, hrh⟩ := dist_C0Cr_bounds
  have h0 := colorDistance_self rgbC0
  refine ⟨by decide, by decide, h0, by rw [h0]; linarith, ?_⟩
  unfold findNearestColorSemantic
  rw [show parseColor "#10b981" = some rgbC0 from by decide]
  show (([("a", "#14b981"), ("b", "#10b981"), ("bg-x", "#10ba81")].foldl
      (semStep rgbC0 (propCategoryOf (some "background"))) none).map (fun b => b.1)).map
    (fun r => r.1) = some "bg-x"
  rw [show propCategoryOf (some "background") = some "background" from by decide]
  simp only [List.foldl_cons, List.foldl_nil]
  rw [semStep_first rgbC0 (some "background") ("a", "#14b981") rgbCr (by decide)]
  rw [semStep_update rgbC0 (some "background") ("b", "#10b981") rgbC0 _ (by decide)]
  dsimp only
  rw [show semScore (some "background") "a" = 0 from by decide,
    show semScore (some "background") "b" = 0 from by decide]
  rw [if_neg ?hneg]
  case hneg =>
    rintro (h | ⟨-, h⟩)
    · rw [h0] at h
      linarith
    · exact lt_irrefl 0 h
  rw [semStep_update rgbC0 (some "background") ("bg-x", "#10ba81") rgbCg _ (by decide)]
  dsimp only
  rw [if_pos (Or.inr ⟨abs_le.mpr ⟨by linarith, by linarith⟩,
    by rw [show semScore (some "background") "bg-x" = 1 from by decide]; exact Nat.zero_lt_one⟩)]
  rfl

/-- C1 (amended): the 0.5-window monotonicity does hold for two-entry
palettes: if both entries parse and their distances to the parsed input
differ by more than 0.5, the closer entry is returned whichever order the
two entries are iterated in, regardless of semantic scores and of the CSS
property.  (For three or more entries the window can chain and the
guarantee fails — see the counterexample.) -/
theorem findNearestColorSemantic_amended :
    ∀ (s h1 h2 n1 n2 : String) (cssProp : Option String) (rgb p1 p2 : Rgb),
      parseColor s = some rgb → parseColor h1 = some p1 → parseColor h2 = some p2 →
      colorDistance rgb p2 - colorDistance rgb p1 > 0.5 →
      (findNearestColorSemantic s [(n1, h1), (n2, h2)] cssProp).map (fun r => r.1) = some n1 ∧
      (findNearestColorSemantic s [(n2, h2), (n1, h1)] cssProp).map (fun r => r.1) = some n1 := by
  intro s h1 h2 n1 n2 cssProp rgb p1 p2 hs hp1 hp2 hgap
  constructor
  · unfold findNearestColorSemantic
    rw [hs]
    show (([(n1, h1), (n2, h2)].foldl (semStep rgb (propCategoryOf cssProp)) none).map
      (fun b => b.1)).map (fun r => r.1) = some n1
    simp only [List.foldl_cons, List.foldl_nil]
    rw [semStep_first rgb (propCategoryOf cssProp) (n1, h1) p1 hp1]
    rw [semStep_update rgb (propCategoryOf cssProp) (n2, h2) p2 _ hp2]
    dsimp only
    rw [if_neg ?hneg1]
    case hneg1 =>
      rintro (h | ⟨ha, -⟩)
      · linarith
      · have := (abs_le.mp ha).2
        linarith
    rfl
  · unfold findNearestColorSemantic
    rw [hs]
    show (([(n2, h2), (n1, h1)].foldl (semStep rgb (propCategoryOf cssProp)) none).map
      (fun b => b.1)).map (fun r => r.1) = some n1
    simp only [List.foldl_cons, List.foldl_nil]
    rw [semStep_first rgb (propCategoryOf cssProp) (n2, h2) p2 hp2]
    rw [semStep_update rgb (propCategoryOf cssProp) (n1, h1) p1 _ hp1]
    dsimp only
    rw [if_pos (Or.inl (by linarith))]
    rfl

/-- C1 amended-claim witness: input `#10b981` against the two-entry
palette `b ↦ #10b981` (distance 0), `bg-x ↦ #10ba81` (distance ≥ 0.66):
`b` is returned in both iteration orders. -/
theorem findNearestColorSemantic_amended_witness :
    (findNearestColorSemantic "#10b981" [("b", "#10b981"), ("bg-x", "#10ba81")]
        (some "background")).map (fun r => r.1) = some "b" ∧
    (findNearestColorSemantic "#10b981" [("bg-x", "#10ba81"), ("b", "#10b981")]
        (some "background")).map (fun r => r.1) = some "b" :=
  findNearestColorSemantic_amended "#10b981" "#10b981" "#10ba81" "b" "bg-x"
    (some "background") rgbC0 rgbC0 rgbCg (by decide) (by decide) (by decide)
    (by
      have hg := dist_C0Cg_bounds.1
      have h0 := colorDistance_self rgbC0
      rw [h0]
      linarith)

/-! ## Context classifier (src/unnamed/part_004, lines 290-366)

```js
function classifyContext(result) {
  const { file, text } = result;
  const trimmed = (text || '').trim();
  if (/^\s*--[\w-]+\s*:/.test(trimmed)) return 'css-definition';
  const fileInfo = getFileInfo(file);
  if (fileInfo.isCanvasConsumer) return 'canvas';
  if (fileInfo.hasCssVarUsage && !fileInfo.isCssFile) return 'canvas';
  if (fileInfo.isThemeBuilder) return 'theme-definition';
  if (fileInfo.isDefinitionFile)
    return trimmed.includes('var(--') ? 'actionable' : 'theme-definition';
  if (fileInfo.isMappingFile) return 'mapping';
  if (/(?:content|color)\s*[:=]\s*["']#[0-9a-fA-F]/.test(trimmed) &&
      /(?:theme-color|msapplication|mask-icon|safari-pinned)/.test(trimmed)) return 'meta';
  if (/`[\s\S]*<[\s\S]*>/.test(trimmed) && /\$\x7b/.test(trimmed)) return 'generated';
  if (/^\s*['"][\w-]+\s*:.*#[0-9a-fA-F]/.test(trimmed) &&
      /['"].*['"]/.test(trimmed.split(':').slice(-1)[0] || '')) return 'mapping';
  if (/^\s*['"]#[0-9a-fA-F]\x7b3,8\x7d['"]/.test(trimmed)) return 'mapping';
  if (/^\s*css\s*:\s*['"]/.test(trimmed)) return 'mapping';
  if (/getCssVar|getComputedStyle|getPropertyValue/.test(trimmed)) return 'canvas';
  if (/\|\|\s*['"]#/.test(trimmed)) return 'canvas';
  return 'actionable';
}
function isActionable(ctx) { return ctx === 'actionable'; }
```

`getFileInfo` performs filesystem analysis; it is a collaborator and its
result record is passed in explicitly (`FileInfo`).  Each regex is an
alternation/sequence of disjoint character classes, so greedy matching is
deterministic and each is compiled to a scanner below.  Line text contains
no newline (occurrences are single search lines), so `.` and `[\s\S]`
both mean "any character" here. -/

structure FileInfo where
  isCanvasConsumer : Bool
  isDefinitionFile : Bool
  isMappingFile : Bool
  isThemeBuilder : Bool
  hasCssVarUsage : Bool
  isCssFile : Bool

def apoChar : Char := Char.ofNat 39

def backtickChar : Char := Char.ofNat 96

def lbraceChar : Char := Char.ofNat 123

def quoteChar (c : Char) : Bool := c = '"' || c = apoChar

def hexDigitChar (c : Char) : Bool :=
  c.isDigit || ('a' ≤ c && c ≤ 'f') || ('A' ≤ c && c ≤ 'F')

def wordDashChar (c : Char) : Bool := c.isAlphanum || c = '_' || c = '-'

/-- Run a position predicate at every suffix (unanchored regex test). -/
def scanB (p : List Char → Bool) : List Char → Bool
  | [] => p []
  | c :: t => p (c :: t) || scanB p t

/-- `/^\s*--[\w-]+\s*:/` -/
def cssVarDeclTest (l : List Char) : Bool :=
  match l.dropWhile isJsWs with
  | '-' :: '-' :: r =>
    !(r.takeWhile wordDashChar).isEmpty &&
    (match (r.drop (r.takeWhile wordDashChar).length).dropWhile isJsWs with
     | ':' :: _ => true
     | _ => false)
  | _ => false

/-- `(?:content|color)\s*[:=]\s*["']#[0-9a-fA-F]` at one position. -/
def metaAt (l : List Char) : Bool :=
  match (expectLit "content".toList l).orElse (fun _ => expectLit "color".toList l) with
  | some r =>
    (match r.dropWhile isJsWs with
     | c :: r2 =>
       (c = ':' || c = '=') &&
       (match r2.dropWhile isJsWs with
        | q :: '#' :: d :: _ => quoteChar q && hexDigitChar d
        | _ => false)
     | [] => false)
  | none => false

def metaKeywordTest (l : List Char) : Bool :=
  containsSub l "theme-color".toList || containsSub l "msapplication".toList ||
    containsSub l "mask-icon".toList || containsSub l "safari-pinned".toList

def metaTest (l : List Char) : Bool := scanB metaAt l && metaKeywordTest l

/-- Backtick, then `<`, then `>` in order, plus a template interpolation. -/
def generatedTest (l : List Char) : Bool :=
  (match l.dropWhile (fun c => !(c = backtickChar)) with
   | [] => false
   | _ :: r1 =>
     match r1.dropWhile (fun c => !(c = '<')) with
     | [] => false
     | _ :: r2 => r2.any (fun c => c = '>')) &&
  containsSub l ['$', lbraceChar]

/-- `#` followed by a hex digit, anywhere. -/
def hasHashHex : List Char → Bool
  | a :: b :: t => (a = '#' && hexDigitChar b) || hasHashHex (b :: t)
  | _ => false

/-- `trimmed.split(':').slice(-1)[0]`: the segment after the last colon. -/
def lastColonSeg (l : List Char) : List Char :=
  (l.reverse.takeWhile (fun c => !(c = ':'))).reverse

def twoQuotes (l : List Char) : Bool :=
  match l.dropWhile (fun c => !(quoteChar c)) with
  | [] => false
  | _ :: r => r.any (fun c => quoteChar c)

/-- `/^\s*['"][\w-]+\s*:.*#[0-9a-fA-F]/` plus two quotes in the last
colon segment. -/
def mappingQuotedTest (l : List Char) : Bool :=
  (match l.dropWhile isJsWs with
   | q :: r1 =>
     quoteChar q && !(r1.takeWhile wordDashChar).isEmpty &&
     (match (r1.drop (r1.takeWhile wordDashChar).length).dropWhile isJsWs with
      | ':' :: r2 => hasHashHex r2
      | _ => false)
   | [] => false) &&
  twoQuotes (lastColonSeg l)

/-- `/^\s*['"]#[0-9a-fA-F]\x7b3,8\x7d['"]/` -/
def objKeyTest (l : List Char) : Bool :=
  match l.dropWhile isJsWs with
  | q :: '#' :: r =>
    quoteChar q && decide (3 ≤ (r.takeWhile hexDigitChar).length) &&
    decide ((r.takeWhile hexDigitChar).length ≤ 8) &&
    (match r.drop (r.takeWhile hexDigitChar).length with
     | q2 :: _ => quoteChar q2
     | [] => false)
  | _ => false

/-- `/^\s*css\s*:\s*['"]/` -/
def cssKeyTest (l : List Char) : Bool :=
  match l.dropWhile isJsWs with
  | 'c' :: 's' :: 's' :: r =>
    (match r.dropWhile isJsWs with
     | ':' :: r2 =>
       (match r2.dropWhile isJsWs with
        | q :: _ => quoteChar q
        | [] => false)
     | _ => false)
  | _ => false

def canvasFnTest (l : List Char) : Bool :=
  containsSub l "getCssVar".toList || containsSub l "getComputedStyle".toList ||
    containsSub l "getPropertyValue".toList

/-- `\|\|\s*['"]#` at one position. -/
def orFallbackAt (l : List Char) : Bool :=
  match l with
  | '|' :: '|' :: r =>
    (match r.dropWhile isJsWs with
     | q :: '#' :: _ => quoteChar q
     | _ => false)
  | _ => false

def orFallbackTest (l : List Char) : Bool := scanB orFallbackAt l

def classifyContext (info : FileInfo) (text : String) : String :=
  if cssVarDeclTest (jsTrim text.toList) then "css-definition"
  else if info.isCanvasConsumer then "canvas"
  else if info.hasCssVarUsage && !info.isCssFile then "canvas"
  else if info.isThemeBuilder then "theme-definition"
  else if info.isDefinitionFile then
    (if containsSub (jsTrim text.toList) "var(--".toList then "actionable"
     else "theme-definition")
  else if info.isMappingFile then "mapping"
  else if metaTest (jsTrim text.toList) then "meta"
  else if generatedTest (jsTrim text.toList) then "generated"
  else if mappingQuotedTest (jsTrim text.toList) then "mapping"
  else if objKeyTest (jsTrim text.toList) then "mapping"
  else if cssKeyTest (jsTrim text.toList) then "mapping"
  else if canvasFnTest (jsTrim text.toList) then "canvas"
  else if orFallbackTest (jsTrim text.toList) then "canvas"
  else "actionable"

def contextLabel (ctx : String) : String :=
  if ctx = "actionable" then "ACTIONABLE"
  else if ctx = "css-definition" then "CSS VAR DEFINITION"
  else if ctx = "theme-definition" then "THEME DEFINITION"
  else if ctx = "canvas" then "CANVAS/WEBGL"
  else if ctx = "mapping" then "MAPPING/LOOKUP"
  else if ctx = "generated" then "GENERATED CODE"
  else if ctx = "meta" then "META/MANIFEST"
  else ctx

def isActionable (ctx : String) : Bool := ctx == "actionable"

def allFalseInfo : FileInfo := ⟨false, false, false, false, false, false⟩

def allTrueInfo : FileInfo := ⟨true, true, true, true, true, true⟩

theorem classifyContext_cases (info : FileInfo) (text : String) :
    classifyContext info text = "actionable" ∨ classifyContext info text = "css-definition" ∨
    classifyContext info text = "theme-definition" ∨ classifyContext info text = "canvas" ∨
    classifyContext info text = "mapping" ∨ classifyContext info text = "generated" ∨
    classifyContext info text = "meta" := by
  unfold classifyContext
  by_cases h1 : cssVarDeclTest (jsTrim text.toList) = true
  · rw [if_pos h1]
    exact Or.inr (Or.inl rfl)
  by_cases h2 : info.isCanvasConsumer = true
  · rw [if_neg h1, if_pos h2]
    exact Or.inr (Or.inr (Or.inr (Or.inl rfl)))
  by_cases h3 : (info.hasCssVarUsage && !info.isCssFile) = true
  · rw [if_neg h1, if_neg h2, if_pos h3]
    exact Or.inr (Or.inr (Or.inr (Or.inl rfl)))
  by_cases h4 : info.isThemeBuilder = true
  · rw [if_neg h1, if_neg h2, if_neg h3, if_pos h4]
    exact Or.inr (Or.inr (Or.inl rfl))
  by_cases h5 : info.isDefinitionFile = true
  · rw [if_neg h1, if_neg h2, if_neg h3, if_neg h4, if_pos h5]
    by_cases h5b : containsSub (jsTrim text.toList) "var(--".toList = true
    · rw [if_pos h5b]
      exact Or.inl rfl
    · rw [if_neg h5b]
      exact Or.inr (Or.inr (Or.inl rfl))
  by_cases h6 : info.isMappingFile = true
  · rw [if_neg h1, if_neg h2, if_neg h3, if_neg h4, if_neg h5, if_pos h6]
    exact Or.inr (Or.inr (Or.inr (Or.inr (Or.inl rfl))))
  by_cases h7 : metaTest (jsTrim text.toList) = true
  · rw [if_neg h1, if_neg h2, if_neg h3, if_neg h4, if_neg h5, if_neg h6, if_pos h7]
    exact Or.inr (Or.inr (Or.inr (Or.inr (Or.inr (Or.inr rfl)))))
  by_cases h8 : generatedTest (jsTrim text.toList) = true
  · rw [if_neg h1, if_neg h2, if_neg h3, if_neg h4, if_neg h5, if_neg h6, if_neg h7, if_pos h8]
    exact Or.inr (Or.inr (Or.inr (Or.inr (Or.inr (Or.inl rfl)))))
  by_cases h9 : mappingQuotedTest (jsTrim text.toList) = true
  · rw [if_neg h1, if_neg h2, if_neg h3, if_neg h4, if_neg h5, if_neg h6, if_neg h7, if_neg h8, if_pos h9]
    exact Or.inr (Or.inr (Or.inr (Or.inr (Or.inl rfl))))
  by_cases h10 : objKeyTest (jsTrim text.toList) = true
  · rw [if_neg h1, if_neg h2, if_neg h3, if_neg h4, if_neg h5, if_neg h6, if_neg h7, if_neg h8, if_neg h9, if_pos h10]
    exact Or.inr (Or.inr (Or.inr (Or.inr (Or.inl rfl))))
  by_cases h11 : cssKeyTest (jsTrim text.toList) = true
  · rw [if_neg h1, if_neg h2, if_neg h3, if_neg h4, if_neg h5, if_neg h6, if_neg h7, if_neg h8, if_neg h9, if_neg h10, if_pos h11]
    exact Or.inr (Or.inr (Or.inr (Or.inr (Or.inl rfl))))
  by_cases h12 : canvasFnTest (jsTrim text.toList) = true
  · rw [if_neg h1, if_neg h2, if_neg h3, if_neg h4, if_neg h5, if_neg h6, if_neg h7, if_neg h8, if_neg h9, if_neg h10, if_neg h11, if_pos h12]
    exact Or.inr (Or.inr (Or.inr (Or.inl rfl)))
  by_cases h13 : orFallbackTest (jsTrim text.toList) = true
  · rw [if_neg h1, if_neg h2, if_neg h3, if_neg h4, if_neg h5, if_neg h6, if_neg h7, if_neg h8, if_neg h9, if_neg h10, if_neg h11, if_neg h12, if_pos h13]
    exact Or.inr (Or.inr (Or.inr (Or.inl rfl)))
  rw [if_neg h1, if_neg h2, if_neg h3, if_neg h4, if_neg h5, if_neg h6, if_neg h7, if_neg h8, if_neg h9, if_neg h10, if_neg h11, if_neg h12, if_neg h13]
  exact Or.inl rfl

/-- Scenario C line `  return someVar || '#10b981';` (apostrophes written
via `apoChar`). -/
def scenarioOrLine : String :=
  String.mk ("  return someVar || ".toList ++ apoChar :: '#' :: "10b981".toList ++ [apoChar, ';'])

/-- C6: a line matching the CSS custom-property declaration pattern
(`--name:` at line start, optionally indented) is classified
`css-definition` for every file-analysis record, before any file-level
flag is consulted; and with an all-false file record, the theme-color meta
tag line is tagged `meta` and the `|| '#10b981'` fallback line is tagged
`canvas` (Scenario C). -/
theorem classifyContext_c6 :
    (∀ (info : FileInfo) (text : String), cssVarDeclTest (jsTrim text.toList) = true →
      classifyContext info text = "css-definition") ∧
    (∀ info : FileInfo, classifyContext info "  --primary-500: #10b981;" = "css-definition") ∧
    classifyContext allFalseInfo "<meta name=\"theme-color\" content=\"#10b981\">" = "meta" ∧
    classifyContext allFalseInfo scenarioOrLine = "canvas" := by
  have hrule : ∀ (info : FileInfo) (text : String), cssVarDeclTest (jsTrim text.toList) = true →
      classifyContext info text = "css-definition" := by
    intro info text h
    unfold classifyContext
    rw [if_pos h]
  refine ⟨hrule, fun info => hrule info _ (by decide), by decide, by decide⟩

/-- C6 witness: the declaration-pattern clause applied with an all-true
file record (every file-level flag set), showing rule 1 wins regardless. -/
theorem classifyContext_c6_witness :
    classifyContext allTrueInfo "--x: red" = "css-definition" :=
  classifyContext_c6.1 allTrueInfo "--x: red" (by decide)

/-- C10: `classifyContext` only ever returns one of the seven tags
`actionable`, `css-definition`, `theme-definition`, `canvas`, `mapping`,
`generated`, `meta` — in particular never the `effect` tag that the spec
lists — and `isActionable t` holds exactly when `t = "actionable"`. -/
theorem classifyContext_c10 :
    (∀ (info : FileInfo) (text : String),
      classifyContext info text = "actionable" ∨ classifyContext info text = "css-definition" ∨
      classifyContext info text = "theme-definition" ∨ classifyContext info text = "canvas" ∨
      classifyContext info text = "mapping" ∨ classifyContext info text = "generated" ∨
      classifyContext info text = "meta") ∧
    (∀ (info : FileInfo) (text : String), classifyContext info text ≠ "effect") ∧
    (∀ ctx : String, isActionable ctx = true ↔ ctx = "actionable") := by
  refine ⟨classifyContext_cases, ?_, ?_⟩
  · intro info text h
    rcases classifyContext_cases info text with hc | hc | hc | hc | hc | hc | hc <;>
      rw [h] at hc <;> exact absurd hc (by decide)
  · intro ctx
    unfold isActionable
    exact beq_iff_eq

/-- C10 witness: the never-`effect` clause at a concrete line and record,
and the `isActionable` equivalence at `"actionable"`. -/
theorem classifyContext_c10_witness :
    classifyContext allFalseInfo "color: red" ≠ "effect" ∧
    (isActionable "actionable" = true ↔ "actionable" = "actionable") :=
  ⟨classifyContext_c10.2.1 allFalseInfo "color: red", classifyContext_c10.2.2 "actionable"⟩

/-! ## `findPatterns` aggregation (src/commands/find-patterns.js)

```js
function extractClassList(classString) { return classString.split(/\s+/).filter(Boolean); }
function findPatterns(paths, options) {
  const minCount = parseInt(options.minCount) || 2;
  const minClasses = parseInt(options.minClasses) || 2;
  const classResults = findClassAttributes(searchPaths, options);
  const patternMap = new Map();
  for (const result of classResults) {
    const classes = extractClassList(result.classString);
    if (classes.length < minClasses) continue;
    const normalized = [...classes].sort().join(' ');
    if (!patternMap.has(normalized)) {
      patternMap.set(normalized, { normalized, classes, classCount: classes.length,
        count: 0, locations: [] });
    }
    const entry = patternMap.get(normalized);
    entry.count++;
    entry.locations.push({ file, line, column, original, context });
  }
  const patterns = Array.from(patternMap.values())
    .filter(p => p.count >= minCount)
    .sort((a, b) => b.count * b.classCount - a.count * a.classCount);
  ...
}
```

`findClassAttributes` is the search collaborator; its occurrence records
are passed in explicitly.  A JS `Map` preserves insertion order, so it is
modelled as an association list appended at the back; `Array.sort` (ES2019+)
is stable, matching `mergeSort`.  JS default `sort()` on strings compares
by code units, which is `String` lexicographic order here. -/

structure ClsOcc where
  file : String
  line : ℕ
  column : ℕ
  classString : String
deriving DecidableEq

structure PatEntry where
  normalized : String
  classes : List String
  classCount : ℕ
  count : ℕ
  locations : List ClsOcc
deriving DecidableEq

def extractClassList (s : String) : List String :=
  ((s.toList.splitOnP isJsWs).filter (fun w => !w.isEmpty)).map String.mk

/-- Lexicographic comparison of strings by character code (JS default
`sort()` comparison; identical to code-unit order on these ASCII class
names). -/
def charListLe : List Char → List Char → Bool
  | [], _ => true
  | _ :: _, [] => false
  | a :: as, b :: bs => if a < b then true else if b < a then false else charListLe as bs

def strLeB (a b : String) : Bool := charListLe a.toList b.toList

def normalizeClasses (classes : List String) : String :=
  String.intercalate " " (classes.insertionSort (fun a b => strLeB a b = true))

def occClasses (r : ClsOcc) : List String := extractClassList r.classString

def occNorm (r : ClsOcc) : String := normalizeClasses (occClasses r)

def updFn (r : ClsOcc) (e : PatEntry) : PatEntry :=
  if e.normalized == occNorm r then
    ⟨e.normalized, e.classes, e.classCount, e.count + 1, e.locations ++ [r]⟩
  else e

def mkEntry (r : ClsOcc) : PatEntry :=
  ⟨occNorm r, occClasses r, (occClasses r).length, 1, [r]⟩

def patStep (minClasses : ℕ) (m : List PatEntry) (r : ClsOcc) : List PatEntry :=
  if (occClasses r).length < minClasses then m
  else if m.any (fun e => e.normalized == occNorm r) then m.map (updFn r)
  else m ++ [mkEntry r]

def findPatterns (occs : List ClsOcc) (minCount minClasses : ℕ) : List PatEntry :=
  ((occs.foldl (patStep minClasses) []).filter (fun e => minCount ≤ e.count)).insertionSort
    (fun a b => b.count * b.classCount ≤ a.count * a.classCount)

/-- Does occurrence `r` belong to the group with normalized string `n`? -/
def occMatches (minClasses : ℕ) (n : String) (r : ClsOcc) : Bool :=
  decide (minClasses ≤ (occClasses r).length) && (occNorm r == n)

theorem updFn_normalized (r : ClsOcc) (e : PatEntry) : (updFn r e).normalized = e.normalized := by
  unfold updFn
  split <;> rfl

theorem updFn_classCount (r : ClsOcc) (e : PatEntry) : (updFn r e).classCount = e.classCount := by
  unfold updFn
  split <;> rfl

theorem patStep_skip (minClasses : ℕ) (m : List PatEntry) (r : ClsOcc)
    (h : (occClasses r).length < minClasses) : patStep minClasses m r = m := by
  unfold patStep
  rw [if_pos h]

theorem patStep_upd (minClasses : ℕ) (m : List PatEntry) (r : ClsOcc)
    (h1 : ¬(occClasses r).length < minClasses)
    (h2 : m.any (fun e => e.normalized == occNorm r) = true) :
    patStep minClasses m r = m.map (updFn r) := by
  unfold patStep
  rw [if_neg h1, if_pos h2]

theorem patStep_new (minClasses : ℕ) (m : List PatEntry) (r : ClsOcc)
    (h1 : ¬(occClasses r).length < minClasses)
    (h2 : ¬m.any (fun e => e.normalized == occNorm r) = true) :
    patStep minClasses m r = m ++ [mkEntry r] := by
  unfold patStep
  rw [if_neg h1, if_neg h2]

theorem patFold_inv (minClasses : ℕ) (occs : List ClsOcc) :
    (∀ e ∈ occs.foldl (patStep minClasses) [],
      e.count = occs.countP (occMatches minClasses e.normalized) ∧ minClasses ≤ e.classCount) ∧
    (∀ n : String, (∀ e ∈ occs.foldl (patStep minClasses) [], e.normalized ≠ n) →
      occs.countP (occMatches minClasses n) = 0) := by
  induction occs using List.reverseRecOn with
  | nil =>
    constructor
    · intro e he
      simp at he
    · intro n _
      rfl
  | append_singleton l r ih =>
    obtain ⟨ih1, ih2⟩ := ih
    have hfold : (l ++ [r]).foldl (patStep minClasses) [] =
        patStep minClasses (l.foldl (patStep minClasses) []) r := by
      rw [List.foldl_append]
      simp only [List.foldl_cons, List.foldl_nil]
    have hcnt : ∀ p : ClsOcc → Bool,
        (l ++ [r]).countP p = l.countP p + (if p r = true then 1 else 0) := by
      intro p
      rw [List.countP_append]
      simp [List.countP_cons]
    by_cases hlen : (occClasses r).length < minClasses
    · have hstep : patStep minClasses (l.foldl (patStep minClasses) []) r =
          l.foldl (patStep minClasses) [] := by
        unfold patStep
        rw [if_pos hlen]
      have hno : ∀ n, occMatches minClasses n r = false := by
        intro n
        unfold occMatches
        rw [decide_eq_false (not_le.mpr hlen)]
        rfl
      rw [hfold, hstep]
      constructor
      · intro e he
        obtain ⟨h1, h2⟩ := ih1 e he
        refine ⟨?_, h2⟩
        rw [hcnt, hno, h1]
        simp
      · intro n hn
        rw [hcnt, ih2 n hn, hno]
        simp
    · have hlen2 : minClasses ≤ (occClasses r).length := not_lt.mp hlen
      by_cases hany :
          (l.foldl (patStep minClasses) []).any (fun e => e.normalized == occNorm r) = true
      · have hstep : patStep minClasses (l.foldl (patStep minClasses) []) r =
            (l.foldl (patStep minClasses) []).map (updFn r) :=
          patStep_upd _ _ _ hlen hany
        rw [hfold, hstep]
        constructor
        · intro e' he'
          obtain ⟨e, he, rfl⟩ := List.mem_map.mp he'
          obtain ⟨h1, h2⟩ := ih1 e he
          rw [updFn_normalized, updFn_classCount]
          refine ⟨?_, h2⟩
          by_cases heq : e.normalized == occNorm r
          · have heqn : occNorm r = e.normalized := (eq_of_beq heq).symm
            have hpr : occMatches minClasses e.normalized r = true := by
              unfold occMatches
              rw [decide_eq_true hlen2, heqn]
              simp
            have hcount : (updFn r e).count = e.count + 1 := by
              unfold updFn
              rw [if_pos heq]
            rw [hcount, hcnt, hpr, h1]
            simp
          · have hpr : occMatches minClasses e.normalized r = false := by
              unfold occMatches
              rw [beq_eq_false_iff_ne.mpr (fun hq => heq (beq_iff_eq.mpr hq.symm))]
              simp
            have hcount : (updFn r e).count = e.count := by
              unfold updFn
              rw [if_neg (by simpa using heq)]
            rw [hcount, hcnt, hpr, h1]
            simp
        · intro n hn
          have hn' : ∀ e ∈ l.foldl (patStep minClasses) [], e.normalized ≠ n := by
            intro e he
            have := hn (updFn r e) (List.mem_map_of_mem _ he)
            rwa [updFn_normalized] at this
          have hne : occNorm r ≠ n := by
            intro hEq
            obtain ⟨e, he, hbe⟩ := List.any_eq_true.mp hany
            exact hn' e he (by rw [eq_of_beq hbe, hEq])
          have hpr : occMatches minClasses n r = false := by
            unfold occMatches
            rw [beq_eq_false_iff_ne.mpr hne]
            simp
          rw [hcnt, ih2 n hn', hpr]
          simp
      · have hstep : patStep minClasses (l.foldl (patStep minClasses) []) r =
            l.foldl (patStep minClasses) [] ++ [mkEntry r] :=
          patStep_new _ _ _ hlen hany
        have hnone : ∀ e ∈ l.foldl (patStep minClasses) [], ¬(e.normalized == occNorm r) := by
          intro e he hbe
          exact hany (List.any_eq_true.mpr ⟨e, he, hbe⟩)
        rw [hfold, hstep]
        constructor
        · intro e' he'
          rcases List.mem_append.mp he' with he | he
          · obtain ⟨h1, h2⟩ := ih1 e' he
            refine ⟨?_, h2⟩
            have hpr : occMatches minClasses e'.normalized r = false := by
              unfold occMatches
              rw [beq_eq_false_iff_ne.mpr
                (fun hq => hnone e' he (beq_iff_eq.mpr hq.symm))]
              simp
            rw [hcnt, hpr, h1]
            simp
          · have he2 : e' = mkEntry r := by simpa using he
            subst he2
            have hzero : l.countP (occMatches minClasses (mkEntry r).normalized) = 0 := by
              refine ih2 _ ?_
              intro e he hq
              exact hnone e he (beq_iff_eq.mpr hq)
            have hpr : occMatches minClasses (mkEntry r).normalized r = true := by
              unfold occMatches
              rw [decide_eq_true hlen2]
              simp [mkEntry]
            refine ⟨?_, hlen2⟩
            rw [hcnt, hpr, hzero]
            rfl
        · intro n hn
          have hn' : ∀ e ∈ l.foldl (patStep minClasses) [], e.normalized ≠ n := by
            intro e he
            exact hn e (List.mem_append.mpr (Or.inl he))
          have hne : occNorm r ≠ n := by
            intro hEq
            exact hn (mkEntry r) (List.mem_append.mpr (Or.inr (by simp))) (by simpa [mkEntry])
          have hpr : occMatches minClasses n r = false := by
            unfold occMatches
            rw [beq_eq_false_iff_ne.mpr hne]
            simp
          rw [hcnt, ih2 n hn', hpr]
          simp

def scenarioOccs : List ClsOcc := [
  ⟨"a.tsx", 1, 1, "flex items-center gap-2"⟩,
  ⟨"a.tsx", 9, 5, "items-center gap-2 flex"⟩,
  ⟨"b.tsx", 3, 2, "gap-2  flex items-center"⟩,
  ⟨"c.tsx", 7, 1, " items-center flex gap-2"⟩]

/-- C9: pattern aggregation normalizes each occurrence's whitespace-split
class list by sorting alphabetically and rejoining, groups occurrences by
the normalized string (each reported group's `count` equals the number of
occurrences with at least `minClasses` classes and that normalized form),
keeps only groups with at least `minClasses` classes and at least
`minCount` occurrences, and ranks the report by `count × classCount`
descending.  Scenario E: four whitespace/ordering variants of
`"flex items-center gap-2"` with `minCount = 2, minClasses = 2` yield
exactly one pattern with `occurrenceCount` 4 and impact score 12. -/
theorem findPatterns_c9 :
    (∀ (occs : List ClsOcc) (minCount minClasses : ℕ),
      List.Pairwise (fun a b => b.count * b.classCount ≤ a.count * a.classCount)
        (findPatterns occs minCount minClasses)) ∧
    (∀ (occs : List ClsOcc) (minCount minClasses : ℕ),
      ∀ e ∈ findPatterns occs minCount minClasses,
        minCount ≤ e.count ∧ minClasses ≤ e.classCount ∧
        e.count = occs.countP (occMatches minClasses e.normalized)) ∧
    (findPatterns scenarioOccs 2 2).map (fun e => (e.count, e.count * e.classCount)) =
      [(4, 12)] := by
  refine ⟨?_, ?_, by decide⟩
  · intro occs minCount minClasses
    haveI ht : IsTotal PatEntry (fun a b => b.count * b.classCount ≤ a.count * a.classCount) :=
      ⟨fun a b => le_total _ _⟩
    haveI htr : IsTrans PatEntry (fun a b => b.count * b.classCount ≤ a.count * a.classCount) :=
      ⟨fun a b c h1 h2 => le_trans h2 h1⟩
    exact List.sorted_insertionSort _ _
  · intro occs minCount minClasses e he
    unfold findPatterns at he
    rw [(List.perm_insertionSort _ _).mem_iff] at he
    obtain ⟨hmem, hcnt⟩ := List.mem_filter.mp he
    obtain ⟨h1, h2⟩ := (patFold_inv minClasses occs).1 e hmem
    exact ⟨by simpa using hcnt, h2, h1⟩

def witOccs : List ClsOcc := [⟨"a.css", 1, 1, "x y"⟩, ⟨"a.css", 2, 1, "y x"⟩]

def witPat : PatEntry := ⟨"x y", ["x", "y"], 2, 2, witOccs⟩

/-- C9 witness: the per-entry clause applied to the single pattern produced
by two occurrences of `x y` / `y x`. -/
theorem findPatterns_c9_witness :
    2 ≤ witPat.count ∧ 2 ≤ witPat.classCount ∧
    witPat.count = witOccs.countP (occMatches 2 witPat.normalized) :=
  findPatterns_c9.2.1 witOccs 2 2 witPat (by decide)

/-! ## Final result ordering (src/commands/find-tailwind.js line 100,
src/commands/compare-vars.js lines 143-174)

```js
// find-tailwind.js
const seen = new Set();
const deduped = results.filter(r => {
  const key = `${r.file}:${r.line}:${r.column}:${r.value}`;
  if (seen.has(key)) return false;
  seen.add(key);
  return true;
});
deduped.sort((a, b) => a.file.localeCompare(b.file) || a.line - b.line || a.column - b.column);

// compare-vars.js — dedup only, results stay in arrival order:
const deduped = results.filter(r => {
  const key = `${r.file}:${r.line}:${r.column}`;
  if (seen.has(key)) return false;
  seen.add(key);
  return true;
});
let finalResults = deduped;   // then output (no sort)
```

The per-occurrence loop of each command pushes one record per search
result in arrival order, so the record list parameter stands for the
search collaborator's output order.  `localeCompare` is embedded as
character-code comparison (they agree on ASCII paths), `Array.sort`
(stable, ES2019+) as a stable insertion sort. -/

def charListLt : List Char → List Char → Bool
  | [], [] => false
  | [], _ :: _ => true
  | _ :: _, [] => false
  | a :: as, b :: bs => if a < b then true else if b < a then false else charListLt as bs

theorem charListLt_trans : ∀ (x y z : List Char), charListLt x y = true →
    charListLt y z = true → charListLt x z = true := by
  intro x
  induction x with
  | nil =>
    intro y z hxy hyz
    cases y with
    | nil => exact absurd hxy (by simp [charListLt])
    | cons b bs =>
      cases z with
      | nil => exact absurd hyz (by simp [charListLt])
      | cons c cs => simp [charListLt]
  | cons a as ih =>
    intro y z hxy hyz
    cases y with
    | nil => exact absurd hxy (by simp [charListLt])
    | cons b bs =>
      cases z with
      | nil => exact absurd hyz (by simp [charListLt])
      | cons c cs =>
        rcases lt_trichotomy a b with hab | hab | hab
        · rcases lt_trichotomy b c with hbc | hbc | hbc
          · unfold charListLt
            rw [if_pos (lt_trans hab hbc)]
          · subst hbc
            unfold charListLt
            rw [if_pos hab]
          · unfold charListLt at hyz
            rw [if_neg (lt_asymm hbc), if_pos hbc] at hyz
            exact absurd hyz (by simp)
        · subst hab
          unfold charListLt at hxy
          rw [if_neg (lt_irrefl a), if_neg (lt_irrefl a)] at hxy
          rcases lt_trichotomy a c with hac | hac | hac
          · unfold charListLt
            rw [if_pos hac]
          · subst hac
            unfold charListLt at hyz ⊢
            rw [if_neg (lt_irrefl a), if_neg (lt_irrefl a)] at hyz ⊢
            exact ih bs cs hxy hyz
          · unfold charListLt at hyz
            rw [if_neg (lt_asymm hac), if_pos hac] at hyz
            exact absurd hyz (by simp)
        · unfold charListLt at hxy
          rw [if_neg (lt_asymm hab), if_pos hab] at hxy
          exact absurd hxy (by simp)

theorem charListLt_total : ∀ (x y : List Char),
    charListLt x y = true ∨ x = y ∨ charListLt y x = true := by
  intro x
  induction x with
  | nil =>
    intro y
    cases y with
    | nil => exact Or.inr (Or.inl rfl)
    | cons b bs => exact Or.inl (by simp [charListLt])
  | cons a as ih =>
    intro y
    cases y with
    | nil => exact Or.inr (Or.inr (by simp [charListLt]))
    | cons b bs =>
      rcases lt_trichotomy a b with h | h | h
      · exact Or.inl (by unfold charListLt; rw [if_pos h])
      · subst h
        rcases ih bs with h2 | h2 | h2
        · refine Or.inl ?_
          unfold charListLt
          rw [if_neg (lt_irrefl a), if_neg (lt_irrefl a)]
          exact h2
        · exact Or.inr (Or.inl (by rw [h2]))
        · refine Or.inr (Or.inr ?_)
          unfold charListLt
          rw [if_neg (lt_irrefl a), if_neg (lt_irrefl a)]
          exact h2
      · exact Or.inr (Or.inr (by unfold charListLt; rw [if_pos h]))

structure TwRec where
  file : String
  line : ℕ
  column : ℕ
  value : String
deriving DecidableEq

def twKey (r : TwRec) : String :=
  r.file ++ ":" ++ toString r.line ++ ":" ++ toString r.column ++ ":" ++ r.value

def twLeB (a b : TwRec) : Bool :=
  charListLt a.file.toList b.file.toList ||
  (a.file == b.file &&
    (decide (a.line < b.line) || (a.line == b.line && decide (a.column ≤ b.column))))

theorem twLeB_iff (a b : TwRec) : twLeB a b = true ↔
    (charListLt a.file.toList b.file.toList = true ∨
      (a.file = b.file ∧ (a.line < b.line ∨ (a.line = b.line ∧ a.column ≤ b.column)))) := by
  simp [twLeB, Bool.or_eq_true, Bool.and_eq_true, beq_iff_eq, decide_eq_true_eq]

theorem string_toList_inj {a b : String} (h : a.toList = b.toList) : a = b := by
  cases a
  cases b
  simp only [String.toList] at h
  rw [h]

theorem twLeB_total (a b : TwRec) : twLeB a b = true ∨ twLeB b a = true := by
  rcases charListLt_total a.file.toList b.file.toList with h | h | h
  · exact Or.inl ((twLeB_iff a b).mpr (Or.inl h))
  · have hf : a.file = b.file := string_toList_inj h
    rcases Nat.lt_trichotomy a.line b.line with h2 | h2 | h2
    · exact Or.inl ((twLeB_iff a b).mpr (Or.inr ⟨hf, Or.inl h2⟩))
    · rcases Nat.le_total a.column b.column with h3 | h3
      · exact Or.inl ((twLeB_iff a b).mpr (Or.inr ⟨hf, Or.inr ⟨h2, h3⟩⟩))
      · exact Or.inr ((twLeB_iff b a).mpr (Or.inr ⟨hf.symm, Or.inr ⟨h2.symm, h3⟩⟩))
    · exact Or.inr ((twLeB_iff b a).mpr (Or.inr ⟨hf.symm, Or.inl h2⟩))
  · exact Or.inr ((twLeB_iff b a).mpr (Or.inl h))

theorem twLeB_trans (a b c : TwRec) (hab : twLeB a b = true) (hbc : twLeB b c = true) :
    twLeB a c = true := by
  rcases (twLeB_iff a b).mp hab with h1 | ⟨hf1, h1⟩
  · rcases (twLeB_iff b c).mp hbc with h2 | ⟨hf2, h2⟩
    · exact (twLeB_iff a c).mpr (Or.inl (charListLt_trans _ _ _ h1 h2))
    · exact (twLeB_iff a c).mpr (Or.inl (hf2 ▸ h1))
  · rcases (twLeB_iff b c).mp hbc with h2 | ⟨hf2, h2⟩
    · exact (twLeB_iff a c).mpr (Or.inl (hf1 ▸ h2))
    · refine (twLeB_iff a c).mpr (Or.inr ⟨hf1.trans hf2, ?_⟩)
      rcases h1 with h1 | ⟨h1a, h1b⟩ <;> rcases h2 with h2 | ⟨h2a, h2b⟩
      · exact Or.inl (lt_trans h1 h2)
      · exact Or.inl (h2a ▸ h1)
      · exact Or.inl (h1a ▸ h2)
      · exact Or.inr ⟨h1a.trans h2a, le_trans h1b h2b⟩

def dedupTwAux (seen : List String) : List TwRec → List TwRec
  | [] => []
  | r :: t =>
    if seen.contains (twKey r) then dedupTwAux seen t
    else r :: dedupTwAux (twKey r :: seen) t

def findTailwindFinal (results : List TwRec) : List TwRec :=
  (dedupTwAux [] results).insertionSort (fun a b => twLeB a b = true)

structure CvRec where
  file : String
  line : ℕ
  column : ℕ
deriving DecidableEq

def cvKey (r : CvRec) : String :=
  r.file ++ ":" ++ toString r.line ++ ":" ++ toString r.column

def cvLeB (a b : CvRec) : Bool :=
  charListLt a.file.toList b.file.toList ||
  (a.file == b.file &&
    (decide (a.line < b.line) || (a.line == b.line && decide (a.column ≤ b.column))))

def dedupCvAux (seen : List String) : List CvRec → List CvRec
  | [] => []
  | r :: t =>
    if seen.contains (cvKey r) then dedupCvAux seen t
    else r :: dedupCvAux (cvKey r :: seen) t

/-- The comparison pipeline's final list: dedup only, no sort
(compare-vars.js lines 143-174). -/
def compareVarsFinal (results : List CvRec) : List CvRec := dedupCvAux [] results

theorem dedupCvAux_sublist (seen : List String) :
    ∀ l : List CvRec, (dedupCvAux seen l).Sublist l := by
  intro l
  induction l generalizing seen with
  | nil => exact List.Sublist.refl []
  | cons r t ih =>
    unfold dedupCvAux
    split_ifs with h
    · exact (ih seen).cons r
    · exact (ih (cvKey r :: seen)).cons₂ r

/-- C2 counterexample: the color-comparison pipeline performs
deduplication but no sort, so two occurrence records arriving as
`b.css:1:1, a.css:1:1` are reported in that arrival order, which is not
sorted by file path: the claimed ordering guarantee fails for the
comparison command (it holds for `find-tailwind`, whose results are
sorted — see the amended theorem). -/
theorem compareVars_c2_counterexample :
    compareVarsFinal [⟨"b.css", 1, 1⟩, ⟨"a.css", 1, 1⟩] =
      [⟨"b.css", 1, 1⟩, ⟨"a.css", 1, 1⟩] ∧
    ¬ List.Pairwise (fun a b : CvRec => cvLeB a b = true)
      (compareVarsFinal [⟨"b.css", 1, 1⟩, ⟨"a.css", 1, 1⟩]) := by
  constructor
  · decide
  · decide

/-- C2 (amended): `find-tailwind`'s final reported list is sorted by file
path, then line, then column, for every arrival order of the search
results; the color-comparison pipeline only deduplicates — its final list
is a subsequence of the records in arrival order, and is not re-sorted
(the older pipeline variant in src/unnamed/part_002 sorts by status
precedence first, not by file/line/column either). -/
theorem resultOrdering_amended :
    (∀ results : List TwRec,
      List.Pairwise (fun a b => twLeB a b = true) (findTailwindFinal results)) ∧
    (∀ results : List CvRec, (compareVarsFinal results).Sublist results) := by
  constructor
  · intro results
    haveI : IsTotal TwRec (fun a b => twLeB a b = true) := ⟨twLeB_total⟩
    haveI : IsTrans TwRec (fun a b => twLeB a b = true) := ⟨twLeB_trans⟩
    exact List.sorted_insertionSort _ _
  · intro results
    exact dedupCvAux_sublist [] results

/-! ## `compareVars` palette guards (src/commands/compare-vars.js lines 49-62)

```js
function compareVars(paths, options) {
  if (!options.vars) {
    console.error('Error: --vars <file> is required. Specify a CSS, JSON, JS, or TS variables file.');
    process.exitCode = 1;
    return;
  }
  const palette = parseVariablesFile(options.vars);
  if (!palette || Object.keys(palette).length === 0) {
    console.error(`Error: No color variables found in $\x7boptions.vars\x7d`);
    process.exitCode = 1;
    return;
  }
  ...
  const rawResults = search(colorPattern, paths, {...});   // only reached past the guards
  for (const result of rawResults) { ... }
}

function parseJsonColors(content) {
  const palette = {};
  try { flattenColors(JSON.parse(content), '', palette); } catch {}
  return palette;
}
function flattenColors(obj, prefix, result) {
  for (const [key, value] of Object.entries(obj)) {
    const fullKey = prefix ? `$\x7bprefix\x7d.$\x7bkey\x7d` : key;
    if (typeof value === 'string') {
      const hex = normalizeToHex(value);
      if (hex) result[fullKey] = hex;
    } else if (typeof value === 'object' && value !== null) {
      flattenColors(value, fullKey, result);
    }
  }
}
```

The filesystem read and the search are collaborators: the parsed JSON
value and the search results are passed in explicitly, and the
per-occurrence loop is a `process` parameter (its content is verified
separately).  `Jval.other` covers JSON numbers, booleans and null, which
contribute nothing (not strings, not recursed-into maps with entries that
could normalize); a non-object top level contributes no entries
(`Object.entries` of a string yields single characters, which never
normalize). -/

inductive Jval where
  | str (s : String)
  | obj (fields : List (String × Jval))
  | other

mutual
def flattenVal (fullKey : String) : Jval → List (String × String)
  | .str s =>
    match normalizeToHex s with
    | some hx => [(fullKey, hx)]
    | none => []
  | .obj fields => flattenFields fullKey fields
  | .other => []

def flattenFields (pre : String) : List (String × Jval) → List (String × String)
  | [] => []
  | (k, v) :: t => flattenVal (if pre = "" then k else pre ++ "." ++ k) v ++ flattenFields pre t
end

def parseJsonColors (j : Jval) : List (String × String) :=
  match j with
  | .obj fields => flattenFields "" fields
  | _ => []

mutual
def valHasColor : Jval → Bool
  | .str s => (normalizeToHex s).isSome
  | .obj fields => fieldsHaveColor fields
  | .other => false

def fieldsHaveColor : List (String × Jval) → Bool
  | [] => false
  | (_, v) :: t => valHasColor v || fieldsHaveColor t
end

structure RawOcc where
  file : String
  line : ℕ
  column : ℕ
  matchStr : String
  text : String
deriving DecidableEq

inductive CvOutcome where
  | fatal (msg : String)
  | report (records : List CvRec)
deriving DecidableEq

def compareVarsRun (process : List RawOcc → List CvRec) (varsOpt : Option String)
    (paletteJson : Jval) (searchResults : List RawOcc) : CvOutcome :=
  match varsOpt with
  | none =>
    .fatal "Error: --vars <file> is required. Specify a CSS, JSON, JS, or TS variables file."
  | some varsPath =>
    if (parseJsonColors paletteJson).isEmpty then
      .fatal ("Error: No color variables found in " ++ varsPath)
    else
      .report (process searchResults)

mutual
theorem flattenVal_nil (k : String) (v : Jval) (h : valHasColor v = false) :
    flattenVal k v = [] := by
  match v with
  | .str s =>
    unfold valHasColor at h
    have hn : normalizeToHex s = none := by
      cases hcase : normalizeToHex s with
      | none => rfl
      | some x =>
        rw [hcase] at h
        simp at h
    unfold flattenVal
    rw [hn]
  | .obj fields =>
    unfold valHasColor at h
    unfold flattenVal
    exact flattenFields_nil k fields h
  | .other => rfl

theorem flattenFields_nil (pre : String) (fields : List (String × Jval))
    (h : fieldsHaveColor fields = false) : flattenFields pre fields = [] := by
  match fields with
  | [] => rfl
  | (k, v) :: t =>
    unfold fieldsHaveColor at h
    rw [Bool.or_eq_false_iff] at h
    unfold flattenFields
    rw [flattenVal_nil _ v h.1, flattenFields_nil pre t h.2]
    rfl
end

/-- C7: when the `--vars` option is missing, or the palette file yields
zero entries (in particular a JSON object none of whose string leaves
normalizes to a valid hex color), `compareVars` returns a fatal,
user-visible error outcome whose value does not depend on the search
collaborator's results or on the per-occurrence processing function — no
occurrence is processed or reported (both are universally quantified and
absent from the outcome). -/
theorem compareVars_c7 :
    (∀ (process : List RawOcc → List CvRec) (json : Jval) (searchResults : List RawOcc),
      compareVarsRun process none json searchResults =
        .fatal "Error: --vars <file> is required. Specify a CSS, JSON, JS, or TS variables file.") ∧
    (∀ (process : List RawOcc → List CvRec) (varsPath : String) (json : Jval)
        (searchResults : List RawOcc), parseJsonColors json = [] →
      compareVarsRun process (some varsPath) json searchResults =
        .fatal ("Error: No color variables found in " ++ varsPath)) ∧
    (∀ (process : List RawOcc → List CvRec) (varsPath : String)
        (fields : List (String × Jval)) (searchResults : List RawOcc),
      fieldsHaveColor fields = false →
      compareVarsRun process (some varsPath) (.obj fields) searchResults =
        .fatal ("Error: No color variables found in " ++ varsPath)) := by
  refine ⟨?_, ?_, ?_⟩
  · intro process json searchResults
    rfl
  · intro process varsPath json searchResults h
    show (if (parseJsonColors json).isEmpty then
        CvOutcome.fatal ("Error: No color variables found in " ++ varsPath)
      else CvOutcome.report (process searchResults)) =
      CvOutcome.fatal ("Error: No color variables found in " ++ varsPath)
    rw [if_pos (by rw [h]; rfl)]
  · intro process varsPath fields searchResults h
    have hempty : parseJsonColors (.obj fields) = [] := flattenFields_nil "" fields h
    show (if (parseJsonColors (.obj fields)).isEmpty then
        CvOutcome.fatal ("Error: No color variables found in " ++ varsPath)
      else CvOutcome.report (process searchResults)) =
      CvOutcome.fatal ("Error: No color variables found in " ++ varsPath)
    rw [if_pos (by rw [hempty]; rfl)]

/-- C7 witness: the missing-`--vars` clause, and the
zero-normalizable-entries clause on the palette `\x7b"a": "notacolor"\x7d`
with a non-empty search result list. -/
theorem compareVars_c7_witness :
    compareVarsRun (fun _ => []) none Jval.other [] =
      .fatal "Error: --vars <file> is required. Specify a CSS, JSON, JS, or TS variables file." ∧
    compareVarsRun (fun _ => [⟨"x.css", 1, 1⟩]) (some "theme.json")
        (.obj [("a", .str "notacolor")]) [⟨"a.css", 1, 1, "#fff", "color: #fff"⟩] =
      .fatal ("Error: No color variables found in " ++ "theme.json") :=
  ⟨compareVars_c7.1 _ _ _,
    compareVars_c7.2.2 _ "theme.json" [("a", .str "notacolor")] _ (by decide)⟩
